import Mathlib

/-!
# Patch and routing management of the audio HAL (`hal-pal/AudioDevice.cpp`)

A shallow embedding of `AudioDevice::CreateAudioPatch`,
`AudioDevice::ReleaseAudioPatch`, the stream lookups they use,
`AudioPatch::generate_patch_handle_l`, the device translation
(`FillAndroidDeviceMap`, `GetPalDeviceIds`), `AudioDevice::SetParameters`, the card
status callback and the open and close stream entry points, followed by theorems
about them.

Conventions of the embedding.

* `int` values (`audio_patch_handle_t`, `audio_io_handle_t`, status codes) are
  `Int`; the only arithmetic that can overflow is the handle counter, which is
  wrapped explicitly by `wrap_int32`.
* `std::vector` is `List`, `std::set<audio_devices_t>` is `Finset Nat`,
  `std::map<audio_patch_handle_t, AudioPatch*>` is an association list kept in
  key order by `map_assign`.
* A pointer that may be null is an `Option`; `voice_` only records whether the
  pointer is set.
* `Stream::RouteStream` and `AudioVoice::RouteStream` live outside this file:
  their results come from an `Env`, and every call made is recorded, in order,
  in the `calls` field of the result.
* `patch_map_mutex` is a held/free flag.  Taking it while it is held never
  returns (`Fault.deadlock`).  The two stream-list mutexes are taken and given
  back inside `OutGetStream` / `InGetStream` with no exit in between, and so is
  the `patch_lock` of the `AudioPatch` constructor, so they are not part of the
  state.
* A call runs from its first statement to its return with no other call in
  between.
* `audio_devices_t` is `Nat` with the values of `system/audio.h`; `pal_device_id_t`
  is an inductive type.  The header functions `audio_is_usb_out_device`,
  `audio_is_usb_in_device`, `audio_is_input_device`, the constant
  `MAX_STREAMS_PER_CONTROLLER` and the results of `pal_set_param`, `calloc` and
  `realloc` come from a `SysEnv`; the blocks handed to `pal_set_param` are recorded,
  in order, in the `calls` field of the result.
* The key/value string of `SetParameters` is taken after parsing, as a `str_parms`.
* The steps of the two patch operations on `patch_map_mutex` are listed a second time,
  as a list of `PatchStep`, to say where the routing calls stand relative to the lock;
  `create_steps_sound` and `release_steps_sound` tie the lists to the methods.
* `Reachable` is the set of device states of a run: from the empty patch table, by
  calls of `CreateAudioPatch` and `ReleaseAudioPatch` that return.
-/

namespace AudioHal

/-! ## Constants of the platform headers -/

/-- The value of `EINVAL` in `errno.h`. -/
def EINVAL : Int := 22

/-- The value of `ENOSYS` in `errno.h`. -/
def ENOSYS : Int := 38

/-- The sentinel `AUDIO_PATCH_HANDLE_NONE` of `system/audio.h`. -/
def AUDIO_PATCH_HANDLE_NONE : Int := 0

/-- The sentinel `AUDIO_IO_HANDLE_NONE` of `system/audio.h`. -/
def AUDIO_IO_HANDLE_NONE : Int := 0

/-- The bound `AUDIO_PATCH_PORTS_MAX` of `system/audio.h`. -/
def AUDIO_PATCH_PORTS_MAX : Nat := 16

/-- The device `AUDIO_DEVICE_NONE` of `system/audio.h`. -/
def AUDIO_DEVICE_NONE : Nat := 0

/-- The value `AUDIO_SOURCE_DEFAULT` of `system/audio.h`. -/
def AUDIO_SOURCE_DEFAULT : Int := 0

/-- The largest `int32_t`. -/
def INT32_MAX : Int := 2147483647

/-! ## Data model -/

/-- The enumeration `audio_port_type_t`. -/
inductive audio_port_type_t
  | AUDIO_PORT_TYPE_NONE
  | AUDIO_PORT_TYPE_DEVICE
  | AUDIO_PORT_TYPE_MIX
  | AUDIO_PORT_TYPE_SESSION
  deriving DecidableEq, Repr

/-- The fields of `struct audio_port_config` that the patch code reads.  `ext` is a
union in C; each member path that the code reads (`ext.device.type`,
`ext.mix.handle`, `ext.mix.usecase.source`) is a field of its own here, so a
statement over all port configs covers every way the members may overlap. -/
structure audio_port_config where
  id : Int
  role : Nat
  type : audio_port_type_t
  ext_device_type : Nat
  ext_mix_handle : Int
  ext_mix_usecase_source : Int
  deriving DecidableEq, Repr

/-- The enumeration `AudioPatch::PatchType`. -/
inductive PatchType
  | PATCH_NONE
  | PATCH_PLAYBACK
  | PATCH_CAPTURE
  | PATCH_DEVICE_LOOPBACK
  deriving DecidableEq, Repr

/-- The class `AudioPatch`: handle, type, sources and sinks. -/
structure AudioPatch where
  handle : Int
  type : PatchType
  sources : List audio_port_config
  sinks : List audio_port_config
  deriving DecidableEq, Repr

/-- A stream object (`StreamOutPrimary` or `StreamInPrimary`): `id` is the identity
of the object behind the shared pointer, `handle_` its I/O handle. -/
structure StreamPrimary where
  id : Nat
  handle_ : Int
  deriving DecidableEq, Repr

/-- The enumeration `pal_device_id_t` of `PalDefs.h`, for the enumerators that
`AudioDevice.cpp` names, with `PAL_DEVICE_OUT_MIN`, the enumerator of value 0 that a
buffer from `calloc` holds. -/
inductive pal_device_id_t
  | PAL_DEVICE_OUT_MIN
  | PAL_DEVICE_NONE
  | PAL_DEVICE_OUT_HANDSET
  | PAL_DEVICE_OUT_SPEAKER
  | PAL_DEVICE_OUT_WIRED_HEADSET
  | PAL_DEVICE_OUT_WIRED_HEADPHONE
  | PAL_DEVICE_OUT_BLUETOOTH_SCO
  | PAL_DEVICE_OUT_BLUETOOTH_A2DP
  | PAL_DEVICE_OUT_AUX_DIGITAL
  | PAL_DEVICE_OUT_HDMI
  | PAL_DEVICE_OUT_USB_DEVICE
  | PAL_DEVICE_OUT_USB_HEADSET
  | PAL_DEVICE_OUT_SPDIF
  | PAL_DEVICE_OUT_FM
  | PAL_DEVICE_OUT_AUX_LINE
  | PAL_DEVICE_OUT_PROXY
  | PAL_DEVICE_OUT_AUX_DIGITAL_1
  | PAL_DEVICE_IN_HANDSET_MIC
  | PAL_DEVICE_IN_SPEAKER_MIC
  | PAL_DEVICE_IN_BLUETOOTH_SCO_HEADSET
  | PAL_DEVICE_IN_WIRED_HEADSET
  | PAL_DEVICE_IN_AUX_DIGITAL
  | PAL_DEVICE_IN_HDMI
  | PAL_DEVICE_IN_USB_ACCESSORY
  | PAL_DEVICE_IN_USB_HEADSET
  | PAL_DEVICE_IN_FM_TUNER
  | PAL_DEVICE_IN_LINE
  | PAL_DEVICE_IN_SPDIF
  | PAL_DEVICE_IN_PROXY
  deriving DecidableEq, Repr

/-- The enumeration `pal_speaker_rotation_type` of `PalDefs.h`. -/
inductive pal_speaker_rotation_type
  | PAL_SPEAKER_ROTATION_LR
  | PAL_SPEAKER_ROTATION_RL
  deriving DecidableEq, Repr

/-- The value `CARD_STATUS_OFFLINE` of `card_status_t`. -/
def CARD_STATUS_OFFLINE : Nat := 0

/-- The value `CARD_STATUS_ONLINE` of `card_status_t`. -/
def CARD_STATUS_ONLINE : Nat := 1

/-- The members of `AudioDevice` that the code below reads or writes, with the
function-local static counter `handles` of `generate_patch_handle_l`.  The patch map
stores pointers; the only store is of the result of `new AudioPatch`, so a value of
the map is a patch, never a null pointer.  The values given to the later fields are
only what a sample device gets when it does not set them. -/
structure AudioDevice where
  stream_out_list_ : List StreamPrimary
  stream_in_list_ : List StreamPrimary
  patch_map_ : List (Int × AudioPatch)
  patch_map_mutex : Bool
  voice_ : Bool
  handles : Int
  /-- The member `stream_out_primary_` of the voice object. -/
  voice_stream_out_primary_ : Option StreamPrimary := none
  /-- The static member `sndCardState`, as the number the callback stored. -/
  sndCardState : Nat := CARD_STATUS_ONLINE
  current_rotation : pal_speaker_rotation_type :=
    pal_speaker_rotation_type.PAL_SPEAKER_ROTATION_LR
  usb_card_id_ : Int := 0
  usb_dev_num_ : Int := 0
  usb_input_dev_enabled : Bool := false
  dp_controller : Int := 0
  dp_stream : Int := 0
  /-- The map `android_device_map_`, in the order of its keys. -/
  android_device_map_ : List (Nat × pal_device_id_t) := []
  deriving DecidableEq, Repr

/-- The results of the calls that leave this file. -/
structure Env where
  stream_RouteStream : StreamPrimary → Finset Nat → Int
  voice_RouteStream : Finset Nat → Int

/-- One routing call made by an operation. -/
inductive RouteCall
  | stream (s : StreamPrimary) (devices : Finset Nat)
  | voice (devices : Finset Nat)
  deriving DecidableEq

/-- Ways in which an operation fails to return. -/
inductive Fault
  | deadlock
  | null_deref
  | out_of_range
  deriving DecidableEq, Repr

/-- What `CreateAudioPatch` leaves behind: the status, the value behind the `handle`
pointer (`none` for a null pointer), the device and the routing calls made. -/
structure CreateResult where
  ret : Int
  handle : Option Int
  adev : AudioDevice
  calls : List RouteCall
  deriving DecidableEq

/-- What `ReleaseAudioPatch` leaves behind. -/
structure ReleaseResult where
  ret : Int
  adev : AudioDevice
  calls : List RouteCall
  deriving DecidableEq

/-! ## The patch map -/

/-- The lookup `patch_map_.find(k)`: the value under `k`, if any. -/
def map_find : List (Int × AudioPatch) → Int → Option AudioPatch
  | [], _ => none
  | (k', v) :: rest, k => if k' = k then some v else map_find rest k

/-- The assignment `patch_map_[k] = v`: replaces the value under `k`, or inserts a
new entry at its place in key order. -/
def map_assign : List (Int × AudioPatch) → Int → AudioPatch → List (Int × AudioPatch)
  | [], k, v => [(k, v)]
  | (k', v') :: rest, k, v =>
    if k = k' then (k, v) :: rest
    else if k < k' then (k, v) :: (k', v') :: rest
    else (k', v') :: map_assign rest k v

/-- A write through the pointer that `patch_map_.find(k)` gave: the entry found
under `k` is changed by `f`, nothing else moves. -/
def map_modify : List (Int × AudioPatch) → Int → (AudioPatch → AudioPatch) →
    List (Int × AudioPatch)
  | [], _, _ => []
  | (k', v) :: rest, k, f =>
    if k' = k then (k', f v) :: rest else (k', v) :: map_modify rest k f

/-- The removal `patch_map_.erase(k)`. -/
def map_erase : List (Int × AudioPatch) → Int → List (Int × AudioPatch)
  | [], _ => []
  | (k', v) :: rest, k => if k' = k then map_erase rest k else (k', v) :: map_erase rest k

/-- The keys of the patch map, in order. -/
def map_keys (m : List (Int × AudioPatch)) : List Int := m.map Prod.fst

/-! ## Patch handles -/

/-- The value an `int` holds after an arithmetic result `x` wrapped to 32 bits. -/
def wrap_int32 (x : Int) : Int := (x + 2147483648) % 4294967296 - 2147483648

/-- The function `AudioPatch::generate_patch_handle_l`, on the value of its static
counter: the result is both the new value of the counter and the handle.  The
increment `++handles` wraps to 32 bits, the case that the test `< 0` after it is
written for. -/
def AudioPatch.generate_patch_handle_l (handles : Int) : Int :=
  let handles1 := wrap_int32 (handles + 1)
  if handles1 < 0 then AUDIO_PATCH_HANDLE_NONE + 1 else handles1

/-! ## Stream lookup -/

/-- The lookup `AudioDevice::OutGetStream(audio_io_handle_t)`: the first output
stream with that I/O handle. -/
def AudioDevice.OutGetStream (adev : AudioDevice) (handle : Int) : Option StreamPrimary :=
  adev.stream_out_list_.find? (fun s => decide (s.handle_ = handle))

/-- The lookup `AudioDevice::InGetStream(audio_io_handle_t)`: the first input
stream with that I/O handle. -/
def AudioDevice.InGetStream (adev : AudioDevice) (handle : Int) : Option StreamPrimary :=
  adev.stream_in_list_.find? (fun s => decide (s.handle_ = handle))

/-! ## Creating and releasing patches -/

/-- The values that the switch of `CreateAudioPatch` sets for a supported patch. -/
structure PatchRoute where
  patch_type : PatchType
  io_handle : Int
  input_source : Int
  device_types : Finset Nat
  deriving DecidableEq

/-- The loop `for (sink : sinks) device_types.insert(sink.ext.device.type)`. -/
def insert_sink_devices (sinks : List audio_port_config) (device_types : Finset Nat) :
    Finset Nat :=
  sinks.foldl (fun acc sink => insert sink.ext_device_type acc) device_types

/-- The switch on `sources[0].type` in `CreateAudioPatch`, for `src0 = sources[0]`
and `snk0 = sinks[0]`: the status of an early return, or the values it sets. -/
def CreateAudioPatch_switch (src0 snk0 : audio_port_config) (sinks : List audio_port_config) :
    Except Int PatchRoute :=
  match src0.type with
  | audio_port_type_t.AUDIO_PORT_TYPE_DEVICE =>
    if snk0.type = audio_port_type_t.AUDIO_PORT_TYPE_MIX then
      .ok ⟨PatchType.PATCH_CAPTURE, snk0.ext_mix_handle, snk0.ext_mix_usecase_source,
        insert src0.ext_device_type ∅⟩
    else
      .error (-ENOSYS)
  | audio_port_type_t.AUDIO_PORT_TYPE_MIX =>
    .ok ⟨PatchType.PATCH_PLAYBACK, src0.ext_mix_handle, AUDIO_SOURCE_DEFAULT,
      insert_sink_devices sinks ∅⟩
  | audio_port_type_t.AUDIO_PORT_TYPE_SESSION => .error (-EINVAL)
  | audio_port_type_t.AUDIO_PORT_TYPE_NONE => .error (-EINVAL)

/-- The stream lookup shared by `CreateAudioPatch` and `ReleaseAudioPatch`: the output
list for a playback patch, the input list for every other type. -/
def AudioDevice.patch_stream (adev : AudioDevice) (patch_type : PatchType) (io_handle : Int) :
    Option StreamPrimary :=
  if patch_type = PatchType.PATCH_PLAYBACK then adev.OutGetStream io_handle
  else adev.InGetStream io_handle

/-- The routing step of `CreateAudioPatch`: the status and the calls made. -/
def CreateAudioPatch_route (env : Env) (voice_ : Bool) (st : StreamPrimary)
    (patch_type : PatchType) (device_types : Finset Nat) : Int × List RouteCall :=
  let ret := env.stream_RouteStream st device_types
  if voice_ && decide (patch_type = PatchType.PATCH_PLAYBACK) then
    (Int.lor ret (env.voice_RouteStream device_types),
      [RouteCall.stream st device_types, RouteCall.voice device_types])
  else (ret, [RouteCall.stream st device_types])

/-- The method `AudioDevice::CreateAudioPatch`. -/
def AudioDevice.CreateAudioPatch (env : Env) (adev : AudioDevice) (handle : Option Int)
    (sources sinks : List audio_port_config) : Except Fault CreateResult :=
  if handle.isNone || sources.isEmpty || decide (sources.length > AUDIO_PATCH_PORTS_MAX) ||
      sinks.isEmpty || decide (sinks.length > AUDIO_PATCH_PORTS_MAX) then
    .ok ⟨-EINVAL, handle, adev, []⟩
  else if sources.length > 1 then
    .ok ⟨-EINVAL, handle, adev, []⟩
  else
    match handle, sources, sinks with
    | some h, src0 :: _, snk0 :: _ =>
      match CreateAudioPatch_switch src0 snk0 sinks with
      | .error status => .ok ⟨status, handle, adev, []⟩
      | .ok pr =>
        match adev.patch_stream pr.patch_type pr.io_handle with
        | none => .ok ⟨-EINVAL, handle, adev, []⟩
        | some st =>
          let routed := CreateAudioPatch_route env adev.voice_ st pr.patch_type pr.device_types
          if h = AUDIO_PATCH_HANDLE_NONE then
            -- new AudioPatch(patch_type, sources, sinks); *handle = patch->handle
            let new_handle := AudioPatch.generate_patch_handle_l adev.handles
            let patch : AudioPatch := ⟨new_handle, pr.patch_type, sources, sinks⟩
            let adev1 := { adev with handles := new_handle }
            if routed.1 ≠ 0 then
              .ok ⟨routed.1, some patch.handle, adev1, routed.2⟩
            else if adev1.patch_map_mutex then
              .error Fault.deadlock
            else
              .ok ⟨routed.1, some patch.handle,
                { adev1 with patch_map_ := map_assign adev1.patch_map_ patch.handle patch },
                routed.2⟩
          else if adev.patch_map_mutex then
            .error Fault.deadlock
          else
            match map_find adev.patch_map_ h with
            | none => .ok ⟨-EINVAL, handle, adev, []⟩
            | some _ =>
              let adev1 := { adev with
                patch_map_ := map_modify adev.patch_map_ h
                  (fun p => { p with type := pr.patch_type, sources := sources, sinks := sinks }) }
              .ok ⟨routed.1, handle, adev1, routed.2⟩
    | _, _, _ => .error Fault.out_of_range

/-- The switch on `patch->sources[0].type` in `ReleaseAudioPatch`: `some io_handle`
when it falls through to the code after it, `none` when it returns `-EINVAL`. -/
def ReleaseAudioPatch_switch (patch : AudioPatch) : Except Fault (Option Int) :=
  match patch.sources with
  | [] => .error Fault.out_of_range
  | src0 :: _ =>
    match src0.type with
    | audio_port_type_t.AUDIO_PORT_TYPE_MIX => .ok (some src0.ext_mix_handle)
    | audio_port_type_t.AUDIO_PORT_TYPE_DEVICE =>
      if patch.type = PatchType.PATCH_CAPTURE then
        match patch.sinks with
        | [] => .error Fault.out_of_range
        | snk0 :: _ => .ok (some snk0.ext_mix_handle)
      else .ok (some AUDIO_IO_HANDLE_NONE)
    | audio_port_type_t.AUDIO_PORT_TYPE_SESSION => .ok none
    | audio_port_type_t.AUDIO_PORT_TYPE_NONE => .ok none

/-- The method `AudioDevice::ReleaseAudioPatch`. -/
def AudioDevice.ReleaseAudioPatch (env : Env) (adev : AudioDevice) (handle : Int) :
    Except Fault ReleaseResult :=
  if handle = AUDIO_PATCH_HANDLE_NONE then
    .ok ⟨-EINVAL, adev, []⟩
  else if adev.patch_map_mutex then
    .error Fault.deadlock
  else
    -- patch_map_mutex.lock()
    let locked := { adev with patch_map_mutex := true }
    match map_find locked.patch_map_ handle with
    | none => .ok ⟨-EINVAL, locked, []⟩
    | some patch =>
      match ReleaseAudioPatch_switch patch with
      | .error fault => .error fault
      | .ok none => .ok ⟨-EINVAL, locked, []⟩
      | .ok (some io_handle) =>
        -- patch_map_mutex.unlock()
        let unlocked := { locked with patch_map_mutex := false }
        match unlocked.patch_stream patch.type io_handle with
        | none => .ok ⟨-EINVAL, unlocked, []⟩
        | some st =>
          let devices : Finset Nat := {AUDIO_DEVICE_NONE}
          let ret := env.stream_RouteStream st devices
          -- std::lock_guard lock(patch_map_mutex); patch_map_.erase(handle)
          let erased := { unlocked with patch_map_ := map_erase unlocked.patch_map_ handle }
          if patch.type = PatchType.PATCH_PLAYBACK then
            if unlocked.voice_ then
              .ok ⟨Int.lor ret (env.voice_RouteStream devices), erased,
                [RouteCall.stream st devices, RouteCall.voice devices]⟩
            else .error Fault.null_deref
          else
            .ok ⟨ret, erased, [RouteCall.stream st devices]⟩

/-! ## Logical devices and the translation table -/

/-- The bit `AUDIO_DEVICE_BIT_IN` of `system/audio.h`. -/
def AUDIO_DEVICE_BIT_IN : Nat := 0x80000000

def AUDIO_DEVICE_OUT_EARPIECE : Nat := 0x1
def AUDIO_DEVICE_OUT_SPEAKER : Nat := 0x2
def AUDIO_DEVICE_OUT_WIRED_HEADSET : Nat := 0x4
def AUDIO_DEVICE_OUT_WIRED_HEADPHONE : Nat := 0x8
def AUDIO_DEVICE_OUT_BLUETOOTH_SCO : Nat := 0x10
def AUDIO_DEVICE_OUT_BLUETOOTH_SCO_HEADSET : Nat := 0x20
def AUDIO_DEVICE_OUT_BLUETOOTH_A2DP : Nat := 0x80
def AUDIO_DEVICE_OUT_AUX_DIGITAL : Nat := 0x400
def AUDIO_DEVICE_OUT_HDMI : Nat := 0x400
def AUDIO_DEVICE_OUT_USB_ACCESSORY : Nat := 0x2000
def AUDIO_DEVICE_OUT_USB_DEVICE : Nat := 0x4000
def AUDIO_DEVICE_OUT_TELEPHONY_TX : Nat := 0x10000
def AUDIO_DEVICE_OUT_LINE : Nat := 0x20000
def AUDIO_DEVICE_OUT_SPDIF : Nat := 0x80000
def AUDIO_DEVICE_OUT_FM : Nat := 0x100000
def AUDIO_DEVICE_OUT_AUX_LINE : Nat := 0x200000
def AUDIO_DEVICE_OUT_PROXY : Nat := 0x2000000
def AUDIO_DEVICE_OUT_USB_HEADSET : Nat := 0x4000000
def AUDIO_DEVICE_OUT_DEFAULT : Nat := 0x40000000
def AUDIO_DEVICE_IN_BUILTIN_MIC : Nat := 0x80000004
def AUDIO_DEVICE_IN_BLUETOOTH_SCO_HEADSET : Nat := 0x80000008
def AUDIO_DEVICE_IN_WIRED_HEADSET : Nat := 0x80000010
def AUDIO_DEVICE_IN_AUX_DIGITAL : Nat := 0x80000020
def AUDIO_DEVICE_IN_HDMI : Nat := 0x80000020
def AUDIO_DEVICE_IN_VOICE_CALL : Nat := 0x80000040
def AUDIO_DEVICE_IN_BACK_MIC : Nat := 0x80000080
def AUDIO_DEVICE_IN_USB_ACCESSORY : Nat := 0x80000800
def AUDIO_DEVICE_IN_USB_DEVICE : Nat := 0x80001000
def AUDIO_DEVICE_IN_FM_TUNER : Nat := 0x80002000
def AUDIO_DEVICE_IN_LINE : Nat := 0x80008000
def AUDIO_DEVICE_IN_SPDIF : Nat := 0x80010000
def AUDIO_DEVICE_IN_PROXY : Nat := 0x81000000
def AUDIO_DEVICE_IN_USB_HEADSET : Nat := 0x82000000

/-- The value of `ENODEV` in `errno.h`. -/
def ENODEV : Int := 19

/-- The value of `ENOMEM` in `errno.h`. -/
def ENOMEM : Int := 12

/-- The value of `ENOENT` in `errno.h`; `str_parms_get_str` and `str_parms_get_int`
return `-ENOENT` for a key that the string does not carry. -/
def ENOENT : Int := 2

/-- The flag `AUDIO_OUTPUT_FLAG_DIRECT`. -/
def AUDIO_OUTPUT_FLAG_DIRECT : Nat := 0x1

/-- The flag `AUDIO_OUTPUT_FLAG_PRIMARY`. -/
def AUDIO_OUTPUT_FLAG_PRIMARY : Nat := 0x2

/-- The flag `AUDIO_OUTPUT_FLAG_COMPRESS_OFFLOAD`. -/
def AUDIO_OUTPUT_FLAG_COMPRESS_OFFLOAD : Nat := 0x10

def AUDIO_FORMAT_PCM_16_BIT : Nat := 0x1
def AUDIO_FORMAT_PCM_32_BIT : Nat := 0x3
def AUDIO_FORMAT_PCM_8_24_BIT : Nat := 0x4
def AUDIO_FORMAT_PCM_FLOAT : Nat := 0x5
def AUDIO_FORMAT_PCM_24_BIT_PACKED : Nat := 0x6

def AUDIO_SOURCE_CAMCORDER : Int := 5
def AUDIO_SOURCE_UNPROCESSED : Int := 9

/-- The event `PAL_SND_CARD_STATE` of `pal_global_callback_event_t`. -/
def PAL_SND_CARD_STATE : Nat := 0

/-- Whether a platform id is an output device: an enumerator `PAL_DEVICE_OUT_...` other
than the range mark `PAL_DEVICE_OUT_MIN`. -/
def pal_is_output_device : pal_device_id_t → Bool
  | .PAL_DEVICE_OUT_HANDSET | .PAL_DEVICE_OUT_SPEAKER | .PAL_DEVICE_OUT_WIRED_HEADSET
  | .PAL_DEVICE_OUT_WIRED_HEADPHONE | .PAL_DEVICE_OUT_BLUETOOTH_SCO
  | .PAL_DEVICE_OUT_BLUETOOTH_A2DP | .PAL_DEVICE_OUT_AUX_DIGITAL | .PAL_DEVICE_OUT_HDMI
  | .PAL_DEVICE_OUT_USB_DEVICE | .PAL_DEVICE_OUT_USB_HEADSET | .PAL_DEVICE_OUT_SPDIF
  | .PAL_DEVICE_OUT_FM | .PAL_DEVICE_OUT_AUX_LINE | .PAL_DEVICE_OUT_PROXY
  | .PAL_DEVICE_OUT_AUX_DIGITAL_1 => true
  | _ => false

/-- Whether a platform id is an input device: an enumerator `PAL_DEVICE_IN_...`. -/
def pal_is_input_device : pal_device_id_t → Bool
  | .PAL_DEVICE_IN_HANDSET_MIC | .PAL_DEVICE_IN_SPEAKER_MIC
  | .PAL_DEVICE_IN_BLUETOOTH_SCO_HEADSET | .PAL_DEVICE_IN_WIRED_HEADSET
  | .PAL_DEVICE_IN_AUX_DIGITAL | .PAL_DEVICE_IN_HDMI | .PAL_DEVICE_IN_USB_ACCESSORY
  | .PAL_DEVICE_IN_USB_HEADSET | .PAL_DEVICE_IN_FM_TUNER | .PAL_DEVICE_IN_LINE
  | .PAL_DEVICE_IN_SPDIF | .PAL_DEVICE_IN_PROXY => true
  | _ => false

/-- Whether a logical device is an input device: it carries `AUDIO_DEVICE_BIT_IN`. -/
def audio_device_is_in (device : Nat) : Bool := device &&& AUDIO_DEVICE_BIT_IN != 0

/-- The lookup `android_device_map_.find(k)`. -/
def devmap_find : List (Nat × pal_device_id_t) → Nat → Option pal_device_id_t
  | [], _ => none
  | (k', v) :: rest, k => if k' = k then some v else devmap_find rest k

/-- The call `android_device_map_.insert(std::make_pair(k, v))`: a key that is present
keeps its value, a new key goes to its place in key order. -/
def devmap_insert : List (Nat × pal_device_id_t) → Nat → pal_device_id_t →
    List (Nat × pal_device_id_t)
  | [], k, v => [(k, v)]
  | (k', v') :: rest, k, v =>
    if k = k' then (k', v') :: rest
    else if k < k' then (k, v) :: (k', v') :: rest
    else (k', v') :: devmap_insert rest k v

/-- The pairs that `FillAndroidDeviceMap` inserts, in the order of the source. -/
def FillAndroidDeviceMap_pairs : List (Nat × pal_device_id_t) :=
  [ (AUDIO_DEVICE_OUT_EARPIECE, .PAL_DEVICE_OUT_HANDSET),
    (AUDIO_DEVICE_OUT_SPEAKER, .PAL_DEVICE_OUT_SPEAKER),
    (AUDIO_DEVICE_OUT_WIRED_HEADSET, .PAL_DEVICE_OUT_WIRED_HEADSET),
    (AUDIO_DEVICE_OUT_WIRED_HEADPHONE, .PAL_DEVICE_OUT_WIRED_HEADPHONE),
    (AUDIO_DEVICE_OUT_BLUETOOTH_SCO, .PAL_DEVICE_OUT_BLUETOOTH_SCO),
    (AUDIO_DEVICE_OUT_BLUETOOTH_SCO_HEADSET, .PAL_DEVICE_OUT_BLUETOOTH_SCO),
    (AUDIO_DEVICE_OUT_BLUETOOTH_A2DP, .PAL_DEVICE_OUT_BLUETOOTH_A2DP),
    (AUDIO_DEVICE_OUT_AUX_DIGITAL, .PAL_DEVICE_OUT_AUX_DIGITAL),
    (AUDIO_DEVICE_OUT_HDMI, .PAL_DEVICE_OUT_HDMI),
    (AUDIO_DEVICE_OUT_USB_DEVICE, .PAL_DEVICE_OUT_USB_DEVICE),
    (AUDIO_DEVICE_OUT_TELEPHONY_TX, .PAL_DEVICE_NONE),
    (AUDIO_DEVICE_OUT_LINE, .PAL_DEVICE_OUT_WIRED_HEADPHONE),
    (AUDIO_DEVICE_OUT_SPDIF, .PAL_DEVICE_OUT_SPDIF),
    (AUDIO_DEVICE_OUT_FM, .PAL_DEVICE_OUT_FM),
    (AUDIO_DEVICE_OUT_AUX_LINE, .PAL_DEVICE_OUT_AUX_LINE),
    (AUDIO_DEVICE_OUT_PROXY, .PAL_DEVICE_OUT_PROXY),
    (AUDIO_DEVICE_OUT_USB_HEADSET, .PAL_DEVICE_OUT_USB_HEADSET),
    (AUDIO_DEVICE_OUT_DEFAULT, .PAL_DEVICE_OUT_SPEAKER),
    (AUDIO_DEVICE_IN_BUILTIN_MIC, .PAL_DEVICE_IN_HANDSET_MIC),
    (AUDIO_DEVICE_IN_BACK_MIC, .PAL_DEVICE_IN_SPEAKER_MIC),
    (AUDIO_DEVICE_IN_BLUETOOTH_SCO_HEADSET, .PAL_DEVICE_IN_BLUETOOTH_SCO_HEADSET),
    (AUDIO_DEVICE_IN_WIRED_HEADSET, .PAL_DEVICE_IN_WIRED_HEADSET),
    (AUDIO_DEVICE_IN_AUX_DIGITAL, .PAL_DEVICE_IN_AUX_DIGITAL),
    (AUDIO_DEVICE_IN_HDMI, .PAL_DEVICE_IN_HDMI),
    (AUDIO_DEVICE_IN_VOICE_CALL, .PAL_DEVICE_IN_HANDSET_MIC),
    (AUDIO_DEVICE_IN_USB_ACCESSORY, .PAL_DEVICE_IN_USB_ACCESSORY),
    (AUDIO_DEVICE_IN_USB_DEVICE, .PAL_DEVICE_IN_USB_HEADSET),
    (AUDIO_DEVICE_IN_FM_TUNER, .PAL_DEVICE_IN_FM_TUNER),
    (AUDIO_DEVICE_IN_LINE, .PAL_DEVICE_IN_LINE),
    (AUDIO_DEVICE_IN_SPDIF, .PAL_DEVICE_IN_SPDIF),
    (AUDIO_DEVICE_IN_PROXY, .PAL_DEVICE_IN_PROXY),
    (AUDIO_DEVICE_IN_USB_HEADSET, .PAL_DEVICE_IN_USB_HEADSET) ]

/-- The method `AudioDevice::FillAndroidDeviceMap`: the map is cleared, then the pairs
are inserted one after the other. -/
def AudioDevice.FillAndroidDeviceMap (adev : AudioDevice) : AudioDevice :=
  { adev with android_device_map_ :=
      FillAndroidDeviceMap_pairs.foldl (fun m kv => devmap_insert m kv.1 kv.2) [] }

/-! ## What lies outside the file, for the parameter and stream code -/

/-- A parameter block handed to `pal_set_param`, with the fields that the code sets
before the call (the `device_config` of a device connection is left out). -/
inductive PalParam
  | screen_state (screen_state : Bool)
  | device_connection (connection_state : Bool) (id : pal_device_id_t)
  | device_rotation (rotation_type : pal_speaker_rotation_type)
  | bt_sco (bt_sco_on : Bool)
  | bt_sco_wb (bt_wb_speech_enabled : Bool)
  | bt_a2dp_reconfig (reconfigured : Bool)
  | bt_a2dp_suspended (a2dp_suspended : Bool)
  | bt_a2dp_tws_config (is_tws_mono_mode_on : Option Bool)
  | bt_sco_swb (bt_swb_speech_mode : Int)
  deriving DecidableEq, Repr

/-- The header functions, the constant and the results of the calls that the parameter
and translation code takes from outside `AudioDevice.cpp`. -/
structure SysEnv where
  /-- The header function `audio_is_usb_out_device`. -/
  audio_is_usb_out_device : Nat → Bool
  /-- The header function `audio_is_usb_in_device`. -/
  audio_is_usb_in_device : Nat → Bool
  /-- The header function `audio_is_input_device`. -/
  audio_is_input_device : Nat → Bool
  /-- The constant `MAX_STREAMS_PER_CONTROLLER`. -/
  MAX_STREAMS_PER_CONTROLLER : Int
  /-- The result of `voice_->VoiceSetParameters`. -/
  VoiceSetParameters : Int
  /-- The result of `pal_set_param` for a parameter block. -/
  pal_set_param : PalParam → Int
  /-- Whether `calloc` returns a null pointer. -/
  calloc_fails : Bool
  /-- Whether `realloc` returns a null pointer. -/
  realloc_fails : Bool
  /-- The value found in a `card_id` field that was never written. -/
  uninit_card_id : Int
  /-- The value found in a buffer slot that was never written. -/
  uninit_pal_device_id : pal_device_id_t

/-- The key/value string after `str_parms_create_str`: for each key that the code asks
for, the value that `str_parms_get_str` copies out (`none` when the key is absent),
after `atoi` where the code applies it at once. -/
structure str_parms where
  screen_state : Option String := none
  connect : Option Int := none
  card : Option Int := none
  device : Option Int := none
  /-- What `AudioExtn::get_controller_stream_from_params` leaves in `controller`. -/
  controller : Int := -1
  /-- What `AudioExtn::get_controller_stream_from_params` leaves in `stream`. -/
  stream : Int := -1
  rotation : Option Int := none
  disconnect : Option Int := none
  bt_sco : Option String := none
  bt_sco_wb : Option String := none
  reconfig_a2dp : Bool := false
  a2dp_suspended : Option String := none
  tws_channel_config : Option String := none
  bt_swb : Option Int := none

/-! ## Translating logical devices -/

/-- The id that `GetPalDeviceIds` stores for a map entry with value `id`. -/
def AudioDevice.GetPalDeviceIds_id (env : SysEnv) (adev : AudioDevice)
    (id : pal_device_id_t) : pal_device_id_t :=
  if id = pal_device_id_t.PAL_DEVICE_OUT_AUX_DIGITAL ∨
      id = pal_device_id_t.PAL_DEVICE_OUT_HDMI then
    if wrap_int32 (adev.dp_controller * env.MAX_STREAMS_PER_CONTROLLER + adev.dp_stream) ≠ 0 then
      pal_device_id_t.PAL_DEVICE_OUT_AUX_DIGITAL_1
    else id
  else id

/-- The loop of `GetPalDeviceIds` over the devices still to visit, from the current
`device_count` and buffer.  A store beyond the end of the buffer is a fault. -/
def AudioDevice.GetPalDeviceIds_loop (env : SysEnv) (adev : AudioDevice) :
    List Nat → Nat → List pal_device_id_t → Except Fault (Nat × List pal_device_id_t)
  | [], device_count, buf => .ok (device_count, buf)
  | hal_device_id :: rest, device_count, buf =>
    if hal_device_id ≠ AUDIO_DEVICE_NONE then
      match devmap_find adev.android_device_map_ hal_device_id with
      | some id =>
        if env.audio_is_input_device hal_device_id = env.audio_is_input_device hal_device_id then
          if device_count < buf.length then
            AudioDevice.GetPalDeviceIds_loop env adev rest (device_count + 1)
              (buf.set device_count (adev.GetPalDeviceIds_id env id))
          else .error Fault.out_of_range
        else AudioDevice.GetPalDeviceIds_loop env adev rest (device_count + 1) buf
      | none => AudioDevice.GetPalDeviceIds_loop env adev rest (device_count + 1) buf
    else AudioDevice.GetPalDeviceIds_loop env adev rest (device_count + 1) buf

/-- The method `AudioDevice::GetPalDeviceIds`: the count returned and the buffer
afterwards (`none` for a null `pal_device_id`).  The set is visited in increasing
order, as `std::set` does. -/
def AudioDevice.GetPalDeviceIds (env : SysEnv) (adev : AudioDevice)
    (hal_device_ids : Finset Nat) (pal_device_id : Option (List pal_device_id_t)) :
    Except Fault (Int × Option (List pal_device_id_t)) :=
  match pal_device_id with
  | none => .ok (0, none)
  | some buf =>
    match adev.GetPalDeviceIds_loop env (hal_device_ids.sort (· ≤ ·)) 0 buf with
    | .ok (device_count, buf1) => .ok ((device_count : Int), some buf1)
    | .error fault => .error fault

/-! ## Setting parameters -/

/-- What `add_input_headset_if_usb_out_headset` leaves behind: the status, the value of
`*device_count`, the buffer behind `*pal_device_ids` and the device. -/
structure AddHeadsetResult where
  ret : Int
  device_count : Int
  pal_device_ids : Option (List pal_device_id_t)
  adev : AudioDevice
  deriving DecidableEq

/-- The loop of `add_input_headset_if_usb_out_headset`.  The test reads
`*pal_device_ids[i]`, which is element 0 of the buffer for `i = 0` and for `i ≥ 1` a
read through a pointer that lies beyond the one pointer `pal_device_ids` points to. -/
def add_input_headset_scan (count : Int) (pal_device_ids : Option (List pal_device_id_t)) :
    Except Fault Bool :=
  if count ≤ 0 then .ok false
  else
    match pal_device_ids with
    | none => .error Fault.null_deref
    | some [] => .error Fault.out_of_range
    | some (id0 :: _) =>
      if id0 = pal_device_id_t.PAL_DEVICE_OUT_USB_HEADSET then .ok true
      else if count ≤ 1 then .ok false
      else .error Fault.out_of_range

/-- The method `AudioDevice::add_input_headset_if_usb_out_headset`. -/
def AudioDevice.add_input_headset_if_usb_out_headset (env : SysEnv) (adev : AudioDevice)
    (device_count : Int) (pal_device_ids : Option (List pal_device_id_t)) :
    Except Fault AddHeadsetResult :=
  let count := device_count
  match add_input_headset_scan count pal_device_ids with
  | .error fault => .error fault
  | .ok false => .ok ⟨0, device_count, pal_device_ids, adev⟩
  | .ok true =>
    if env.realloc_fails then .ok ⟨-ENOMEM, device_count, pal_device_ids, adev⟩
    else
      let old := pal_device_ids.getD []
      -- realloc keeps the old contents; slots it adds before `count` are not written
      let kept := (old ++ List.replicate (count.toNat - old.length)
        env.uninit_pal_device_id).take count.toNat
      .ok ⟨0, count + 1, some (kept ++ [pal_device_id_t.PAL_DEVICE_IN_USB_HEADSET]),
        { adev with usb_input_dev_enabled := true }⟩

/-- What `SetParameters` leaves behind: the status, the device and the parameter blocks
handed to `pal_set_param`, in order. -/
structure SetParametersResult where
  ret : Int
  adev : AudioDevice
  calls : List PalParam
  deriving DecidableEq

/-- The `screen_state` part of `SetParameters`: the blocks sent. -/
def SetParameters_screen_state (parms : str_parms) : List PalParam :=
  match parms.screen_state with
  | some value => [PalParam.screen_state (value == "on")]
  | none => []

/-- The loop that sends one device-connection block per id of the buffer. -/
def SetParameters_notify (connection_state : Bool) (pal_device_count : Int)
    (pal_device_ids : Option (List pal_device_id_t)) : Except Fault (List PalParam) :=
  if pal_device_count ≤ 0 then .ok []
  else
    match pal_device_ids with
    | none => .error Fault.null_deref
    | some buf =>
      if pal_device_count.toNat ≤ buf.length then
        .ok ((buf.take pal_device_count.toNat).map
          (fun id => PalParam.device_connection connection_state id))
      else .error Fault.out_of_range

/-- The first half of the device-connect part of `SetParameters`, for the value `val` of
the key: the device with the card, device number, controller and stream recorded, or
`none` when the code returns 0 for a card that is already there. -/
def AudioDevice.SetParameters_connect_record (env : SysEnv) (adev : AudioDevice)
    (parms : str_parms) (val : Int) : Option AudioDevice :=
  let device : Nat := (val % 4294967296).toNat
  if env.audio_is_usb_out_device device || env.audio_is_usb_in_device device then
    match parms.card with
    | some card_id =>
      if adev.usb_card_id_ = card_id ∧ env.audio_is_usb_in_device device = true ∧
          adev.usb_input_dev_enabled = true then
        none
      else
        let adev1 := { adev with usb_card_id_ := card_id }
        match parms.device with
        | some device_num => some { adev1 with usb_dev_num_ := device_num }
        | none => some adev1
    | none =>
      match parms.device with
      | some device_num => some { adev with usb_dev_num_ := device_num }
      | none => some adev
  else if val = (AUDIO_DEVICE_OUT_AUX_DIGITAL : Int) then
    some { adev with dp_controller := parms.controller, dp_stream := parms.stream }
  else some adev

/-- The second half of the device-connect part of `SetParameters`, the block under
`if (device)`: `Sum.inl` is the `return` after a failed `realloc`, `Sum.inr` is the
device and the blocks sent with which the code goes on. -/
def AudioDevice.SetParameters_connect_notify (env : SysEnv) (adev : AudioDevice)
    (device : Nat) (calls : List PalParam) :
    Except Fault (SetParametersResult ⊕ (AudioDevice × List PalParam)) :=
  if device ≠ 0 then
    let pal_device_ids : Option (List pal_device_id_t) :=
      if env.calloc_fails then none else some [pal_device_id_t.PAL_DEVICE_OUT_MIN]
    match adev.GetPalDeviceIds env {device} pal_device_ids with
    | .error fault => .error fault
    | .ok (pal_device_count, ids1) =>
      match adev.add_input_headset_if_usb_out_headset env pal_device_count ids1 with
      | .error fault => .error fault
      | .ok r =>
        if r.ret ≠ 0 then .ok (.inl ⟨r.ret, r.adev, calls⟩)
        else
          match SetParameters_notify true r.device_count r.pal_device_ids with
          | .error fault => .error fault
          | .ok sent => .ok (.inr (r.adev, calls ++ sent))
  else .ok (.inr (adev, calls))

/-- The device-connect part of `SetParameters`, from the device and the blocks sent so
far: `Sum.inl` is a `return` from inside the part, `Sum.inr` is the device and the
blocks with which the code after it goes on. -/
def AudioDevice.SetParameters_connect (env : SysEnv) (adev : AudioDevice) (parms : str_parms)
    (calls : List PalParam) :
    Except Fault (SetParametersResult ⊕ (AudioDevice × List PalParam)) :=
  match parms.connect with
  | none => .ok (.inr (adev, calls))
  | some val =>
    match adev.SetParameters_connect_record env parms val with
    | none => .ok (.inl ⟨0, adev, calls⟩)
    | some adev1 => adev1.SetParameters_connect_notify env (val % 4294967296).toNat calls

/-- The rotation part of `SetParameters`. -/
def AudioDevice.SetParameters_rotation (adev : AudioDevice) (parms : str_parms)
    (calls : List PalParam) : AudioDevice × List PalParam :=
  match parms.rotation with
  | none => (adev, calls)
  | some val =>
    if val = 270 then
      if adev.current_rotation = pal_speaker_rotation_type.PAL_SPEAKER_ROTATION_LR then
        ({ adev with current_rotation := pal_speaker_rotation_type.PAL_SPEAKER_ROTATION_RL },
          calls ++ [PalParam.device_rotation pal_speaker_rotation_type.PAL_SPEAKER_ROTATION_RL])
      else (adev, calls)
    else if val = 0 ∨ val = 180 ∨ val = 90 then
      if adev.current_rotation = pal_speaker_rotation_type.PAL_SPEAKER_ROTATION_RL then
        ({ adev with current_rotation := pal_speaker_rotation_type.PAL_SPEAKER_ROTATION_LR },
          calls ++ [PalParam.device_rotation pal_speaker_rotation_type.PAL_SPEAKER_ROTATION_LR])
      else (adev, calls)
    else (adev, calls)

/-- The first half of the device-disconnect part of `SetParameters`, for the value
`val` of the key: the device with the flag and the stream recorded. -/
def AudioDevice.SetParameters_disconnect_record (env : SysEnv) (adev : AudioDevice)
    (parms : str_parms) (val : Int) : AudioDevice :=
  let device : Nat := (val % 4294967296).toNat
  if env.audio_is_usb_out_device device || env.audio_is_usb_in_device device then
    let card_id := parms.card.getD env.uninit_card_id
    if adev.usb_card_id_ = card_id ∧ env.audio_is_usb_in_device device = true ∧
        adev.usb_input_dev_enabled = true then
      { adev with usb_input_dev_enabled := false }
    else adev
  else if val = (AUDIO_DEVICE_OUT_AUX_DIGITAL : Int) then
    { adev with dp_stream := parms.stream }
  else adev

/-- The device-disconnect part of `SetParameters`. -/
def AudioDevice.SetParameters_disconnect (env : SysEnv) (adev : AudioDevice)
    (parms : str_parms) (calls : List PalParam) :
    Except Fault (AudioDevice × List PalParam) :=
  match parms.disconnect with
  | none => .ok (adev, calls)
  | some val =>
    let device : Nat := (val % 4294967296).toNat
    let adev1 := adev.SetParameters_disconnect_record env parms val
    if device ≠ 0 then
      let pal_device_ids : Option (List pal_device_id_t) :=
        if env.calloc_fails then none else some [pal_device_id_t.PAL_DEVICE_OUT_MIN]
      match adev1.GetPalDeviceIds env {device} pal_device_ids with
      | .error fault => .error fault
      | .ok (pal_device_count, ids1) =>
        match SetParameters_notify false pal_device_count ids1 with
        | .error fault => .error fault
        | .ok sent => .ok (adev1, calls ++ sent)
    else .ok (adev1, calls)

/-- The Bluetooth parts of `SetParameters` before `bt_swb`: the blocks sent. -/
def SetParameters_bt (parms : str_parms) : List PalParam :=
  (match parms.bt_sco with
    | some value => [PalParam.bt_sco (value == "on")]
    | none => []) ++
  (match parms.bt_sco_wb with
    | some value => [PalParam.bt_sco_wb (value == "on")]
    | none => []) ++
  (if parms.reconfig_a2dp then [PalParam.bt_a2dp_reconfig true] else []) ++
  (match parms.a2dp_suspended with
    | some value => [PalParam.bt_a2dp_suspended (value.take 4 == "true")]
    | none => []) ++
  (match parms.tws_channel_config with
    | some value =>
      [PalParam.bt_a2dp_tws_config
        (if "mono".take value.length == value then some true
         else if "dual-mono".take value.length == value then some false
         else none)]
    | none => [])

/-- The method `AudioDevice::SetParameters`. -/
def AudioDevice.SetParameters (env : SysEnv) (adev : AudioDevice) (parms : str_parms) :
    Except Fault SetParametersResult :=
  if adev.voice_ = false then .error Fault.null_deref
  else
    let calls0 := SetParameters_screen_state parms
    match adev.SetParameters_connect env parms calls0 with
    | .error fault => .error fault
    | .ok (.inl result) => .ok result
    | .ok (.inr (adev1, calls1)) =>
      let (adev2, calls2) := adev1.SetParameters_rotation parms calls1
      match adev2.SetParameters_disconnect env parms calls2 with
      | .error fault => .error fault
      | .ok (adev3, calls3) =>
        let calls4 := calls3 ++ SetParameters_bt parms
        match parms.bt_swb with
        | some val =>
          .ok ⟨env.pal_set_param (PalParam.bt_sco_swb val), adev3,
            calls4 ++ [PalParam.bt_sco_swb val]⟩
        | none => .ok ⟨-ENOENT, adev3, calls4⟩

/-! ## Card status and streams -/

/-- The callback `adev_pal_global_callback`: the status and the device afterwards. -/
def adev_pal_global_callback (adev : AudioDevice) (event_id event_data : Nat) :
    Int × AudioDevice :=
  if event_id = PAL_SND_CARD_STATE then (0, { adev with sndCardState := event_data })
  else (-EINVAL, adev)

/-- The method `AudioDevice::CreateStreamOut`, for the identity `new_id` of the object
that `new StreamOutPrimary` makes: the device and the stream. -/
def AudioDevice.CreateStreamOut (adev : AudioDevice) (new_id : Nat) (handle : Int)
    (flags : Nat) : AudioDevice × StreamPrimary :=
  let astream : StreamPrimary := ⟨new_id, handle⟩
  let adev1 := { adev with stream_out_list_ := adev.stream_out_list_ ++ [astream] }
  if flags &&& AUDIO_OUTPUT_FLAG_PRIMARY ≠ 0 then
    if adev1.voice_ then ({ adev1 with voice_stream_out_primary_ := some astream }, astream)
    else (adev1, astream)
  else (adev1, astream)

/-- The method `AudioDevice::CreateStreamIn`. -/
def AudioDevice.CreateStreamIn (adev : AudioDevice) (new_id : Nat) (handle : Int) :
    AudioDevice × StreamPrimary :=
  let astream : StreamPrimary := ⟨new_id, handle⟩
  ({ adev with stream_in_list_ := adev.stream_in_list_ ++ [astream] }, astream)

/-- The method `AudioDevice::CloseStreamOut`. -/
def AudioDevice.CloseStreamOut (adev : AudioDevice) (stream : StreamPrimary) : AudioDevice :=
  { adev with stream_out_list_ := adev.stream_out_list_.erase stream }

/-- The method `AudioDevice::CloseStreamIn`. -/
def AudioDevice.CloseStreamIn (adev : AudioDevice) (stream : StreamPrimary) : AudioDevice :=
  { adev with stream_in_list_ := adev.stream_in_list_.erase stream }

/-- What an open-stream entry point leaves behind: the status, the device, the value
behind the stream out-parameter (the identity of a stream object, `none` for a null
pointer) and the `format` and `sample_rate` of the config. -/
structure OpenStreamResult where
  ret : Int
  adev : AudioDevice
  stream : Option Nat
  format : Nat
  sample_rate : Nat
  deriving DecidableEq

/-- The entry point `adev_open_output_stream`.  `valid` says whether `GetInstance(dev)`
gives the device, `stream_out` is the value behind the out-parameter at the call. -/
def adev_open_output_stream (adev : AudioDevice) (valid : Bool) (new_id : Nat)
    (handle : Int) (flags : Nat) (format sample_rate : Nat) (stream_out : Option Nat) :
    OpenStreamResult :=
  if valid = false then ⟨0, adev, stream_out, format, sample_rate⟩
  else if adev.sndCardState = CARD_STATUS_OFFLINE ∧
      (flags &&& AUDIO_OUTPUT_FLAG_COMPRESS_OFFLOAD ≠ 0 ∨
        flags &&& AUDIO_OUTPUT_FLAG_DIRECT ≠ 0) then
    ⟨-ENODEV, adev, stream_out, format, sample_rate⟩
  else
    match adev.OutGetStream handle with
    | some _ => ⟨0, adev, stream_out, format, sample_rate⟩
    | none =>
      let (adev1, astream) := adev.CreateStreamOut new_id handle flags
      ⟨0, adev1, some astream.id, format, sample_rate⟩

/-- The entry point `adev_open_input_stream`. -/
def adev_open_input_stream (adev : AudioDevice) (valid : Bool) (new_id : Nat)
    (handle : Int) (format sample_rate : Nat) (source : Int) (stream_in : Option Nat) :
    OpenStreamResult :=
  if valid = false then ⟨0, adev, stream_in, format, sample_rate⟩
  else
    -- everything from the test for `AUDIO_FORMAT_PCM_FLOAT` on
    let rest : Nat → OpenStreamResult := fun format1 =>
      if format1 = AUDIO_FORMAT_PCM_FLOAT then
        ⟨-EINVAL, adev, stream_in, AUDIO_FORMAT_PCM_16_BIT, sample_rate⟩
      else
        match adev.InGetStream handle with
        | some _ => ⟨0, adev, stream_in, format1, sample_rate⟩
        | none =>
          let (adev1, astream) := adev.CreateStreamIn new_id handle
          ⟨0, adev1, some astream.id, format1, sample_rate⟩
    if format = AUDIO_FORMAT_PCM_FLOAT ∨ format = AUDIO_FORMAT_PCM_32_BIT ∨
        format = AUDIO_FORMAT_PCM_24_BIT_PACKED ∨ format = AUDIO_FORMAT_PCM_8_24_BIT then
      if source ≠ AUDIO_SOURCE_UNPROCESSED ∧ source ≠ AUDIO_SOURCE_CAMCORDER then
        ⟨-EINVAL, adev, stream_in, AUDIO_FORMAT_PCM_16_BIT,
          if sample_rate > 48000 then 48000 else sample_rate⟩
      else if ¬ (format = AUDIO_FORMAT_PCM_24_BIT_PACKED ∨
          format = AUDIO_FORMAT_PCM_8_24_BIT) then
        ⟨-EINVAL, adev, stream_in, AUDIO_FORMAT_PCM_24_BIT_PACKED, sample_rate⟩
      else rest format
    else rest format

/-- The state that `AudioDevice::Init` leaves when `pal_init` succeeds: the voice
object exists, the rotation is `PAL_SPEAKER_ROTATION_LR` and the translation table is
filled.  `Init` returns `-EINVAL` and changes nothing when `pal_init` fails. -/
def AudioDevice.Init (adev : AudioDevice) (pal_init_ret register_ret : Int) :
    Int × AudioDevice :=
  if pal_init_ret ≠ 0 then (-EINVAL, adev)
  else
    (register_ret,
      ({ adev with
          voice_ := true
          current_rotation := pal_speaker_rotation_type.PAL_SPEAKER_ROTATION_LR } :
        AudioDevice).FillAndroidDeviceMap)

/-! ## Sample inputs -/

/-- A backend in which every routing call succeeds. -/
def ex_env_ok : Env := ⟨fun _ _ => 0, fun _ => 0⟩

/-- A backend in which routing a stream fails with `-EINVAL`. -/
def ex_env_fail : Env := ⟨fun _ _ => -EINVAL, fun _ => 0⟩

/-- A mix port with I/O handle `h`. -/
def ex_mix_port (h : Int) : audio_port_config :=
  ⟨0, 0, audio_port_type_t.AUDIO_PORT_TYPE_MIX, 0, h, 0⟩

/-- A device port of device type `d`. -/
def ex_device_port (d : Nat) : audio_port_config :=
  ⟨0, 0, audio_port_type_t.AUDIO_PORT_TYPE_DEVICE, d, 0, 0⟩

/-- A playback patch from mix 7 to device 2 under handle `h`. -/
def ex_playback_patch (h : Int) : AudioPatch :=
  ⟨h, PatchType.PATCH_PLAYBACK, [ex_mix_port 7], [ex_device_port 2]⟩

/-- A device with the voice object in place, output stream 7 and input stream 9 open and
no patch; its translation table is still empty (`ex_adev_init` has it filled). -/
def ex_adev : AudioDevice :=
  { stream_out_list_ := [{ id := 1, handle_ := 7 }]
    stream_in_list_ := [{ id := 2, handle_ := 9 }]
    patch_map_ := []
    patch_map_mutex := false
    voice_ := true
    handles := 0 }

/-- The device `ex_adev` with a playback patch under handle 1. -/
def ex_adev_patched : AudioDevice :=
  { ex_adev with patch_map_ := [(1, ex_playback_patch 1)], handles := 1 }

/-- The device `ex_adev_patched` once the handle counter has reached `INT32_MAX`. -/
def ex_adev_wrapped : AudioDevice :=
  { ex_adev_patched with handles := INT32_MAX }

/-- The device `ex_adev_patched` after the output stream 7 was closed. -/
def ex_adev_closed : AudioDevice :=
  { ex_adev_patched with stream_out_list_ := [] }

/-- Runs `n` calls of `CreateAudioPatch` with the sentinel handle, one after the other. -/
def create_n (env : Env) (sources sinks : List audio_port_config) :
    Nat → AudioDevice → Except Fault AudioDevice
  | 0, adev => .ok adev
  | n + 1, adev =>
    match adev.CreateAudioPatch env (some AUDIO_PATCH_HANDLE_NONE) sources sinks with
    | .ok r => create_n env sources sinks n r.adev
    | .error fault => .error fault

/-- A key/value string that carries the key `rotation` alone. -/
def ex_rotation_parms (val : Int) : str_parms := { rotation := some val }

/-- Runs one `SetParameters` call per rotation value, one after the other: the device
at the end and, for each call, the blocks it sent. -/
def rotation_run (env : SysEnv) : AudioDevice → List Int →
    Except Fault (AudioDevice × List (List PalParam))
  | adev, [] => .ok (adev, [])
  | adev, val :: rest =>
    match adev.SetParameters env (ex_rotation_parms val) with
    | .error fault => .error fault
    | .ok r =>
      match rotation_run env r.adev rest with
      | .error fault => .error fault
      | .ok (adev1, sent) => .ok (adev1, r.calls :: sent)

/-- The normalised orientation of a rotation value, in the words of the
specification: only 270 is inverted. -/
def rotation_normalised (val : Int) : pal_speaker_rotation_type :=
  if val = 270 then pal_speaker_rotation_type.PAL_SPEAKER_ROTATION_RL
  else pal_speaker_rotation_type.PAL_SPEAKER_ROTATION_LR

/-- The notifications of a sequence of rotation values, in the words of the
specification: an event notifies exactly when its normalised orientation differs from
the stored one, with the new orientation, which is stored afterwards. -/
def rotation_notifications : pal_speaker_rotation_type → List Int → List (List PalParam)
  | _, [] => []
  | stored, val :: rest =>
    (if rotation_normalised val ≠ stored then
        [PalParam.device_rotation (rotation_normalised val)]
      else []) :: rotation_notifications (rotation_normalised val) rest

/-- The orientation stored after a sequence of rotation values. -/
def rotation_stored : pal_speaker_rotation_type → List Int → pal_speaker_rotation_type
  | stored, [] => stored
  | _, val :: rest => rotation_stored (rotation_normalised val) rest

/-- A platform in which the header functions are those of `system/audio.h` on the
devices it defines, every call succeeds and `MAX_STREAMS_PER_CONTROLLER` is 2. -/
def ex_sys_env : SysEnv :=
  { audio_is_usb_out_device := fun d =>
      decide (d ∈ [AUDIO_DEVICE_OUT_USB_ACCESSORY, AUDIO_DEVICE_OUT_USB_DEVICE,
        AUDIO_DEVICE_OUT_USB_HEADSET])
    audio_is_usb_in_device := fun d =>
      decide (d ∈ [AUDIO_DEVICE_IN_USB_ACCESSORY, AUDIO_DEVICE_IN_USB_DEVICE,
        AUDIO_DEVICE_IN_USB_HEADSET])
    audio_is_input_device := audio_device_is_in
    MAX_STREAMS_PER_CONTROLLER := 2
    VoiceSetParameters := 0
    pal_set_param := fun _ => 0
    calloc_fails := false
    realloc_fails := false
    uninit_card_id := 0
    uninit_pal_device_id := pal_device_id_t.PAL_DEVICE_OUT_MIN }

/-- The device `ex_adev` after `Init`: the translation table is filled. -/
def ex_adev_init : AudioDevice := (ex_adev.Init 0 0).2

/-- The device `ex_adev_init` with USB card 3, device 1 recorded and the USB input
path enabled. -/
def ex_adev_usb : AudioDevice :=
  { ex_adev_init with usb_card_id_ := 3, usb_dev_num_ := 1, usb_input_dev_enabled := true }

/-- The content of a buffer slot after `GetPalDeviceIds` has visited the device
`hal_device_id` at it: the translated id when the device is not `AUDIO_DEVICE_NONE` and
is in the table, the old content `old` otherwise. -/
def AudioDevice.GetPalDeviceIds_slot (env : SysEnv) (adev : AudioDevice)
    (hal_device_id : Nat) (old : pal_device_id_t) : pal_device_id_t :=
  if hal_device_id ≠ AUDIO_DEVICE_NONE then
    match devmap_find adev.android_device_map_ hal_device_id with
    | some id => adev.GetPalDeviceIds_id env id
    | none => old
  else old

/-- A connect of the logical device `val` that carries the card number `card`. -/
def ex_connect_parms (val card : Int) : str_parms := { connect := some val, card := some card }

/-- A disconnect of the logical device `val` that carries the card number `card`. -/
def ex_disconnect_parms (val card : Int) : str_parms :=
  { disconnect := some val, card := some card }

/-- A disconnect of `AUDIO_DEVICE_OUT_AUX_DIGITAL` for which the helper yields the
controller `c` and the stream `s`. -/
def ex_aux_disconnect_parms (c s : Int) : str_parms :=
  { disconnect := some (AUDIO_DEVICE_OUT_AUX_DIGITAL : Int), controller := c, stream := s }

/-- The device `ex_adev_init` with the controller `c` and the stream `s` recorded. -/
def ex_adev_dp (c s : Int) : AudioDevice :=
  { ex_adev_init with dp_controller := c, dp_stream := s }

/-- The value of the static counter `handles` of `generate_patch_handle_l` after `n`
calls, from its initial value `AUDIO_PATCH_HANDLE_NONE`; for `n ≥ 1` it is also the
handle that the `n`-th call returns. -/
def handle_seq : Nat → Int
  | 0 => AUDIO_PATCH_HANDLE_NONE
  | n + 1 => AudioPatch.generate_patch_handle_l (handle_seq n)

/-! ## The lock of the patch table, step by step -/

/-- One step of a patch operation that concerns `patch_map_mutex`: taking the lock,
giving it back, or a routing call. -/
inductive PatchStep
  | lock
  | unlock
  | route (call : RouteCall)
  deriving DecidableEq

/-- The steps of `CreateAudioPatch` on the lock and the routing calls, in the order of
the source.  The `lock_guard` of the branch for a given handle is given back where that
branch ends (at its `return` or at its closing brace), before routing; the `lock_guard`
for a new patch is taken after routing and given back at the end of its branch. -/
def AudioDevice.CreateAudioPatch_steps (env : Env) (adev : AudioDevice) (handle : Option Int)
    (sources sinks : List audio_port_config) : List PatchStep :=
  if handle.isNone || sources.isEmpty || decide (sources.length > AUDIO_PATCH_PORTS_MAX) ||
      sinks.isEmpty || decide (sinks.length > AUDIO_PATCH_PORTS_MAX) then []
  else if sources.length > 1 then []
  else
    match handle, sources, sinks with
    | some h, src0 :: _, snk0 :: _ =>
      match CreateAudioPatch_switch src0 snk0 sinks with
      | .error _ => []
      | .ok pr =>
        match adev.patch_stream pr.patch_type pr.io_handle with
        | none => []
        | some st =>
          let routed := CreateAudioPatch_route env adev.voice_ st pr.patch_type pr.device_types
          if h = AUDIO_PATCH_HANDLE_NONE then
            if routed.1 ≠ 0 then routed.2.map PatchStep.route
            else routed.2.map PatchStep.route ++ [PatchStep.lock, PatchStep.unlock]
          else
            match map_find adev.patch_map_ h with
            | none => [PatchStep.lock, PatchStep.unlock]
            | some _ => [PatchStep.lock, PatchStep.unlock] ++ routed.2.map PatchStep.route
    | _, _, _ => []

/-- The steps of `ReleaseAudioPatch` on the lock and the routing calls, in the order of
the source: `patch_map_mutex.lock()` before the lookup, `patch_map_mutex.unlock()`
after the switch, the routing calls, and the `lock_guard` around `erase`.  The two
`return` statements between `lock()` and `unlock()` give nothing back. -/
def AudioDevice.ReleaseAudioPatch_steps (adev : AudioDevice) (handle : Int) :
    List PatchStep :=
  if handle = AUDIO_PATCH_HANDLE_NONE then []
  else
    match map_find adev.patch_map_ handle with
    | none => [PatchStep.lock]
    | some patch =>
      match ReleaseAudioPatch_switch patch with
      | .error _ => [PatchStep.lock]
      | .ok none => [PatchStep.lock]
      | .ok (some io_handle) =>
        match adev.patch_stream patch.type io_handle with
        | none => [PatchStep.lock, PatchStep.unlock]
        | some st =>
          let devices : Finset Nat := {AUDIO_DEVICE_NONE}
          if patch.type = PatchType.PATCH_PLAYBACK then
            if adev.voice_ then
              [PatchStep.lock, PatchStep.unlock, PatchStep.route (RouteCall.stream st devices),
                PatchStep.route (RouteCall.voice devices), PatchStep.lock, PatchStep.unlock]
            else
              [PatchStep.lock, PatchStep.unlock, PatchStep.route (RouteCall.stream st devices)]
          else
            [PatchStep.lock, PatchStep.unlock, PatchStep.route (RouteCall.stream st devices),
              PatchStep.lock, PatchStep.unlock]

/-- The state of the lock after a list of steps, from the state `held`; `none` when a
step takes the lock while it is held. -/
def lock_after : Bool → List PatchStep → Option Bool
  | held, [] => some held
  | held, PatchStep.lock :: rest => if held then none else lock_after true rest
  | _, PatchStep.unlock :: rest => lock_after false rest
  | held, PatchStep.route _ :: rest => lock_after held rest

/-- Whether one of the routing calls of a list of steps is made while the lock is held,
from the state `held`. -/
def route_while_held : Bool → List PatchStep → Bool
  | _, [] => false
  | _, PatchStep.lock :: rest => route_while_held true rest
  | _, PatchStep.unlock :: rest => route_while_held false rest
  | held, PatchStep.route _ :: rest => held || route_while_held held rest

/-- The routing calls among a list of steps, in order. -/
def steps_calls : List PatchStep → List RouteCall
  | [] => []
  | PatchStep.route call :: rest => call :: steps_calls rest
  | PatchStep.lock :: rest => steps_calls rest
  | PatchStep.unlock :: rest => steps_calls rest

/-! ## The states a run reaches -/

/-- What is expected of an entry of the patch table, a key with its patch: one source,
between 1 and `AUDIO_PATCH_PORTS_MAX` sinks, the type playback or capture, and a key
that is the handle of the patch and not the sentinel. -/
def patch_entry_ok (kv : Int × AudioPatch) : Prop :=
  kv.2.sources.length = 1 ∧ 1 ≤ kv.2.sinks.length ∧
  kv.2.sinks.length ≤ AUDIO_PATCH_PORTS_MAX ∧
  (kv.2.type = PatchType.PATCH_PLAYBACK ∨ kv.2.type = PatchType.PATCH_CAPTURE) ∧
  kv.1 = kv.2.handle ∧ kv.1 ≠ AUDIO_PATCH_HANDLE_NONE

instance patch_entry_ok_decidable : DecidablePred patch_entry_ok := fun kv => by
  unfold patch_entry_ok
  infer_instance

/-- The device states that a run reaches.  It starts with an empty patch table and the
counter at `AUDIO_PATCH_HANDLE_NONE`; a step is a call of `CreateAudioPatch` or of
`ReleaseAudioPatch` that returns, with any arguments and any routing results, or a
change made by the other methods, which touch neither the patch table nor the
counter. -/
inductive Reachable : AudioDevice → Prop
  | start (adev : AudioDevice) (hmap : adev.patch_map_ = [])
      (hcnt : adev.handles = AUDIO_PATCH_HANDLE_NONE) : Reachable adev
  | create (env : Env) (adev : AudioDevice) (handle : Option Int)
      (sources sinks : List audio_port_config) (r : CreateResult)
      (hreach : Reachable adev)
      (hcall : adev.CreateAudioPatch env handle sources sinks = .ok r) : Reachable r.adev
  | release (env : Env) (adev : AudioDevice) (handle : Int) (r : ReleaseResult)
      (hreach : Reachable adev)
      (hcall : adev.ReleaseAudioPatch env handle = .ok r) : Reachable r.adev
  | other (adev adev1 : AudioDevice) (hreach : Reachable adev)
      (hmap : adev1.patch_map_ = adev.patch_map_) (hcnt : adev1.handles = adev.handles) :
      Reachable adev1

/-! ## Parts of the entry points, for the statements -/

/-- The end of `adev_open_input_stream`: the lookup of the handle with `InGetStream` and,
when no stream has it, the call of `CreateStreamIn`. -/
def adev_open_input_stream_lookup (adev : AudioDevice) (new_id : Nat) (handle : Int)
    (format sample_rate : Nat) (stream_in : Option Nat) : OpenStreamResult :=
  match adev.InGetStream handle with
  | some _ => ⟨0, adev, stream_in, format, sample_rate⟩
  | none =>
    let (adev1, astream) := adev.CreateStreamIn new_id handle
    ⟨0, adev1, some astream.id, format, sample_rate⟩

/-- Whether a parameter block is a device-connection block. -/
def PalParam.is_device_connection : PalParam → Bool
  | PalParam.device_connection _ _ => true
  | _ => false

/-- A platform like `ex_sys_env` in which `VoiceSetParameters` fails and `pal_set_param`
fails with `-EINVAL` for every block but the super-wideband one. -/
def ex_sys_env_failing : SysEnv :=
  { ex_sys_env with
    VoiceSetParameters := -EINVAL
    pal_set_param := fun param =>
      match param with
      | PalParam.bt_sco_swb _ => 0
      | _ => -EINVAL }

/-- A key/value string that carries the keys `rotation` and `bt_swb`. -/
def ex_rotation_swb_parms (val mode : Int) : str_parms :=
  { rotation := some val, bt_swb := some mode }

/-! ## Facts about the patch map and the handle counter -/

theorem map_find_assign_self (m : List (Int × AudioPatch)) (k : Int) (v : AudioPatch) :
    map_find (map_assign m k v) k = some v := by
  induction m with
  | nil => simp [map_assign, map_find]
  | cons e rest ih =>
    obtain ⟨k', v'⟩ := e
    by_cases h1 : k = k'
    · simp [map_assign, map_find, h1]
    · by_cases h2 : k < k'
      · simp [map_assign, map_find, h1, h2]
      · have h3 : ¬ k' = k := fun h => h1 h.symm
        simp [map_assign, map_find, h1, h2, h3, ih]

theorem map_find_assign_of_ne (m : List (Int × AudioPatch)) (k j : Int) (v : AudioPatch)
    (hj : j ≠ k) : map_find (map_assign m k v) j = map_find m j := by
  have hk : ¬ k = j := fun h => hj h.symm
  induction m with
  | nil => simp [map_assign, map_find, hk]
  | cons e rest ih =>
    obtain ⟨k', v'⟩ := e
    by_cases h1 : k = k'
    · subst h1
      simp [map_assign, map_find, hk]
    · by_cases h2 : k < k'
      · simp [map_assign, map_find, h1, h2, hk]
      · simp [map_assign, map_find, h1, h2, ih]

theorem map_find_modify_self (m : List (Int × AudioPatch)) (k : Int)
    (f : AudioPatch → AudioPatch) (p : AudioPatch) (hp : map_find m k = some p) :
    map_find (map_modify m k f) k = some (f p) := by
  induction m with
  | nil => simp [map_find] at hp
  | cons e rest ih =>
    obtain ⟨k', v'⟩ := e
    by_cases h1 : k' = k
    · simp [map_find, h1] at hp
      simp [map_modify, map_find, h1, hp]
    · simp [map_find, h1] at hp
      simp [map_modify, map_find, h1, ih hp]

theorem map_find_modify_of_ne (m : List (Int × AudioPatch)) (k j : Int)
    (f : AudioPatch → AudioPatch) (hj : j ≠ k) :
    map_find (map_modify m k f) j = map_find m j := by
  induction m with
  | nil => simp [map_modify, map_find]
  | cons e rest ih =>
    obtain ⟨k', v'⟩ := e
    by_cases h1 : k' = k
    · have h2 : ¬ k = j := fun h => hj h.symm
      subst h1
      simp [map_modify, map_find, h2]
    · simp [map_modify, map_find, h1, ih]

theorem map_keys_modify (m : List (Int × AudioPatch)) (k : Int)
    (f : AudioPatch → AudioPatch) : map_keys (map_modify m k f) = map_keys m := by
  induction m with
  | nil => simp [map_modify, map_keys]
  | cons e rest ih =>
    obtain ⟨k', v'⟩ := e
    by_cases h1 : k' = k
    · simp [map_modify, map_keys, h1]
    · simp only [map_keys] at ih
      simp [map_modify, map_keys, h1, ih]

theorem map_find_erase_self (m : List (Int × AudioPatch)) (k : Int) :
    map_find (map_erase m k) k = none := by
  induction m with
  | nil => simp [map_erase, map_find]
  | cons e rest ih =>
    obtain ⟨k', v'⟩ := e
    by_cases h1 : k' = k
    · simp [map_erase, h1, ih]
    · simp [map_erase, h1, map_find, ih]

theorem map_find_erase_of_ne (m : List (Int × AudioPatch)) (k j : Int) (hj : j ≠ k) :
    map_find (map_erase m k) j = map_find m j := by
  induction m with
  | nil => simp [map_erase, map_find]
  | cons e rest ih =>
    obtain ⟨k', v'⟩ := e
    by_cases h1 : k' = k
    · have h2 : ¬ k = j := fun h => hj h.symm
      subst h1
      simp [map_erase, map_find, h2, ih]
    · simp [map_erase, h1, map_find, ih]

theorem not_mem_map_keys_erase (m : List (Int × AudioPatch)) (k : Int) :
    k ∉ map_keys (map_erase m k) := by
  induction m with
  | nil => simp [map_erase, map_keys]
  | cons e rest ih =>
    obtain ⟨k', v'⟩ := e
    by_cases h1 : k' = k
    · simpa [map_erase, h1] using ih
    · have h2 : ¬ k = k' := fun h => h1 h.symm
      simp only [map_keys] at ih
      simp [map_erase, h1, map_keys, h2, ih]

theorem mem_map_keys_assign (m : List (Int × AudioPatch)) (k j : Int) (v : AudioPatch)
    (hj : j ∈ map_keys (map_assign m k v)) : j = k ∨ j ∈ map_keys m := by
  induction m with
  | nil => simpa [map_assign, map_keys] using hj
  | cons e rest ih =>
    obtain ⟨k', v'⟩ := e
    simp only [map_keys] at ih
    by_cases h1 : k = k'
    · subst h1
      simp only [map_assign, if_true, map_keys, List.map_cons, List.mem_cons] at hj
      simp only [map_keys, List.map_cons, List.mem_cons]
      tauto
    · by_cases h2 : k < k'
      · simp only [map_assign, h1, h2, if_true, if_false, map_keys, List.map_cons,
          List.mem_cons] at hj
        simp only [map_keys, List.map_cons, List.mem_cons]
        tauto
      · simp only [map_assign, h1, h2, if_false, map_keys, List.map_cons,
          List.mem_cons] at hj
        simp only [map_keys, List.map_cons, List.mem_cons]
        rcases hj with hj | hj
        · exact Or.inr (Or.inl hj)
        · rcases ih hj with h3 | h3
          · exact Or.inl h3
          · exact Or.inr (Or.inr h3)

theorem mem_map_keys_erase (m : List (Int × AudioPatch)) (k j : Int)
    (hj : j ∈ map_keys (map_erase m k)) : j ∈ map_keys m := by
  induction m with
  | nil => simp [map_erase, map_keys] at hj
  | cons e rest ih =>
    obtain ⟨k', v'⟩ := e
    simp only [map_keys] at ih
    by_cases h1 : k' = k
    · simp only [map_erase, h1, if_true] at hj
      simp only [map_keys, List.map_cons, List.mem_cons]
      exact Or.inr (ih hj)
    · simp only [map_erase, h1, if_false, map_keys, List.map_cons, List.mem_cons] at hj
      simp only [map_keys, List.map_cons, List.mem_cons]
      rcases hj with hj | hj
      · exact Or.inl hj
      · exact Or.inr (ih hj)

theorem map_find_none_of_not_mem_keys (m : List (Int × AudioPatch)) (k : Int)
    (hk : k ∉ map_keys m) : map_find m k = none := by
  induction m with
  | nil => simp [map_find]
  | cons e rest ih =>
    obtain ⟨k', v'⟩ := e
    simp only [map_keys, List.map_cons, List.mem_cons, not_or] at hk
    have h1 : ¬ k' = k := fun h => hk.1 h.symm
    simp [map_find, h1, ih hk.2]

theorem generate_patch_handle_l_pos (handles : Int) (h0 : 0 ≤ handles)
    (h1 : handles ≤ INT32_MAX) :
    1 ≤ AudioPatch.generate_patch_handle_l handles ∧
      AudioPatch.generate_patch_handle_l handles ≤ INT32_MAX := by
  unfold AudioPatch.generate_patch_handle_l wrap_int32 AUDIO_PATCH_HANDLE_NONE
  unfold INT32_MAX at *
  dsimp only
  split_ifs with h <;> omega

theorem generate_patch_handle_l_succ (handles : Int) (h0 : 0 ≤ handles)
    (h1 : handles < INT32_MAX) :
    AudioPatch.generate_patch_handle_l handles = handles + 1 := by
  unfold AudioPatch.generate_patch_handle_l wrap_int32 AUDIO_PATCH_HANDLE_NONE
  unfold INT32_MAX at *
  dsimp only
  split_ifs with h <;> omega

/-! ## What the operations keep -/

/-- A call of `CreateAudioPatch` leaves the counter alone or advances it by one
generation. -/
theorem create_handles_cases (env : Env) (adev : AudioDevice) (handle : Option Int)
    (sources sinks : List audio_port_config) (r : CreateResult)
    (hr : adev.CreateAudioPatch env handle sources sinks = .ok r) :
    r.adev.handles = adev.handles ∨
      r.adev.handles = AudioPatch.generate_patch_handle_l adev.handles := by
  unfold AudioDevice.CreateAudioPatch at hr
  repeat' first | split at hr | dsimp only at hr
  all_goals (cases hr; try simp)

/-- A call of `CreateAudioPatch` keeps the counter between 0 and `INT32_MAX`. -/
theorem create_handles_range (env : Env) (adev : AudioDevice) (handle : Option Int)
    (sources sinks : List audio_port_config) (r : CreateResult)
    (hr : adev.CreateAudioPatch env handle sources sinks = .ok r)
    (hcnt : 0 ≤ adev.handles ∧ adev.handles ≤ INT32_MAX) :
    0 ≤ r.adev.handles ∧ r.adev.handles ≤ INT32_MAX := by
  rcases create_handles_cases env adev handle sources sinks r hr with h | h
  · rw [h]; exact hcnt
  · rw [h]
    have := generate_patch_handle_l_pos adev.handles hcnt.1 hcnt.2
    exact ⟨by omega, this.2⟩

/-- A call of `ReleaseAudioPatch` moves neither the counter, nor the voice object, nor
the stream lists. -/
theorem release_handles_eq (env : Env) (adev : AudioDevice) (h : Int) (r : ReleaseResult)
    (hr : adev.ReleaseAudioPatch env h = .ok r) :
    r.adev.handles = adev.handles ∧ r.adev.voice_ = adev.voice_ ∧
      r.adev.stream_out_list_ = adev.stream_out_list_ ∧
      r.adev.stream_in_list_ = adev.stream_in_list_ := by
  unfold AudioDevice.ReleaseAudioPatch at hr
  repeat' first | split at hr | dsimp only at hr
  all_goals (cases hr; try simp)

/-- Until the counter reaches `INT32_MAX`, a call of `CreateAudioPatch` keeps every key of
the table between 1 and the counter. -/
theorem create_keys_bounded (env : Env) (adev : AudioDevice) (handle : Option Int)
    (sources sinks : List audio_port_config) (r : CreateResult)
    (hr : adev.CreateAudioPatch env handle sources sinks = .ok r)
    (h0 : 0 ≤ adev.handles) (h1 : adev.handles < INT32_MAX)
    (hkeys : ∀ k ∈ map_keys adev.patch_map_, 1 ≤ k ∧ k ≤ adev.handles) :
    ∀ k ∈ map_keys r.adev.patch_map_, 1 ≤ k ∧ k ≤ r.adev.handles := by
  have hgen := generate_patch_handle_l_succ adev.handles h0 h1
  unfold AudioDevice.CreateAudioPatch at hr
  repeat' first | split at hr | dsimp only at hr
  all_goals (cases hr; try simp only [])
  all_goals first
    | exact hkeys
    | (intro k hk
       rw [map_keys_modify] at hk
       exact hkeys k hk)
    | (intro k hk
       rw [hgen]
       have := hkeys k hk
       omega)
    | (intro k hk
       rw [hgen] at hk ⊢
       rcases mem_map_keys_assign _ _ _ _ hk with h | h
       · omega
       · have := hkeys k h
         omega)

/-- A call of `CreateAudioPatch` on a counter between 0 and `INT32_MAX` keeps every key
of the table at 1 or above, so the sentinel is never a key. -/
theorem create_keys_pos (env : Env) (adev : AudioDevice) (handle : Option Int)
    (sources sinks : List audio_port_config) (r : CreateResult)
    (hr : adev.CreateAudioPatch env handle sources sinks = .ok r)
    (hcnt : 0 ≤ adev.handles ∧ adev.handles ≤ INT32_MAX)
    (hkeys : ∀ k ∈ map_keys adev.patch_map_, 1 ≤ k) :
    ∀ k ∈ map_keys r.adev.patch_map_, 1 ≤ k := by
  have hgen := generate_patch_handle_l_pos adev.handles hcnt.1 hcnt.2
  unfold AudioDevice.CreateAudioPatch at hr
  repeat' first | split at hr | dsimp only at hr
  all_goals (cases hr; try simp only [])
  all_goals first
    | exact hkeys
    | (intro k hk
       rw [map_keys_modify] at hk
       exact hkeys k hk)
    | (intro k hk
       rcases mem_map_keys_assign _ _ _ _ hk with h | h
       · omega
       · exact hkeys k h)

/-- A call of `ReleaseAudioPatch` adds no key to the table. -/
theorem release_keys_subset (env : Env) (adev : AudioDevice) (h : Int) (r : ReleaseResult)
    (hr : adev.ReleaseAudioPatch env h = .ok r) :
    ∀ k ∈ map_keys r.adev.patch_map_, k ∈ map_keys adev.patch_map_ := by
  unfold AudioDevice.ReleaseAudioPatch at hr
  repeat' first | split at hr | dsimp only at hr
  all_goals (cases hr; try simp only [])
  all_goals first
    | exact fun k hk => hk
    | exact fun k hk => mem_map_keys_erase _ _ _ hk

/-- A call of `ReleaseAudioPatch` keeps every key of the table between 1 and the counter. -/
theorem release_keys_bounded (env : Env) (adev : AudioDevice) (h : Int) (r : ReleaseResult)
    (hr : adev.ReleaseAudioPatch env h = .ok r)
    (hkeys : ∀ k ∈ map_keys adev.patch_map_, 1 ≤ k ∧ k ≤ adev.handles) :
    ∀ k ∈ map_keys r.adev.patch_map_, 1 ≤ k ∧ k ≤ r.adev.handles := by
  unfold AudioDevice.ReleaseAudioPatch at hr
  repeat' first | split at hr | dsimp only at hr
  all_goals (cases hr; try simp only [])
  all_goals first
    | exact hkeys
    | (intro k hk
       exact hkeys k (mem_map_keys_erase _ _ _ hk))

/-! ## CreateAudioPatch: validation -/

/-- C1: a call of `CreateAudioPatch` with an empty source list, or with more than one
source, returns `-EINVAL` and leaves the patch table (its entries and its size, in
fact the whole device) as it was, for every device state, handle argument and sink
list; no routing call is made. -/
theorem C1_create_rejects_source_count (env : Env) (adev : AudioDevice)
    (handle : Option Int) (sources sinks : List audio_port_config)
    (hsrc : sources = [] ∨ 1 < sources.length) :
    ∃ r, adev.CreateAudioPatch env handle sources sinks = .ok r ∧ r.ret = -EINVAL ∧
      r.adev.patch_map_ = adev.patch_map_ ∧
      r.adev.patch_map_.length = adev.patch_map_.length ∧
      r.adev = adev ∧ r.handle = handle ∧ r.calls = [] := by
  refine ⟨⟨-EINVAL, handle, adev, []⟩, ?_, rfl, rfl, rfl, rfl, rfl, rfl⟩
  unfold AudioDevice.CreateAudioPatch
  rcases hsrc with h | h
  · subst h
    simp
  · split_ifs <;> rfl

/-- C1 at two sources and one sink on a device that holds a patch. -/
theorem C1_create_rejects_source_count_witness :
    (1 < [ex_mix_port 7, ex_mix_port 7].length) ∧
    ∃ r, ex_adev_patched.CreateAudioPatch ex_env_ok (some AUDIO_PATCH_HANDLE_NONE)
        [ex_mix_port 7, ex_mix_port 7] [ex_device_port 2] = .ok r ∧ r.ret = -EINVAL ∧
      r.adev.patch_map_ = ex_adev_patched.patch_map_ ∧
      r.adev.patch_map_.length = ex_adev_patched.patch_map_.length ∧
      r.adev = ex_adev_patched ∧ r.handle = some AUDIO_PATCH_HANDLE_NONE ∧ r.calls = [] :=
  ⟨by decide, C1_create_rejects_source_count ex_env_ok ex_adev_patched
    (some AUDIO_PATCH_HANDLE_NONE) [ex_mix_port 7, ex_mix_port 7] [ex_device_port 2]
    (Or.inr (by decide))⟩

/-! ## CreateAudioPatch: after validation -/

/-- The body of `CreateAudioPatch` once the two argument checks have passed. -/
theorem create_valid_eq (env : Env) (adev : AudioDevice) (h : Int)
    (src snk : audio_port_config) (rest : List audio_port_config)
    (hlen : (snk :: rest).length ≤ AUDIO_PATCH_PORTS_MAX) :
    adev.CreateAudioPatch env (some h) [src] (snk :: rest) =
      match CreateAudioPatch_switch src snk (snk :: rest) with
      | .error status => .ok ⟨status, some h, adev, []⟩
      | .ok pr =>
        match adev.patch_stream pr.patch_type pr.io_handle with
        | none => .ok ⟨-EINVAL, some h, adev, []⟩
        | some st =>
          let routed := CreateAudioPatch_route env adev.voice_ st pr.patch_type pr.device_types
          if h = AUDIO_PATCH_HANDLE_NONE then
            let new_handle := AudioPatch.generate_patch_handle_l adev.handles
            let adev1 := { adev with handles := new_handle }
            if routed.1 ≠ 0 then
              .ok ⟨routed.1, some new_handle, adev1, routed.2⟩
            else if adev.patch_map_mutex then
              .error Fault.deadlock
            else
              .ok ⟨routed.1, some new_handle,
                { adev1 with patch_map_ := (map_assign adev.patch_map_ new_handle
                    ⟨new_handle, pr.patch_type, [src], snk :: rest⟩) },
                routed.2⟩
          else if adev.patch_map_mutex then
            .error Fault.deadlock
          else
            match map_find adev.patch_map_ h with
            | none => .ok ⟨-EINVAL, some h, adev, []⟩
            | some _ =>
              .ok ⟨routed.1, some h,
                { adev with patch_map_ := (map_modify adev.patch_map_ h
                    (fun p => ⟨p.handle, pr.patch_type, [src], snk :: rest⟩)) },
                routed.2⟩ := by
  have hlen1 : rest.length + 1 ≤ 16 := by
    simpa [AUDIO_PATCH_PORTS_MAX] using hlen
  have hlen2 : ¬ (16 < rest.length + 1) := Nat.not_lt.mpr hlen1
  unfold AudioDevice.CreateAudioPatch
  simp [AUDIO_PATCH_PORTS_MAX, hlen2]

/-- A run of `n` creations whose routing fails moves nothing but the handle counter,
which advances by `n` as long as it stays within `INT32_MAX`. -/
theorem create_n_failed (env : Env) (src snk : audio_port_config)
    (rest : List audio_port_config) (pr : PatchRoute) (st : StreamPrimary)
    (hlen : (snk :: rest).length ≤ AUDIO_PATCH_PORTS_MAX)
    (hsw : CreateAudioPatch_switch src snk (snk :: rest) = .ok pr) (n : Nat) :
    ∀ adev : AudioDevice, adev.patch_stream pr.patch_type pr.io_handle = some st →
      (CreateAudioPatch_route env adev.voice_ st pr.patch_type pr.device_types).1 ≠ 0 →
      0 ≤ adev.handles → adev.handles + n ≤ INT32_MAX →
      create_n env [src] (snk :: rest) n adev =
        .ok { adev with handles := adev.handles + n } := by
  induction n with
  | zero =>
    intro adev _ _ _ _
    simp [create_n]
  | succ n ih =>
    intro adev hst hret h0 h1
    have hgen : AudioPatch.generate_patch_handle_l adev.handles = adev.handles + 1 :=
      generate_patch_handle_l_succ adev.handles h0 (by push_cast at h1; omega)
    have hstep := ih { adev with handles := adev.handles + 1 } hst hret
      (by simp only; omega) (by simp only; push_cast at h1; omega)
    simp only [create_n, create_valid_eq env adev _ src snk rest hlen, hsw, hst]
    simp only [if_true, hret, ne_eq, not_false_eq_true, hgen]
    rw [hstep]
    simp only [Nat.cast_add, Nat.cast_one]
    congr 2
    omega

/-- The device `ex_adev_wrapped` is reached from `ex_adev`: one creation that
succeeds, then `2^31 - 2` creations whose routing fails. -/
theorem ex_adev_wrapped_reached :
    (∃ r, ex_adev.CreateAudioPatch ex_env_ok (some AUDIO_PATCH_HANDLE_NONE)
        [ex_mix_port 7] [ex_device_port 2] = .ok r ∧ r.adev = ex_adev_patched) ∧
    create_n ex_env_fail [ex_mix_port 7] [ex_device_port 2] 2147483646 ex_adev_patched =
      .ok ex_adev_wrapped := by
  constructor
  · exact ⟨_, rfl, by decide⟩
  · have h := create_n_failed ex_env_fail (ex_mix_port 7) (ex_device_port 2) []
      ⟨PatchType.PATCH_PLAYBACK, 7, AUDIO_SOURCE_DEFAULT, {2}⟩ ⟨1, 7⟩ (by decide) rfl
      2147483646 ex_adev_patched (by decide) (by decide) (by decide) (by decide)
    rw [h]
    rfl

/-- C2 (as amended): a call of `CreateAudioPatch` with the sentinel handle that
passes validation and stream lookup and whose routing returns a nonzero status
returns that status, leaves the patch table as it was and leaves the caller's
handle set to the newly generated handle; the call adds no entry under that handle,
and the table has no entry under it whenever the counter has not wrapped yet
(every key of the table is at most the counter, which is below `INT32_MAX`). -/
theorem C2_failed_create_adds_no_entry (env : Env) (adev : AudioDevice)
    (src snk : audio_port_config) (rest : List audio_port_config) (pr : PatchRoute)
    (st : StreamPrimary)
    (hlen : (snk :: rest).length ≤ AUDIO_PATCH_PORTS_MAX)
    (hsw : CreateAudioPatch_switch src snk (snk :: rest) = .ok pr)
    (hst : adev.patch_stream pr.patch_type pr.io_handle = some st)
    (hret : (CreateAudioPatch_route env adev.voice_ st pr.patch_type pr.device_types).1 ≠ 0) :
    ∃ r, adev.CreateAudioPatch env (some AUDIO_PATCH_HANDLE_NONE) [src] (snk :: rest) = .ok r ∧
      r.ret = (CreateAudioPatch_route env adev.voice_ st pr.patch_type pr.device_types).1 ∧
      r.adev.patch_map_ = adev.patch_map_ ∧
      r.handle = some (AudioPatch.generate_patch_handle_l adev.handles) ∧
      r.adev.handles = AudioPatch.generate_patch_handle_l adev.handles ∧
      map_find r.adev.patch_map_ (AudioPatch.generate_patch_handle_l adev.handles) =
        map_find adev.patch_map_ (AudioPatch.generate_patch_handle_l adev.handles) ∧
      ((0 ≤ adev.handles ∧ adev.handles < INT32_MAX ∧
          ∀ k ∈ map_keys adev.patch_map_, k ≤ adev.handles) →
        map_find r.adev.patch_map_ (AudioPatch.generate_patch_handle_l adev.handles) = none) := by
  refine ⟨⟨(CreateAudioPatch_route env adev.voice_ st pr.patch_type pr.device_types).1,
    some (AudioPatch.generate_patch_handle_l adev.handles),
    { adev with handles := AudioPatch.generate_patch_handle_l adev.handles },
    (CreateAudioPatch_route env adev.voice_ st pr.patch_type pr.device_types).2⟩,
    ?_, rfl, rfl, rfl, rfl, rfl, ?_⟩
  · rw [create_valid_eq env adev _ src snk rest hlen]
    simp [hsw, hst, hret]
  · rintro ⟨h0, h1, hkeys⟩
    apply map_find_none_of_not_mem_keys
    rw [generate_patch_handle_l_succ adev.handles h0 h1]
    intro hmem
    have := hkeys _ hmem
    omega

/-- C2 (as amended) on `ex_adev_patched` with a backend whose stream routing fails. -/
theorem C2_failed_create_adds_no_entry_witness :
    ([ex_device_port 2].length ≤ AUDIO_PATCH_PORTS_MAX) ∧
    ∃ r, ex_adev_patched.CreateAudioPatch ex_env_fail (some AUDIO_PATCH_HANDLE_NONE)
        [ex_mix_port 7] [ex_device_port 2] = .ok r ∧
      r.adev.patch_map_ = ex_adev_patched.patch_map_ ∧
      r.handle = some 2 ∧ map_find r.adev.patch_map_ 2 = none := by
  obtain ⟨r, h1, _, h3, h4, _, _, h7⟩ :=
    C2_failed_create_adds_no_entry ex_env_fail ex_adev_patched (ex_mix_port 7)
      (ex_device_port 2) [] ⟨PatchType.PATCH_PLAYBACK, 7, AUDIO_SOURCE_DEFAULT, {2}⟩ ⟨1, 7⟩
      (by decide) rfl (by decide) (by decide)
  exact ⟨by decide, r, h1, h3, h4, h7 (by decide)⟩

/-- C2 as stated fails on `ex_adev_wrapped`: the call has the sentinel handle, passes
validation and stream lookup and its routing fails, the handle it leaves with the
caller is 1, and the table holds an entry under 1 (the patch created long before). -/
theorem C2_counterexample :
    CreateAudioPatch_switch (ex_mix_port 7) (ex_device_port 2) [ex_device_port 2] =
      .ok ⟨PatchType.PATCH_PLAYBACK, 7, AUDIO_SOURCE_DEFAULT, {2}⟩ ∧
    ex_adev_wrapped.patch_stream PatchType.PATCH_PLAYBACK 7 = some ⟨1, 7⟩ ∧
    (CreateAudioPatch_route ex_env_fail ex_adev_wrapped.voice_ ⟨1, 7⟩
      PatchType.PATCH_PLAYBACK {2}).1 ≠ 0 ∧
    ∃ r, ex_adev_wrapped.CreateAudioPatch ex_env_fail (some AUDIO_PATCH_HANDLE_NONE)
        [ex_mix_port 7] [ex_device_port 2] = .ok r ∧ r.ret ≠ 0 ∧
      r.handle = some 1 ∧ map_find r.adev.patch_map_ 1 = some (ex_playback_patch 1) := by
  refine ⟨rfl, by decide, by decide, ?_⟩
  refine ⟨⟨(CreateAudioPatch_route ex_env_fail true ⟨1, 7⟩ PatchType.PATCH_PLAYBACK {2}).1,
    some 1, { ex_adev_wrapped with handles := 1 },
    (CreateAudioPatch_route ex_env_fail true ⟨1, 7⟩ PatchType.PATCH_PLAYBACK {2}).2⟩,
    ?_, by decide, rfl, by decide⟩
  rw [create_valid_eq ex_env_fail ex_adev_wrapped _ (ex_mix_port 7) (ex_device_port 2) []
    (by decide)]
  rfl

/-- C3: a call of `CreateAudioPatch` with the sentinel handle that passes validation
and stream lookup and whose routing returns 0 returns 0, sets the caller's handle to
the generated handle `h`, which is not the sentinel, and leaves the table as the table
before with `h` mapped to a patch that holds `h`, the classified type, the given
sources and the given sinks; every other entry is unchanged.  The patch-table lock is
free at the call and the counter is a value the generator produces (0 to
`INT32_MAX`). -/
theorem C3_create_inserts_new_patch (env : Env) (adev : AudioDevice)
    (src snk : audio_port_config) (rest : List audio_port_config) (pr : PatchRoute)
    (st : StreamPrimary)
    (hlen : (snk :: rest).length ≤ AUDIO_PATCH_PORTS_MAX)
    (hsw : CreateAudioPatch_switch src snk (snk :: rest) = .ok pr)
    (hst : adev.patch_stream pr.patch_type pr.io_handle = some st)
    (hret : (CreateAudioPatch_route env adev.voice_ st pr.patch_type pr.device_types).1 = 0)
    (hfree : adev.patch_map_mutex = false)
    (hcnt : 0 ≤ adev.handles ∧ adev.handles ≤ INT32_MAX) :
    ∃ r h, adev.CreateAudioPatch env (some AUDIO_PATCH_HANDLE_NONE) [src] (snk :: rest) = .ok r ∧
      r.ret = 0 ∧ r.handle = some h ∧ h ≠ AUDIO_PATCH_HANDLE_NONE ∧
      h = AudioPatch.generate_patch_handle_l adev.handles ∧
      r.adev.patch_map_ =
        map_assign adev.patch_map_ h ⟨h, pr.patch_type, [src], snk :: rest⟩ ∧
      map_find r.adev.patch_map_ h = some ⟨h, pr.patch_type, [src], snk :: rest⟩ ∧
      (∀ k, k ≠ h → map_find r.adev.patch_map_ k = map_find adev.patch_map_ k) := by
  have hpos := generate_patch_handle_l_pos adev.handles hcnt.1 hcnt.2
  refine ⟨⟨0, some (AudioPatch.generate_patch_handle_l adev.handles),
    { adev with
      handles := AudioPatch.generate_patch_handle_l adev.handles
      patch_map_ := map_assign adev.patch_map_ (AudioPatch.generate_patch_handle_l adev.handles)
        ⟨AudioPatch.generate_patch_handle_l adev.handles, pr.patch_type, [src], snk :: rest⟩ },
    (CreateAudioPatch_route env adev.voice_ st pr.patch_type pr.device_types).2⟩,
    AudioPatch.generate_patch_handle_l adev.handles, ?_, rfl, rfl, ?_, rfl, rfl, ?_, ?_⟩
  · rw [create_valid_eq env adev _ src snk rest hlen]
    simp [hsw, hst, hret, hfree]
  · unfold AUDIO_PATCH_HANDLE_NONE
    omega
  · exact map_find_assign_self _ _ _
  · intro k hk
    exact map_find_assign_of_ne _ _ _ _ hk

/-- C3 on `ex_adev` with a backend whose routing succeeds: handle 1 is generated. -/
theorem C3_create_inserts_new_patch_witness :
    ([ex_device_port 2].length ≤ AUDIO_PATCH_PORTS_MAX) ∧
    ex_adev.patch_map_mutex = false ∧ (0 ≤ ex_adev.handles ∧ ex_adev.handles ≤ INT32_MAX) ∧
    ∃ r h, ex_adev.CreateAudioPatch ex_env_ok (some AUDIO_PATCH_HANDLE_NONE)
        [ex_mix_port 7] [ex_device_port 2] = .ok r ∧
      r.ret = 0 ∧ r.handle = some h ∧ h ≠ AUDIO_PATCH_HANDLE_NONE ∧
      h = AudioPatch.generate_patch_handle_l ex_adev.handles ∧
      r.adev.patch_map_ = map_assign ex_adev.patch_map_ h
        ⟨h, PatchType.PATCH_PLAYBACK, [ex_mix_port 7], [ex_device_port 2]⟩ ∧
      map_find r.adev.patch_map_ h =
        some ⟨h, PatchType.PATCH_PLAYBACK, [ex_mix_port 7], [ex_device_port 2]⟩ ∧
      (∀ k, k ≠ h → map_find r.adev.patch_map_ k = map_find ex_adev.patch_map_ k) :=
  ⟨by decide, rfl, by decide,
    C3_create_inserts_new_patch ex_env_ok ex_adev (ex_mix_port 7) (ex_device_port 2) []
      ⟨PatchType.PATCH_PLAYBACK, 7, AUDIO_SOURCE_DEFAULT, {2}⟩ ⟨1, 7⟩
      (by decide) rfl (by decide) (by decide) rfl (by decide)⟩

/-- C8: a call of `CreateAudioPatch` that passes validation and classification but
finds no stream with the mix-side I/O handle in the registry of the patch's direction
returns `-EINVAL` with the device as it was (so the patch table is unchanged and the
counter has generated no handle), the caller's handle unchanged and no routing call
made. -/
theorem C8_create_without_stream (env : Env) (adev : AudioDevice) (h : Int)
    (src snk : audio_port_config) (rest : List audio_port_config) (pr : PatchRoute)
    (hlen : (snk :: rest).length ≤ AUDIO_PATCH_PORTS_MAX)
    (hsw : CreateAudioPatch_switch src snk (snk :: rest) = .ok pr)
    (hst : adev.patch_stream pr.patch_type pr.io_handle = none) :
    ∃ r, adev.CreateAudioPatch env (some h) [src] (snk :: rest) = .ok r ∧
      r.ret = -EINVAL ∧ r.adev.patch_map_ = adev.patch_map_ ∧ r.handle = some h ∧
      r.adev.handles = adev.handles ∧ r.adev = adev ∧ r.calls = [] := by
  refine ⟨⟨-EINVAL, some h, adev, []⟩, ?_, rfl, rfl, rfl, rfl, rfl, rfl⟩
  rw [create_valid_eq env adev _ src snk rest hlen]
  simp [hsw, hst]

/-- C8 on `ex_adev_closed`, where the output stream 7 is gone. -/
theorem C8_create_without_stream_witness :
    ([ex_device_port 2].length ≤ AUDIO_PATCH_PORTS_MAX) ∧
    ex_adev_closed.patch_stream PatchType.PATCH_PLAYBACK 7 = none ∧
    ∃ r, ex_adev_closed.CreateAudioPatch ex_env_ok (some AUDIO_PATCH_HANDLE_NONE)
        [ex_mix_port 7] [ex_device_port 2] = .ok r ∧
      r.ret = -EINVAL ∧ r.adev.patch_map_ = ex_adev_closed.patch_map_ ∧
      r.handle = some AUDIO_PATCH_HANDLE_NONE ∧
      r.adev.handles = ex_adev_closed.handles ∧ r.adev = ex_adev_closed ∧ r.calls = [] :=
  ⟨by decide, by decide,
    C8_create_without_stream ex_env_ok ex_adev_closed AUDIO_PATCH_HANDLE_NONE (ex_mix_port 7)
      (ex_device_port 2) [] ⟨PatchType.PATCH_PLAYBACK, 7, AUDIO_SOURCE_DEFAULT, {2}⟩
      (by decide) rfl (by decide)⟩

/-- C10: a call of `CreateAudioPatch` with a handle `h` that is not the sentinel and is
a key of the table, that passes validation and stream lookup and whose routing returns
0, returns 0 and leaves the caller's handle at `h`; the keys of the table are
unchanged, the entry under `h` keeps its handle field and holds the newly classified
type and the given sources and sinks, every other entry is unchanged, and the handle
counter has not moved.  The patch-table lock is free at the call. -/
theorem C10_create_updates_in_place (env : Env) (adev : AudioDevice) (h : Int)
    (p : AudioPatch) (src snk : audio_port_config) (rest : List audio_port_config)
    (pr : PatchRoute) (st : StreamPrimary)
    (hh : h ≠ AUDIO_PATCH_HANDLE_NONE)
    (hfind : map_find adev.patch_map_ h = some p)
    (hlen : (snk :: rest).length ≤ AUDIO_PATCH_PORTS_MAX)
    (hsw : CreateAudioPatch_switch src snk (snk :: rest) = .ok pr)
    (hst : adev.patch_stream pr.patch_type pr.io_handle = some st)
    (hret : (CreateAudioPatch_route env adev.voice_ st pr.patch_type pr.device_types).1 = 0)
    (hfree : adev.patch_map_mutex = false) :
    ∃ r, adev.CreateAudioPatch env (some h) [src] (snk :: rest) = .ok r ∧
      r.ret = 0 ∧ r.handle = some h ∧
      map_keys r.adev.patch_map_ = map_keys adev.patch_map_ ∧
      map_find r.adev.patch_map_ h = some ⟨p.handle, pr.patch_type, [src], snk :: rest⟩ ∧
      (∀ k, k ≠ h → map_find r.adev.patch_map_ k = map_find adev.patch_map_ k) ∧
      r.adev.handles = adev.handles := by
  refine ⟨⟨0, some h,
    { adev with patch_map_ := (map_modify adev.patch_map_ h
        (fun q => ⟨q.handle, pr.patch_type, [src], snk :: rest⟩)) },
    (CreateAudioPatch_route env adev.voice_ st pr.patch_type pr.device_types).2⟩,
    ?_, rfl, rfl, ?_, ?_, ?_, rfl⟩
  · rw [create_valid_eq env adev _ src snk rest hlen]
    simp [hsw, hst, hret, hfree, hh, hfind]
  · exact map_keys_modify _ _ _
  · exact map_find_modify_self _ _ _ p hfind
  · intro k hk
    exact map_find_modify_of_ne _ _ _ _ hk

/-- C10 on `ex_adev_patched`: the playback patch under handle 1 is re-routed to the
devices 4 and 2. -/
theorem C10_create_updates_in_place_witness :
    ((1 : Int) ≠ AUDIO_PATCH_HANDLE_NONE) ∧
    map_find ex_adev_patched.patch_map_ 1 = some (ex_playback_patch 1) ∧
    ex_adev_patched.patch_map_mutex = false ∧
    ∃ r, ex_adev_patched.CreateAudioPatch ex_env_ok (some 1) [ex_mix_port 7]
        [ex_device_port 4, ex_device_port 2] = .ok r ∧
      r.ret = 0 ∧ r.handle = some 1 ∧
      map_keys r.adev.patch_map_ = map_keys ex_adev_patched.patch_map_ ∧
      map_find r.adev.patch_map_ 1 = some ⟨(ex_playback_patch 1).handle,
        PatchType.PATCH_PLAYBACK, [ex_mix_port 7], [ex_device_port 4, ex_device_port 2]⟩ ∧
      (∀ k, k ≠ 1 → map_find r.adev.patch_map_ k = map_find ex_adev_patched.patch_map_ k) ∧
      r.adev.handles = ex_adev_patched.handles :=
  ⟨by decide, by decide, rfl,
    C10_create_updates_in_place ex_env_ok ex_adev_patched 1 (ex_playback_patch 1)
      (ex_mix_port 7) (ex_device_port 4) [ex_device_port 2]
      ⟨PatchType.PATCH_PLAYBACK, 7, AUDIO_SOURCE_DEFAULT, {2, 4}⟩ ⟨1, 7⟩
      (by decide) (by decide) (by decide) rfl (by decide) (by decide) rfl⟩

/-! ## ReleaseAudioPatch -/

/-- The body of `ReleaseAudioPatch` for a handle that is found, when the lock is free. -/
theorem release_found_eq (env : Env) (adev : AudioDevice) (h : Int) (p : AudioPatch)
    (hh : h ≠ AUDIO_PATCH_HANDLE_NONE) (hfree : adev.patch_map_mutex = false)
    (hfind : map_find adev.patch_map_ h = some p) :
    adev.ReleaseAudioPatch env h =
      match ReleaseAudioPatch_switch p with
      | .error fault => .error fault
      | .ok none => .ok ⟨-EINVAL, { adev with patch_map_mutex := true }, []⟩
      | .ok (some io_handle) =>
        match adev.patch_stream p.type io_handle with
        | none => .ok ⟨-EINVAL, adev, []⟩
        | some st =>
          if p.type = PatchType.PATCH_PLAYBACK then
            if adev.voice_ then
              .ok ⟨Int.lor (env.stream_RouteStream st {AUDIO_DEVICE_NONE})
                  (env.voice_RouteStream {AUDIO_DEVICE_NONE}),
                { adev with patch_map_ := map_erase adev.patch_map_ h },
                [RouteCall.stream st {AUDIO_DEVICE_NONE}, RouteCall.voice {AUDIO_DEVICE_NONE}]⟩
            else .error Fault.null_deref
          else
            .ok ⟨env.stream_RouteStream st {AUDIO_DEVICE_NONE},
              { adev with patch_map_ := map_erase adev.patch_map_ h },
              [RouteCall.stream st {AUDIO_DEVICE_NONE}]⟩ := by
  cases adev
  simp only at hfree hfind
  subst hfree
  unfold AudioDevice.ReleaseAudioPatch
  simp only [hh, if_false, hfind, AudioDevice.patch_stream, AudioDevice.OutGetStream,
    AudioDevice.InGetStream]
  rfl

/-- C4: for a handle `h` that is the sentinel or is not a key of the patch table,
`ReleaseAudioPatch(h)` returns `-EINVAL`, makes no routing call and leaves the patch
table unchanged.  The patch-table lock is free at a call that reaches the lookup. -/
theorem C4_release_unknown_handle (env : Env) (adev : AudioDevice) (h : Int)
    (hfree : h ≠ AUDIO_PATCH_HANDLE_NONE → adev.patch_map_mutex = false)
    (hh : h = AUDIO_PATCH_HANDLE_NONE ∨ h ∉ map_keys adev.patch_map_) :
    ∃ r, adev.ReleaseAudioPatch env h = .ok r ∧ r.ret = -EINVAL ∧ r.calls = [] ∧
      r.adev.patch_map_ = adev.patch_map_ ∧
      r.adev.stream_out_list_ = adev.stream_out_list_ ∧
      r.adev.stream_in_list_ = adev.stream_in_list_ := by
  by_cases h0 : h = AUDIO_PATCH_HANDLE_NONE
  · refine ⟨⟨-EINVAL, adev, []⟩, ?_, rfl, rfl, rfl, rfl, rfl⟩
    simp [AudioDevice.ReleaseAudioPatch, h0]
  · have hnone : map_find adev.patch_map_ h = none := by
      rcases hh with hh | hh
      · exact absurd hh h0
      · exact map_find_none_of_not_mem_keys _ _ hh
    refine ⟨⟨-EINVAL, { adev with patch_map_mutex := true }, []⟩, ?_, rfl, rfl, rfl, rfl, rfl⟩
    simp [AudioDevice.ReleaseAudioPatch, h0, hfree h0, hnone]

/-- C4 on `ex_adev_patched` with handle 5, which is not a key. -/
theorem C4_release_unknown_handle_witness :
    ((5 : Int) ≠ AUDIO_PATCH_HANDLE_NONE → ex_adev_patched.patch_map_mutex = false) ∧
    ((5 : Int) = AUDIO_PATCH_HANDLE_NONE ∨ (5 : Int) ∉ map_keys ex_adev_patched.patch_map_) ∧
    ∃ r, ex_adev_patched.ReleaseAudioPatch ex_env_ok 5 = .ok r ∧ r.ret = -EINVAL ∧
      r.calls = [] ∧ r.adev.patch_map_ = ex_adev_patched.patch_map_ ∧
      r.adev.stream_out_list_ = ex_adev_patched.stream_out_list_ ∧
      r.adev.stream_in_list_ = ex_adev_patched.stream_in_list_ :=
  ⟨fun _ => rfl, Or.inr (by decide),
    C4_release_unknown_handle ex_env_ok ex_adev_patched 5 (fun _ => rfl) (Or.inr (by decide))⟩

/-- A release that returns 0 has taken the whole path: the handle is not the sentinel,
the lock is free again and the entry has been erased. -/
theorem release_ok_zero (env : Env) (adev : AudioDevice) (h : Int) (r : ReleaseResult)
    (hrel : adev.ReleaseAudioPatch env h = .ok r) (hret : r.ret = 0) :
    h ≠ AUDIO_PATCH_HANDLE_NONE ∧ r.adev.patch_map_mutex = false ∧
      r.adev.patch_map_ = map_erase adev.patch_map_ h := by
  have hE : (-EINVAL : Int) ≠ 0 := by decide
  by_cases h0 : h = AUDIO_PATCH_HANDLE_NONE
  · simp only [AudioDevice.ReleaseAudioPatch, h0, if_true, Except.ok.injEq] at hrel
    subst hrel
    exact absurd hret hE
  · by_cases hm : adev.patch_map_mutex = true
    · simp [AudioDevice.ReleaseAudioPatch, h0, hm] at hrel
    · have hfree : adev.patch_map_mutex = false := by simpa using hm
      cases hfind : map_find adev.patch_map_ h with
      | none =>
        simp only [AudioDevice.ReleaseAudioPatch, h0, hfree, if_false, hfind,
          Except.ok.injEq, Bool.false_eq_true] at hrel
        subst hrel
        exact absurd hret hE
      | some p =>
        rw [release_found_eq env adev h p h0 hfree hfind] at hrel
        refine ⟨h0, ?_⟩
        split at hrel
        · simp at hrel
        · simp only [Except.ok.injEq] at hrel
          subst hrel
          exact absurd hret hE
        · split at hrel
          · simp only [Except.ok.injEq] at hrel
            subst hrel
            exact absurd hret hE
          · split_ifs at hrel
            · simp only [Except.ok.injEq] at hrel
              subst hrel
              exact ⟨hfree, rfl⟩
            · simp only [Except.ok.injEq] at hrel
              subst hrel
              exact ⟨hfree, rfl⟩

/-- C5: after a `ReleaseAudioPatch(h)` that returned 0, `h` is no longer a key of the
patch table, and a `ReleaseAudioPatch(h)` that follows at once (whatever the backend
does) returns `-EINVAL`, makes no routing call and leaves the table unchanged. -/
theorem C5_release_twice (env env2 : Env) (adev : AudioDevice) (h : Int) (r : ReleaseResult)
    (hrel : adev.ReleaseAudioPatch env h = .ok r) (hret : r.ret = 0) :
    h ∉ map_keys r.adev.patch_map_ ∧ map_find r.adev.patch_map_ h = none ∧
      ∃ r2, r.adev.ReleaseAudioPatch env2 h = .ok r2 ∧ r2.ret = -EINVAL ∧
        r2.adev.patch_map_ = r.adev.patch_map_ ∧ r2.calls = [] := by
  obtain ⟨h0, hfree, hmap⟩ := release_ok_zero env adev h r hrel hret
  have hkey : h ∉ map_keys r.adev.patch_map_ := by
    rw [hmap]
    exact not_mem_map_keys_erase _ _
  have hnone : map_find r.adev.patch_map_ h = none :=
    map_find_none_of_not_mem_keys _ _ hkey
  refine ⟨hkey, hnone, ⟨-EINVAL, { r.adev with patch_map_mutex := true }, []⟩, ?_, rfl, rfl, rfl⟩
  simp [AudioDevice.ReleaseAudioPatch, h0, hfree, hnone]

/-- C5 on `ex_adev_patched`: handle 1 is released with success, then released again. -/
theorem C5_release_twice_witness :
    ex_adev_patched.ReleaseAudioPatch ex_env_ok 1 =
      .ok ⟨0, { ex_adev_patched with patch_map_ := [] },
        [RouteCall.stream ⟨1, 7⟩ {AUDIO_DEVICE_NONE}, RouteCall.voice {AUDIO_DEVICE_NONE}]⟩ ∧
    ((1 : Int) ∉ map_keys ([] : List (Int × AudioPatch)) ∧
      map_find ([] : List (Int × AudioPatch)) 1 = none ∧
      ∃ r2, ({ ex_adev_patched with patch_map_ := [] } : AudioDevice).ReleaseAudioPatch
          ex_env_fail 1 = .ok r2 ∧ r2.ret = -EINVAL ∧
        r2.adev.patch_map_ = [] ∧ r2.calls = []) :=
  ⟨rfl, C5_release_twice ex_env_ok ex_env_fail ex_adev_patched 1
    ⟨0, { ex_adev_patched with patch_map_ := [] },
      [RouteCall.stream ⟨1, 7⟩ {AUDIO_DEVICE_NONE}, RouteCall.voice {AUDIO_DEVICE_NONE}]⟩
    rfl rfl⟩

/-- C6: for a handle `h` that is in the table and whose patch resolves to a registered
stream, `ReleaseAudioPatch(h)` routes that stream with the device set
`{AUDIO_DEVICE_NONE}` (and, for a playback patch, the voice subsystem with the same
set), returns the teardown status (the stream result, OR-ed with the voice result for
a playback patch) and removes the entry under `h`, every other entry unchanged,
whatever that status is.  The lock is free at the call, `h` is not the sentinel, and
for a playback patch the voice object exists. -/
theorem C6_release_removes_entry (env : Env) (adev : AudioDevice) (h : Int)
    (p : AudioPatch) (io_handle : Int) (st : StreamPrimary)
    (hh : h ≠ AUDIO_PATCH_HANDLE_NONE) (hfree : adev.patch_map_mutex = false)
    (hfind : map_find adev.patch_map_ h = some p)
    (hsw : ReleaseAudioPatch_switch p = .ok (some io_handle))
    (hst : adev.patch_stream p.type io_handle = some st)
    (hvoice : p.type = PatchType.PATCH_PLAYBACK → adev.voice_ = true) :
    ∃ r, adev.ReleaseAudioPatch env h = .ok r ∧
      r.ret = (if p.type = PatchType.PATCH_PLAYBACK then
          Int.lor (env.stream_RouteStream st {AUDIO_DEVICE_NONE})
            (env.voice_RouteStream {AUDIO_DEVICE_NONE})
        else env.stream_RouteStream st {AUDIO_DEVICE_NONE}) ∧
      r.calls = (if p.type = PatchType.PATCH_PLAYBACK then
          [RouteCall.stream st {AUDIO_DEVICE_NONE}, RouteCall.voice {AUDIO_DEVICE_NONE}]
        else [RouteCall.stream st {AUDIO_DEVICE_NONE}]) ∧
      r.adev.patch_map_ = map_erase adev.patch_map_ h ∧
      h ∉ map_keys r.adev.patch_map_ ∧ map_find r.adev.patch_map_ h = none ∧
      (∀ k, k ≠ h → map_find r.adev.patch_map_ k = map_find adev.patch_map_ k) := by
  rw [release_found_eq env adev h p hh hfree hfind]
  simp only [hsw, hst]
  by_cases hp : p.type = PatchType.PATCH_PLAYBACK
  · simp only [hp, if_true, hvoice hp]
    exact ⟨_, rfl, rfl, rfl, rfl, not_mem_map_keys_erase _ _, map_find_erase_self _ _,
      fun k hk => map_find_erase_of_ne _ _ _ hk⟩
  · simp only [hp, if_false]
    exact ⟨_, rfl, rfl, rfl, rfl, not_mem_map_keys_erase _ _, map_find_erase_self _ _,
      fun k hk => map_find_erase_of_ne _ _ _ hk⟩

/-- C6 on `ex_adev_patched` with a backend whose stream routing fails: the entry under
handle 1 is removed all the same. -/
theorem C6_release_removes_entry_witness :
    ((1 : Int) ≠ AUDIO_PATCH_HANDLE_NONE) ∧ ex_adev_patched.patch_map_mutex = false ∧
    map_find ex_adev_patched.patch_map_ 1 = some (ex_playback_patch 1) ∧
    ReleaseAudioPatch_switch (ex_playback_patch 1) = .ok (some 7) ∧
    ex_adev_patched.patch_stream (ex_playback_patch 1).type 7 = some ⟨1, 7⟩ ∧
    ∃ r, ex_adev_patched.ReleaseAudioPatch ex_env_fail 1 = .ok r ∧
      r.ret = Int.lor (-EINVAL) 0 ∧ r.ret ≠ 0 ∧
      r.calls =
        [RouteCall.stream ⟨1, 7⟩ {AUDIO_DEVICE_NONE}, RouteCall.voice {AUDIO_DEVICE_NONE}] ∧
      map_find r.adev.patch_map_ 1 = none := by
  obtain ⟨r, h1, h2, h3, _, _, h6, _⟩ :=
    C6_release_removes_entry ex_env_fail ex_adev_patched 1 (ex_playback_patch 1) 7 ⟨1, 7⟩
      (by decide) rfl (by decide) rfl (by decide) (fun _ => rfl)
  refine ⟨by decide, rfl, by decide, rfl, by decide, r, h1, ?_, ?_, ?_, h6⟩
  · rw [h2]; rfl
  · rw [h2]; decide
  · rw [h3]; rfl

/-- C7: for a handle `h` that is in the table while no stream with the patch's
mix-side I/O handle is registered any more, `ReleaseAudioPatch(h)` returns `-EINVAL`,
makes no routing call and leaves the patch table unchanged, so the entry under `h` is
still there.  The lock is free at the call and `h` is not the sentinel. -/
theorem C7_release_without_stream (env : Env) (adev : AudioDevice) (h : Int)
    (p : AudioPatch) (io_handle : Int)
    (hh : h ≠ AUDIO_PATCH_HANDLE_NONE) (hfree : adev.patch_map_mutex = false)
    (hfind : map_find adev.patch_map_ h = some p)
    (hsw : ReleaseAudioPatch_switch p = .ok (some io_handle))
    (hst : adev.patch_stream p.type io_handle = none) :
    ∃ r, adev.ReleaseAudioPatch env h = .ok r ∧ r.ret = -EINVAL ∧ r.calls = [] ∧
      r.adev.patch_map_ = adev.patch_map_ ∧ map_find r.adev.patch_map_ h = some p ∧
      r.adev = adev := by
  rw [release_found_eq env adev h p hh hfree hfind]
  simp only [hsw, hst]
  exact ⟨_, rfl, rfl, rfl, rfl, hfind, rfl⟩

/-- C7 on `ex_adev_closed`: the output stream 7 of the patch under handle 1 was closed. -/
theorem C7_release_without_stream_witness :
    ((1 : Int) ≠ AUDIO_PATCH_HANDLE_NONE) ∧ ex_adev_closed.patch_map_mutex = false ∧
    map_find ex_adev_closed.patch_map_ 1 = some (ex_playback_patch 1) ∧
    ReleaseAudioPatch_switch (ex_playback_patch 1) = .ok (some 7) ∧
    ex_adev_closed.patch_stream (ex_playback_patch 1).type 7 = none ∧
    ∃ r, ex_adev_closed.ReleaseAudioPatch ex_env_ok 1 = .ok r ∧ r.ret = -EINVAL ∧
      r.calls = [] ∧ r.adev.patch_map_ = ex_adev_closed.patch_map_ ∧
      map_find r.adev.patch_map_ 1 = some (ex_playback_patch 1) ∧ r.adev = ex_adev_closed :=
  ⟨by decide, rfl, by decide, rfl, by decide,
    C7_release_without_stream ex_env_ok ex_adev_closed 1 (ex_playback_patch 1) 7
      (by decide) rfl (by decide) rfl (by decide)⟩

/-! ## CreateAudioPatch: classification -/

/-- The loop over the sinks adds exactly the device types of the sinks. -/
theorem insert_sink_devices_eq (sinks : List audio_port_config) (acc : Finset Nat) :
    insert_sink_devices sinks acc =
      acc ∪ (sinks.map (fun sink => sink.ext_device_type)).toFinset := by
  induction sinks generalizing acc with
  | nil => simp [insert_sink_devices]
  | cons sink rest ih =>
    have hstep : insert_sink_devices (sink :: rest) acc =
        insert_sink_devices rest (insert sink.ext_device_type acc) := rfl
    rw [hstep, ih]
    ext d
    simp only [Finset.mem_union, Finset.mem_insert, List.map_cons, List.toFinset_cons]
    tauto

/-- A valid call that finds its stream and either brings the sentinel or a handle of
the table makes the routing calls of `CreateAudioPatch_route`, returns their status
and, when that status is 0, leaves a patch of the classified type with the given
sources and sinks under the handle it hands back. -/
theorem create_routed (env : Env) (adev : AudioDevice) (h : Int)
    (src snk : audio_port_config) (rest : List audio_port_config) (pr : PatchRoute)
    (st : StreamPrimary)
    (hlen : (snk :: rest).length ≤ AUDIO_PATCH_PORTS_MAX)
    (hsw : CreateAudioPatch_switch src snk (snk :: rest) = .ok pr)
    (hst : adev.patch_stream pr.patch_type pr.io_handle = some st)
    (hfree : adev.patch_map_mutex = false)
    (hreach : h = AUDIO_PATCH_HANDLE_NONE ∨ ∃ q, map_find adev.patch_map_ h = some q) :
    ∃ r hd p, adev.CreateAudioPatch env (some h) [src] (snk :: rest) = .ok r ∧
      r.calls = (CreateAudioPatch_route env adev.voice_ st pr.patch_type pr.device_types).2 ∧
      r.ret = (CreateAudioPatch_route env adev.voice_ st pr.patch_type pr.device_types).1 ∧
      r.handle = some hd ∧
      (r.ret = 0 → map_find r.adev.patch_map_ hd = some p ∧ p.type = pr.patch_type ∧
        p.sources = [src] ∧ p.sinks = snk :: rest) := by
  rw [create_valid_eq env adev _ src snk rest hlen]
  simp only [hsw, hst]
  by_cases h0 : h = AUDIO_PATCH_HANDLE_NONE
  · by_cases hret :
        (CreateAudioPatch_route env adev.voice_ st pr.patch_type pr.device_types).1 = 0
    · simp only [h0, if_true, hret, ne_eq, not_true_eq_false, if_false, hfree,
        Bool.false_eq_true]
      exact ⟨_, AudioPatch.generate_patch_handle_l adev.handles,
        ⟨AudioPatch.generate_patch_handle_l adev.handles, pr.patch_type, [src], snk :: rest⟩,
        rfl, rfl, rfl, rfl, fun _ => ⟨map_find_assign_self _ _ _, rfl, rfl, rfl⟩⟩
    · simp only [h0, if_true, hret, ne_eq, not_false_eq_true]
      exact ⟨_, AudioPatch.generate_patch_handle_l adev.handles,
        ⟨AudioPatch.generate_patch_handle_l adev.handles, pr.patch_type, [src], snk :: rest⟩,
        rfl, rfl, rfl, rfl, fun hz => absurd hz hret⟩
  · rcases hreach with hreach | ⟨q, hq⟩
    · exact absurd hreach h0
    · simp only [h0, if_false, hfree, Bool.false_eq_true, hq]
      exact ⟨_, h, ⟨q.handle, pr.patch_type, [src], snk :: rest⟩, rfl, rfl, rfl, rfl,
        fun _ => ⟨map_find_modify_self _ _ _ q hq, rfl, rfl, rfl⟩⟩

/-- C9: the classification of a valid call of `CreateAudioPatch` with one source.
A `DEVICE` source with a first sink of type `MIX` is a capture patch: the stream is
looked up in the input registry under the first sink's mix handle, routed with the
device set of the source's device type, and the patch stored is of type capture.
A `DEVICE` source with a first sink that is not `MIX` returns `-ENOSYS`, the device
(so the table) and the caller's handle unchanged.  A `MIX` source is a playback
patch: the stream is looked up in the output registry under the source's mix handle,
routed with the set of the device types of all sinks, and the patch stored is of type
playback.  A `SESSION` or `NONE` source returns `-EINVAL`.  The routing statements
are for a call that reaches routing: the lock is free and the handle is the sentinel
or a key of the table. -/
theorem C9_create_classification (env : Env) (adev : AudioDevice) (h : Int)
    (src snk : audio_port_config) (rest : List audio_port_config)
    (hlen : (snk :: rest).length ≤ AUDIO_PATCH_PORTS_MAX) :
    (src.type = audio_port_type_t.AUDIO_PORT_TYPE_DEVICE →
      snk.type = audio_port_type_t.AUDIO_PORT_TYPE_MIX →
      (adev.InGetStream snk.ext_mix_handle = none →
        adev.CreateAudioPatch env (some h) [src] (snk :: rest) =
          .ok ⟨-EINVAL, some h, adev, []⟩) ∧
      (∀ st, adev.InGetStream snk.ext_mix_handle = some st →
        adev.patch_map_mutex = false →
        (h = AUDIO_PATCH_HANDLE_NONE ∨ ∃ q, map_find adev.patch_map_ h = some q) →
        ∃ r hd p, adev.CreateAudioPatch env (some h) [src] (snk :: rest) = .ok r ∧
          r.calls = [RouteCall.stream st {src.ext_device_type}] ∧
          r.ret = env.stream_RouteStream st {src.ext_device_type} ∧
          r.handle = some hd ∧
          (r.ret = 0 → map_find r.adev.patch_map_ hd = some p ∧
            p.type = PatchType.PATCH_CAPTURE ∧ p.sources = [src] ∧ p.sinks = snk :: rest))) ∧
    (src.type = audio_port_type_t.AUDIO_PORT_TYPE_DEVICE →
      snk.type ≠ audio_port_type_t.AUDIO_PORT_TYPE_MIX →
      adev.CreateAudioPatch env (some h) [src] (snk :: rest) =
        .ok ⟨-ENOSYS, some h, adev, []⟩) ∧
    (src.type = audio_port_type_t.AUDIO_PORT_TYPE_MIX →
      (adev.OutGetStream src.ext_mix_handle = none →
        adev.CreateAudioPatch env (some h) [src] (snk :: rest) =
          .ok ⟨-EINVAL, some h, adev, []⟩) ∧
      (∀ st, adev.OutGetStream src.ext_mix_handle = some st →
        adev.patch_map_mutex = false →
        (h = AUDIO_PATCH_HANDLE_NONE ∨ ∃ q, map_find adev.patch_map_ h = some q) →
        ∃ r hd p, adev.CreateAudioPatch env (some h) [src] (snk :: rest) = .ok r ∧
          r.calls = RouteCall.stream st
              ((snk :: rest).map (fun sink => sink.ext_device_type)).toFinset ::
            (if adev.voice_ then
              [RouteCall.voice ((snk :: rest).map (fun sink => sink.ext_device_type)).toFinset]
            else []) ∧
          r.ret = (if adev.voice_ then
              Int.lor
                (env.stream_RouteStream st
                  ((snk :: rest).map (fun sink => sink.ext_device_type)).toFinset)
                (env.voice_RouteStream
                  ((snk :: rest).map (fun sink => sink.ext_device_type)).toFinset)
            else env.stream_RouteStream st
              ((snk :: rest).map (fun sink => sink.ext_device_type)).toFinset) ∧
          r.handle = some hd ∧
          (r.ret = 0 → map_find r.adev.patch_map_ hd = some p ∧
            p.type = PatchType.PATCH_PLAYBACK ∧ p.sources = [src] ∧ p.sinks = snk :: rest))) ∧
    ((src.type = audio_port_type_t.AUDIO_PORT_TYPE_SESSION ∨
        src.type = audio_port_type_t.AUDIO_PORT_TYPE_NONE) →
      adev.CreateAudioPatch env (some h) [src] (snk :: rest) =
        .ok ⟨-EINVAL, some h, adev, []⟩) := by
  refine ⟨?_, ?_, ?_, ?_⟩
  · intro hsrc hsnk
    have hsw : CreateAudioPatch_switch src snk (snk :: rest) =
        .ok ⟨PatchType.PATCH_CAPTURE, snk.ext_mix_handle, snk.ext_mix_usecase_source,
          {src.ext_device_type}⟩ := by
      simp [CreateAudioPatch_switch, hsrc, hsnk]
    constructor
    · intro hnone
      rw [create_valid_eq env adev _ src snk rest hlen]
      simp [hsw, AudioDevice.patch_stream, hnone]
    · intro st hst hfree hreach
      have hst2 : adev.patch_stream PatchType.PATCH_CAPTURE snk.ext_mix_handle = some st := by
        simp [AudioDevice.patch_stream, hst]
      obtain ⟨r, hd, p, h1, h2, h3, h4, h5⟩ :=
        create_routed env adev h src snk rest _ st hlen hsw hst2 hfree hreach
      refine ⟨r, hd, p, h1, ?_, ?_, h4, h5⟩
      · rw [h2]; simp [CreateAudioPatch_route]
      · rw [h3]; simp [CreateAudioPatch_route]
  · intro hsrc hsnk
    rw [create_valid_eq env adev _ src snk rest hlen]
    simp [CreateAudioPatch_switch, hsrc, hsnk]
  · intro hsrc
    have hsw : CreateAudioPatch_switch src snk (snk :: rest) =
        .ok ⟨PatchType.PATCH_PLAYBACK, src.ext_mix_handle, AUDIO_SOURCE_DEFAULT,
          ((snk :: rest).map (fun sink => sink.ext_device_type)).toFinset⟩ := by
      simp [CreateAudioPatch_switch, hsrc, insert_sink_devices_eq]
    constructor
    · intro hnone
      rw [create_valid_eq env adev _ src snk rest hlen]
      simp [hsw, AudioDevice.patch_stream, hnone]
    · intro st hst hfree hreach
      have hst2 : adev.patch_stream PatchType.PATCH_PLAYBACK src.ext_mix_handle = some st := by
        simp [AudioDevice.patch_stream, hst]
      obtain ⟨r, hd, p, h1, h2, h3, h4, h5⟩ :=
        create_routed env adev h src snk rest _ st hlen hsw hst2 hfree hreach
      refine ⟨r, hd, p, h1, ?_, ?_, h4, h5⟩
      · rw [h2]
        cases adev.voice_ <;> simp [CreateAudioPatch_route]
      · rw [h3]
        cases adev.voice_ <;> simp [CreateAudioPatch_route]
  · intro hsrc
    rw [create_valid_eq env adev _ src snk rest hlen]
    rcases hsrc with hsrc | hsrc <;> simp [CreateAudioPatch_switch, hsrc]

/-- C9 on `ex_adev`: a capture call from device 4 to mix 9, a device-to-device call and
a playback call from mix 7 to device 2. -/
theorem C9_create_classification_witness :
    ([ex_mix_port 9].length ≤ AUDIO_PATCH_PORTS_MAX) ∧
    (∃ r hd p, ex_adev.CreateAudioPatch ex_env_ok (some AUDIO_PATCH_HANDLE_NONE)
        [ex_device_port 4] [ex_mix_port 9] = .ok r ∧
      r.calls = [RouteCall.stream ⟨2, 9⟩ {4}] ∧
      r.ret = ex_env_ok.stream_RouteStream ⟨2, 9⟩ {4} ∧ r.handle = some hd ∧
      (r.ret = 0 → map_find r.adev.patch_map_ hd = some p ∧
        p.type = PatchType.PATCH_CAPTURE ∧ p.sources = [ex_device_port 4] ∧
        p.sinks = [ex_mix_port 9])) ∧
    ex_adev.CreateAudioPatch ex_env_ok (some AUDIO_PATCH_HANDLE_NONE)
        [ex_device_port 4] [ex_device_port 2] =
      .ok ⟨-ENOSYS, some AUDIO_PATCH_HANDLE_NONE, ex_adev, []⟩ ∧
    (∃ r hd p, ex_adev.CreateAudioPatch ex_env_ok (some AUDIO_PATCH_HANDLE_NONE)
        [ex_mix_port 7] [ex_device_port 2] = .ok r ∧
      r.calls = [RouteCall.stream ⟨1, 7⟩ {2}, RouteCall.voice {2}] ∧ r.handle = some hd ∧
      (r.ret = 0 → map_find r.adev.patch_map_ hd = some p ∧
        p.type = PatchType.PATCH_PLAYBACK ∧ p.sources = [ex_mix_port 7] ∧
        p.sinks = [ex_device_port 2])) := by
  refine ⟨by decide, ?_, ?_, ?_⟩
  · exact ((C9_create_classification ex_env_ok ex_adev AUDIO_PATCH_HANDLE_NONE
      (ex_device_port 4) (ex_mix_port 9) [] (by decide)).1 rfl rfl).2 ⟨2, 9⟩ (by decide) rfl
      (Or.inl rfl)
  · exact (C9_create_classification ex_env_ok ex_adev AUDIO_PATCH_HANDLE_NONE
      (ex_device_port 4) (ex_device_port 2) [] (by decide)).2.1 rfl (by decide)
  · obtain ⟨r, hd, p, h1, h2, _, h4, h5⟩ :=
      ((C9_create_classification ex_env_ok ex_adev AUDIO_PATCH_HANDLE_NONE
        (ex_mix_port 7) (ex_device_port 2) [] (by decide)).2.2.1 rfl).2 ⟨1, 7⟩ (by decide) rfl
        (Or.inl rfl)
    exact ⟨r, hd, p, h1, h2, h4, h5⟩

/-! ## CreateAudioPatch: routing -/

/-- A call of `CreateAudioPatch` does not touch the voice pointer. -/
theorem create_voice_eq (env : Env) (adev : AudioDevice) (handle : Option Int)
    (sources sinks : List audio_port_config) (r : CreateResult)
    (hr : adev.CreateAudioPatch env handle sources sinks = .ok r) :
    r.adev.voice_ = adev.voice_ := by
  unfold AudioDevice.CreateAudioPatch at hr
  repeat' first | split at hr | dsimp only at hr
  all_goals (cases hr; try simp only [])

/-- `Init` with a `pal_init` that succeeds leaves the voice object in place, the
rotation at `PAL_SPEAKER_ROTATION_LR` and the translation table filled. -/
theorem Init_ok (adev : AudioDevice) (register_ret : Int) :
    (adev.Init 0 register_ret).2.voice_ = true ∧
      (adev.Init 0 register_ret).2.current_rotation =
        pal_speaker_rotation_type.PAL_SPEAKER_ROTATION_LR ∧
      (adev.Init 0 register_ret).2.android_device_map_ =
        adev.FillAndroidDeviceMap.android_device_map_ := by
  simp [AudioDevice.Init, AudioDevice.FillAndroidDeviceMap]

/-- C11: a call of `CreateAudioPatch` that reaches the routing step invokes the
stream's `RouteStream` with the classified device set; for a playback patch it also
invokes the voice subsystem's `RouteStream` with the same set, whatever the stream's
result was; the status returned is the bitwise OR of the two results for playback and
the stream's result alone for capture.  The voice object is the one `Init` creates,
the lock is free and the handle is the sentinel or a key of the table. -/
theorem C11_create_routing_calls (env : Env) (adev : AudioDevice) (h : Int)
    (src snk : audio_port_config) (rest : List audio_port_config) (pr : PatchRoute)
    (st : StreamPrimary)
    (hlen : (snk :: rest).length ≤ AUDIO_PATCH_PORTS_MAX)
    (hsw : CreateAudioPatch_switch src snk (snk :: rest) = .ok pr)
    (hst : adev.patch_stream pr.patch_type pr.io_handle = some st)
    (hfree : adev.patch_map_mutex = false)
    (hreach : h = AUDIO_PATCH_HANDLE_NONE ∨ ∃ q, map_find adev.patch_map_ h = some q)
    (hvoice : adev.voice_ = true) :
    ∃ r, adev.CreateAudioPatch env (some h) [src] (snk :: rest) = .ok r ∧
      r.calls = (if pr.patch_type = PatchType.PATCH_PLAYBACK then
          [RouteCall.stream st pr.device_types, RouteCall.voice pr.device_types]
        else [RouteCall.stream st pr.device_types]) ∧
      r.ret = (if pr.patch_type = PatchType.PATCH_PLAYBACK then
          Int.lor (env.stream_RouteStream st pr.device_types)
            (env.voice_RouteStream pr.device_types)
        else env.stream_RouteStream st pr.device_types) := by
  obtain ⟨r, _, _, h1, h2, h3, _, _⟩ :=
    create_routed env adev h src snk rest pr st hlen hsw hst hfree hreach
  refine ⟨r, h1, ?_, ?_⟩
  · rw [h2]
    by_cases hp : pr.patch_type = PatchType.PATCH_PLAYBACK <;>
      simp [CreateAudioPatch_route, hvoice, hp]
  · rw [h3]
    by_cases hp : pr.patch_type = PatchType.PATCH_PLAYBACK <;>
      simp [CreateAudioPatch_route, hvoice, hp]

/-- C11 on `ex_adev` for a playback call whose stream routing fails: the voice
subsystem is routed all the same. -/
theorem C11_create_routing_calls_witness :
    ([ex_device_port 2].length ≤ AUDIO_PATCH_PORTS_MAX) ∧
    ex_adev.patch_map_mutex = false ∧ ex_adev.voice_ = true ∧
    ex_env_fail.stream_RouteStream ⟨1, 7⟩ {2} ≠ 0 ∧
    ∃ r, ex_adev.CreateAudioPatch ex_env_fail (some AUDIO_PATCH_HANDLE_NONE)
        [ex_mix_port 7] [ex_device_port 2] = .ok r ∧
      r.calls = [RouteCall.stream ⟨1, 7⟩ {2}, RouteCall.voice {2}] ∧
      r.ret = Int.lor (ex_env_fail.stream_RouteStream ⟨1, 7⟩ {2})
        (ex_env_fail.voice_RouteStream {2}) :=
  ⟨by decide, rfl, rfl, by decide,
    C11_create_routing_calls ex_env_fail ex_adev AUDIO_PATCH_HANDLE_NONE (ex_mix_port 7)
      (ex_device_port 2) [] ⟨PatchType.PATCH_PLAYBACK, 7, AUDIO_SOURCE_DEFAULT, {2}⟩ ⟨1, 7⟩
      (by decide) rfl (by decide) rfl (Or.inl rfl) rfl⟩

/-! ## SetParameters: rotation -/

/-- A `SetParameters` call that carries `rotation` alone, with one of the four
orientation values: the only block sent is the rotation block, sent exactly when the
normalised orientation differs from the stored one, and the normalised orientation is
stored. -/
theorem SetParameters_rotation_only (env : SysEnv) (adev : AudioDevice) (val : Int)
    (hvoice : adev.voice_ = true)
    (hval : val = 0 ∨ val = 90 ∨ val = 180 ∨ val = 270) :
    adev.SetParameters env (ex_rotation_parms val) =
      .ok ⟨-ENOENT, { adev with current_rotation := rotation_normalised val },
        if rotation_normalised val ≠ adev.current_rotation then
          [PalParam.device_rotation (rotation_normalised val)]
        else []⟩ := by
  cases adev
  simp only at hvoice
  subst hvoice
  rename_i rot _ _ _ _ _ _
  rcases hval with rfl | rfl | rfl | rfl <;> cases rot <;>
    simp [AudioDevice.SetParameters, ex_rotation_parms, SetParameters_screen_state,
      AudioDevice.SetParameters_connect, AudioDevice.SetParameters_rotation,
      AudioDevice.SetParameters_disconnect, SetParameters_bt, rotation_normalised]

/-- A run of rotation events from a device with a voice object sends the notifications
of the specification and ends with the orientation of the specification. -/
theorem rotation_run_eq (env : SysEnv) (vals : List Int) :
    ∀ adev : AudioDevice, adev.voice_ = true →
      (∀ v ∈ vals, v = 0 ∨ v = 90 ∨ v = 180 ∨ v = 270) →
      ∃ adev1, rotation_run env adev vals =
          .ok (adev1, rotation_notifications adev.current_rotation vals) ∧
        adev1.current_rotation = rotation_stored adev.current_rotation vals := by
  induction vals with
  | nil =>
    intro adev _ _
    exact ⟨adev, rfl, rfl⟩
  | cons val rest ih =>
    intro adev hvoice hvals
    have hval := hvals val (List.mem_cons_self _ _)
    have hrest : ∀ v ∈ rest, v = 0 ∨ v = 90 ∨ v = 180 ∨ v = 270 :=
      fun v hv => hvals v (List.mem_cons_of_mem _ hv)
    obtain ⟨adev1, hrun, hstored⟩ :=
      ih { adev with current_rotation := rotation_normalised val } hvoice hrest
    refine ⟨adev1, ?_, ?_⟩
    · simp only [rotation_run, SetParameters_rotation_only env adev val hvoice hval, hrun,
        rotation_notifications]
    · simpa [rotation_stored] using hstored

/-- C12: from the orientation that `Init` sets (`PAL_SPEAKER_ROTATION_LR`), every
sequence of rotation events with values in 0, 90, 180, 270 sends the notifications of
`rotation_notifications`: 270 normalises to inverted and 0, 90, 180 to normal, an event
notifies exactly when its normalised orientation differs from the stored one, the
block carries the new orientation, and the orientation stored at the end is that of
the last event.  For 0, 90, 270, 180 these are two notifications: inverted at 270 and
normal at 180. -/
theorem C12_rotation_events (env : SysEnv) (adev : AudioDevice) (register_ret : Int)
    (vals : List Int) (hvals : ∀ v ∈ vals, v = 0 ∨ v = 90 ∨ v = 180 ∨ v = 270) :
    (adev.Init 0 register_ret).2.current_rotation =
        pal_speaker_rotation_type.PAL_SPEAKER_ROTATION_LR ∧
      rotation_normalised 270 = pal_speaker_rotation_type.PAL_SPEAKER_ROTATION_RL ∧
      rotation_normalised 0 = pal_speaker_rotation_type.PAL_SPEAKER_ROTATION_LR ∧
      rotation_normalised 90 = pal_speaker_rotation_type.PAL_SPEAKER_ROTATION_LR ∧
      rotation_normalised 180 = pal_speaker_rotation_type.PAL_SPEAKER_ROTATION_LR ∧
      (∃ adev1, rotation_run env (adev.Init 0 register_ret).2 vals =
          .ok (adev1,
            rotation_notifications pal_speaker_rotation_type.PAL_SPEAKER_ROTATION_LR vals) ∧
        adev1.current_rotation =
          rotation_stored pal_speaker_rotation_type.PAL_SPEAKER_ROTATION_LR vals) ∧
      rotation_notifications pal_speaker_rotation_type.PAL_SPEAKER_ROTATION_LR
          [0, 90, 270, 180] =
        [[], [], [PalParam.device_rotation pal_speaker_rotation_type.PAL_SPEAKER_ROTATION_RL],
          [PalParam.device_rotation pal_speaker_rotation_type.PAL_SPEAKER_ROTATION_LR]] := by
  obtain ⟨hv, hrot, _⟩ := Init_ok adev register_ret
  refine ⟨hrot, by decide, by decide, by decide, by decide, ?_, by decide⟩
  have h := rotation_run_eq env vals (adev.Init 0 register_ret).2 hv hvals
  rw [hrot] at h
  exact h

/-- C12 on the sequence 0, 90, 270, 180 from `ex_adev` after `Init`: the calls send
nothing, nothing, the inverted orientation and the normal orientation. -/
theorem C12_rotation_events_witness :
    (∀ v ∈ ([0, 90, 270, 180] : List Int), v = 0 ∨ v = 90 ∨ v = 180 ∨ v = 270) ∧
    ∃ adev1, rotation_run ex_sys_env (ex_adev.Init 0 0).2 [0, 90, 270, 180] =
        .ok (adev1, [[], [],
          [PalParam.device_rotation pal_speaker_rotation_type.PAL_SPEAKER_ROTATION_RL],
          [PalParam.device_rotation pal_speaker_rotation_type.PAL_SPEAKER_ROTATION_LR]]) ∧
      adev1.current_rotation = pal_speaker_rotation_type.PAL_SPEAKER_ROTATION_LR := by
  have hvals : ∀ v ∈ ([0, 90, 270, 180] : List Int), v = 0 ∨ v = 90 ∨ v = 180 ∨ v = 270 := by
    decide
  obtain ⟨_, _, _, _, _, ⟨adev1, hrun, hstored⟩, hnote⟩ :=
    C12_rotation_events ex_sys_env ex_adev 0 [0, 90, 270, 180] hvals
  refine ⟨hvals, adev1, ?_, ?_⟩
  · rw [hrun, hnote]
  · rw [hstored]; decide

/-! ## GetPalDeviceIds -/

/-- Writing back what a slot holds changes nothing. -/
theorem list_set_getElem_self {α : Type} (l : List α) (n : Nat) (h : n < l.length) :
    l.set n (l[n]) = l := by
  induction l generalizing n with
  | nil => simp at h
  | cons a rest ih =>
    cases n with
    | zero => simp
    | succ m =>
      simp only [List.length_cons, Nat.add_lt_add_iff_right] at h
      simp [ih m h]

/-- One turn of the loop of `GetPalDeviceIds` at a slot inside the buffer. -/
theorem GetPalDeviceIds_loop_cons (env : SysEnv) (adev : AudioDevice) (d : Nat)
    (ds : List Nat) (n : Nat) (buf : List pal_device_id_t) (hn : n < buf.length) :
    adev.GetPalDeviceIds_loop env (d :: ds) n buf =
      adev.GetPalDeviceIds_loop env ds (n + 1)
        (buf.set n (adev.GetPalDeviceIds_slot env d (buf[n]))) := by
  by_cases hd : d = AUDIO_DEVICE_NONE
  · simp [AudioDevice.GetPalDeviceIds_loop, AudioDevice.GetPalDeviceIds_slot, hd,
      list_set_getElem_self buf n hn]
  · cases hf : devmap_find adev.android_device_map_ d with
    | none =>
      simp [AudioDevice.GetPalDeviceIds_loop, AudioDevice.GetPalDeviceIds_slot, hd, hf,
        list_set_getElem_self buf n hn]
    | some id =>
      simp [AudioDevice.GetPalDeviceIds_loop, AudioDevice.GetPalDeviceIds_slot, hd, hf, hn]

/-- The loop of `GetPalDeviceIds` with room for every device still to visit: it counts
every device and leaves in slot `n + j` what the visit of the `j`-th device leaves. -/
theorem GetPalDeviceIds_loop_spec (env : SysEnv) (adev : AudioDevice) (ds : List Nat) :
    ∀ (n : Nat) (buf : List pal_device_id_t), n + ds.length ≤ buf.length →
      ∃ buf1, adev.GetPalDeviceIds_loop env ds n buf = .ok (n + ds.length, buf1) ∧
        buf1.length = buf.length ∧
        ∀ i, buf1[i]? =
          if n ≤ i then
            match ds[i - n]? with
            | some d => (buf[i]?).map (adev.GetPalDeviceIds_slot env d)
            | none => buf[i]?
          else buf[i]? := by
  induction ds with
  | nil =>
    intro n buf _
    refine ⟨buf, ?_, rfl, ?_⟩
    · simp [AudioDevice.GetPalDeviceIds_loop]
    · intro i
      simp
  | cons d ds ih =>
    intro n buf hlen
    have hn : n < buf.length := by
      simp only [List.length_cons] at hlen
      omega
    obtain ⟨buf1, hrun, hlen1, hslots⟩ :=
      ih (n + 1) (buf.set n (adev.GetPalDeviceIds_slot env d (buf[n])))
        (by simp only [List.length_cons, List.length_set] at hlen ⊢; omega)
    refine ⟨buf1, ?_, ?_, ?_⟩
    · rw [GetPalDeviceIds_loop_cons env adev d ds n buf hn, hrun]
      simp only [List.length_cons]
      congr 2
      omega
    · simpa using hlen1
    · intro i
      rw [hslots i]
      by_cases h1 : n + 1 ≤ i
      · have h2 : n ≤ i := by omega
        have h3 : i - n = (i - (n + 1)) + 1 := by omega
        have h4 : n ≠ i := by omega
        simp only [h1, h2, if_true, h3, List.getElem?_cons_succ, List.getElem?_set, h4,
          if_false]
      · by_cases h2 : n = i
        · subst h2
          simp [hn]
        · have h3 : ¬ n ≤ i := by omega
          simp [h1, h3, List.getElem?_set, h2]

/-- The translation of a single device into a buffer of one slot. -/
theorem GetPalDeviceIds_singleton (env : SysEnv) (adev : AudioDevice) (d : Nat)
    (old : pal_device_id_t) :
    adev.GetPalDeviceIds env {d} (some [old]) =
      .ok (1, some [adev.GetPalDeviceIds_slot env d old]) := by
  simp only [AudioDevice.GetPalDeviceIds, Finset.sort_singleton]
  rw [GetPalDeviceIds_loop_cons env adev d [] 0 [old] (by simp)]
  simp [AudioDevice.GetPalDeviceIds_loop]

/-- The table that `FillAndroidDeviceMap` builds: every entry is found under its key,
no key is `AUDIO_DEVICE_NONE`, an input key has an input id, and an output key other
than `AUDIO_DEVICE_OUT_TELEPHONY_TX` has an output id. -/
theorem filled_map_entries (adev : AudioDevice) :
    ∀ kv ∈ adev.FillAndroidDeviceMap.android_device_map_,
      devmap_find adev.FillAndroidDeviceMap.android_device_map_ kv.1 = some kv.2 ∧
      kv.1 ≠ AUDIO_DEVICE_NONE ∧
      (audio_device_is_in kv.1 = true → pal_is_input_device kv.2 = true) ∧
      (audio_device_is_in kv.1 = false → kv.1 ≠ AUDIO_DEVICE_OUT_TELEPHONY_TX →
        pal_is_output_device kv.2 = true) := by
  simp only [AudioDevice.FillAndroidDeviceMap]
  decide

/-- C19: `GetPalDeviceIds` with a null buffer returns 0.  With a buffer that has room
for the set it returns the number of elements of the set, `AUDIO_DEVICE_NONE` and
devices missing from the table included, and slot `i` holds the translated id when the
`i`-th device of the set, in increasing order, is not `AUDIO_DEVICE_NONE` and is in the
table; every other slot holds what it held before.  For the set of
`AUDIO_DEVICE_OUT_SPEAKER` and the table of `FillAndroidDeviceMap` the result is the
one entry `PAL_DEVICE_OUT_SPEAKER`. -/
theorem C19_GetPalDeviceIds_count_and_slots (env : SysEnv) (adev : AudioDevice)
    (hal_device_ids : Finset Nat) (buf : List pal_device_id_t)
    (hroom : hal_device_ids.card ≤ buf.length) :
    adev.GetPalDeviceIds env hal_device_ids none = .ok (0, none) ∧
    (∃ buf1 : List pal_device_id_t, adev.GetPalDeviceIds env hal_device_ids (some buf) =
        .ok ((hal_device_ids.card : Int), some buf1) ∧
      buf1.length = buf.length ∧
      ∀ i : Nat, buf1[i]? =
        match (hal_device_ids.sort (· ≤ ·))[i]? with
        | some d => (buf[i]?).map (adev.GetPalDeviceIds_slot env d)
        | none => buf[i]?) ∧
    (∀ old, adev.FillAndroidDeviceMap.GetPalDeviceIds env {AUDIO_DEVICE_OUT_SPEAKER}
        (some [old]) = .ok (1, some [pal_device_id_t.PAL_DEVICE_OUT_SPEAKER])) := by
  refine ⟨rfl, ?_, ?_⟩
  · obtain ⟨buf1, hrun, hlen, hslots⟩ :=
      GetPalDeviceIds_loop_spec env adev (hal_device_ids.sort (· ≤ ·)) 0 buf
        (by simpa using hroom)
    refine ⟨buf1, ?_, hlen, ?_⟩
    · simp only [AudioDevice.GetPalDeviceIds, hrun]
      simp
    · intro i
      simpa using hslots i
  · intro old
    rw [GetPalDeviceIds_singleton]
    have hfind : devmap_find adev.FillAndroidDeviceMap.android_device_map_
        AUDIO_DEVICE_OUT_SPEAKER = some pal_device_id_t.PAL_DEVICE_OUT_SPEAKER := by
      simp only [AudioDevice.FillAndroidDeviceMap]
      decide
    have hne : AUDIO_DEVICE_OUT_SPEAKER ≠ AUDIO_DEVICE_NONE := by decide
    simp [AudioDevice.GetPalDeviceIds_slot, hfind, hne, AudioDevice.GetPalDeviceIds_id]

/-- C19 on the set of `AUDIO_DEVICE_OUT_SPEAKER` and a buffer of one slot. -/
theorem C19_GetPalDeviceIds_count_and_slots_witness :
    (({AUDIO_DEVICE_OUT_SPEAKER} : Finset Nat).card ≤
      [pal_device_id_t.PAL_DEVICE_OUT_MIN].length) ∧
    ex_adev_init.GetPalDeviceIds ex_sys_env {AUDIO_DEVICE_OUT_SPEAKER} none = .ok (0, none) ∧
    ex_adev_init.FillAndroidDeviceMap.GetPalDeviceIds ex_sys_env {AUDIO_DEVICE_OUT_SPEAKER}
      (some [pal_device_id_t.PAL_DEVICE_OUT_MIN]) =
      .ok (1, some [pal_device_id_t.PAL_DEVICE_OUT_SPEAKER]) := by
  have h := C19_GetPalDeviceIds_count_and_slots ex_sys_env ex_adev_init
    {AUDIO_DEVICE_OUT_SPEAKER} [pal_device_id_t.PAL_DEVICE_OUT_MIN] (by decide)
  exact ⟨by decide, h.1, h.2.2 _⟩

/-- C20 (as amended): for every logical device of the table that `FillAndroidDeviceMap`
builds, other than `AUDIO_DEVICE_OUT_TELEPHONY_TX`, and every recorded controller and
stream, the id that `GetPalDeviceIds` writes has the direction of the device: an input
id for an input device, an output id for an output device. -/
theorem C20_translation_keeps_direction (env : SysEnv) (adev : AudioDevice) (d : Nat)
    (old : pal_device_id_t)
    (hd : d ∈ adev.FillAndroidDeviceMap.android_device_map_.map Prod.fst)
    (hne : d ≠ AUDIO_DEVICE_OUT_TELEPHONY_TX) :
    ∃ w, adev.FillAndroidDeviceMap.GetPalDeviceIds env {d} (some [old]) =
        .ok (1, some [w]) ∧
      (audio_device_is_in d = true → pal_is_input_device w = true) ∧
      (audio_device_is_in d = false → pal_is_output_device w = true) := by
  obtain ⟨kv, hkv, rfl⟩ := List.mem_map.mp hd
  obtain ⟨hfind, hnone, hin, hout⟩ := filled_map_entries adev kv hkv
  refine ⟨_, GetPalDeviceIds_singleton _ _ _ _, ?_, ?_⟩
  · intro hdir
    have h1 := hin hdir
    simp only [AudioDevice.GetPalDeviceIds_slot, hnone, ne_eq, not_false_eq_true, if_true,
      hfind, AudioDevice.GetPalDeviceIds_id]
    split_ifs with h2 h3
    · rcases h2 with h2 | h2 <;> rw [h2] at h1 <;> exact absurd h1 (by decide)
    · rcases h2 with h2 | h2 <;> rw [h2] at h1 <;> exact absurd h1 (by decide)
    · exact h1
  · intro hdir
    have h1 := hout hdir hne
    simp only [AudioDevice.GetPalDeviceIds_slot, hnone, ne_eq, not_false_eq_true, if_true,
      hfind, AudioDevice.GetPalDeviceIds_id]
    split_ifs <;> first | rfl | exact h1

/-- C20 (as amended) on `AUDIO_DEVICE_OUT_AUX_DIGITAL` with controller 1, stream 1. -/
theorem C20_translation_keeps_direction_witness :
    AUDIO_DEVICE_OUT_AUX_DIGITAL ∈
      ({ ex_adev with dp_controller := 1, dp_stream := 1 } :
        AudioDevice).FillAndroidDeviceMap.android_device_map_.map Prod.fst ∧
    AUDIO_DEVICE_OUT_AUX_DIGITAL ≠ AUDIO_DEVICE_OUT_TELEPHONY_TX ∧
    ∃ w, ({ ex_adev with dp_controller := 1, dp_stream := 1 } :
        AudioDevice).FillAndroidDeviceMap.GetPalDeviceIds ex_sys_env
          {AUDIO_DEVICE_OUT_AUX_DIGITAL} (some [pal_device_id_t.PAL_DEVICE_OUT_MIN]) =
        .ok (1, some [w]) ∧
      (audio_device_is_in AUDIO_DEVICE_OUT_AUX_DIGITAL = true →
        pal_is_input_device w = true) ∧
      (audio_device_is_in AUDIO_DEVICE_OUT_AUX_DIGITAL = false →
        pal_is_output_device w = true) :=
  ⟨by decide, by decide,
    C20_translation_keeps_direction ex_sys_env _ AUDIO_DEVICE_OUT_AUX_DIGITAL
      pal_device_id_t.PAL_DEVICE_OUT_MIN (by decide) (by decide)⟩

/-- C20 as stated fails at `AUDIO_DEVICE_OUT_TELEPHONY_TX`: it is a key of the table and
an output device, and the id written for it is `PAL_DEVICE_NONE`, which is not an
output id. -/
theorem C20_counterexample :
    AUDIO_DEVICE_OUT_TELEPHONY_TX ∈
      ex_adev.FillAndroidDeviceMap.android_device_map_.map Prod.fst ∧
    audio_device_is_in AUDIO_DEVICE_OUT_TELEPHONY_TX = false ∧
    ex_adev.FillAndroidDeviceMap.GetPalDeviceIds ex_sys_env {AUDIO_DEVICE_OUT_TELEPHONY_TX}
      (some [pal_device_id_t.PAL_DEVICE_OUT_MIN]) =
      .ok (1, some [pal_device_id_t.PAL_DEVICE_NONE]) ∧
    pal_is_output_device pal_device_id_t.PAL_DEVICE_NONE = false ∧
    pal_is_input_device pal_device_id_t.PAL_DEVICE_NONE = false := by
  refine ⟨by decide, by decide, ?_, rfl, rfl⟩
  rw [GetPalDeviceIds_singleton]
  have hfind : devmap_find ex_adev.FillAndroidDeviceMap.android_device_map_
      AUDIO_DEVICE_OUT_TELEPHONY_TX = some pal_device_id_t.PAL_DEVICE_NONE := by decide
  have hne : AUDIO_DEVICE_OUT_TELEPHONY_TX ≠ AUDIO_DEVICE_NONE := by decide
  simp [AudioDevice.GetPalDeviceIds_slot, hfind, hne, AudioDevice.GetPalDeviceIds_id]

/-! ## SetParameters: device connection -/

/-- The block under `if (device)` of the connect part never faults: it sends one
connection block for the translated slot, and a second one for
`PAL_DEVICE_IN_USB_HEADSET`, with the USB input flag set, when the slot holds
`PAL_DEVICE_OUT_USB_HEADSET`; it returns `-ENOMEM` when `realloc` fails there. -/
theorem SetParameters_connect_notify_eq (env : SysEnv) (adev : AudioDevice) (device : Nat)
    (calls : List PalParam) :
    adev.SetParameters_connect_notify env device calls =
      .ok (if device = 0 then .inr (adev, calls)
        else if env.calloc_fails then .inr (adev, calls)
        else if adev.GetPalDeviceIds_slot env device pal_device_id_t.PAL_DEVICE_OUT_MIN =
            pal_device_id_t.PAL_DEVICE_OUT_USB_HEADSET then
          if env.realloc_fails then .inl ⟨-ENOMEM, adev, calls⟩
          else .inr ({ adev with usb_input_dev_enabled := true },
            calls ++ [PalParam.device_connection true pal_device_id_t.PAL_DEVICE_OUT_USB_HEADSET,
              PalParam.device_connection true pal_device_id_t.PAL_DEVICE_IN_USB_HEADSET])
        else .inr (adev, calls ++ [PalParam.device_connection true
          (adev.GetPalDeviceIds_slot env device pal_device_id_t.PAL_DEVICE_OUT_MIN)])) := by
  unfold AudioDevice.SetParameters_connect_notify
  by_cases hd : device = 0
  · simp [hd]
  · by_cases hc : env.calloc_fails = true
    · simp [hd, hc, AudioDevice.GetPalDeviceIds,
        AudioDevice.add_input_headset_if_usb_out_headset, add_input_headset_scan,
        SetParameters_notify]
    · have hc2 : env.calloc_fails = false := by simpa using hc
      by_cases hw : adev.GetPalDeviceIds_slot env device pal_device_id_t.PAL_DEVICE_OUT_MIN =
          pal_device_id_t.PAL_DEVICE_OUT_USB_HEADSET
      · by_cases hr : env.realloc_fails = true
        · simp [hd, hc2, GetPalDeviceIds_singleton, hw, hr,
            AudioDevice.add_input_headset_if_usb_out_headset, add_input_headset_scan, ENOMEM]
        · have hr2 : env.realloc_fails = false := by simpa using hr
          simp [hd, hc2, GetPalDeviceIds_singleton, hw, hr2,
            AudioDevice.add_input_headset_if_usb_out_headset, add_input_headset_scan,
            SetParameters_notify]
      · simp [hd, hc2, GetPalDeviceIds_singleton, hw,
          AudioDevice.add_input_headset_if_usb_out_headset, add_input_headset_scan,
          SetParameters_notify]

/-- The disconnect part never faults: it records the flag and the stream and sends at
most one connection block, for the translated slot. -/
theorem SetParameters_disconnect_eq (env : SysEnv) (adev : AudioDevice) (parms : str_parms)
    (calls : List PalParam) :
    adev.SetParameters_disconnect env parms calls =
      .ok (match parms.disconnect with
        | none => (adev, calls)
        | some val =>
          (adev.SetParameters_disconnect_record env parms val,
            if (val % 4294967296).toNat = 0 then calls
            else if env.calloc_fails then calls
            else calls ++ [PalParam.device_connection false
              ((adev.SetParameters_disconnect_record env parms val).GetPalDeviceIds_slot env
                (val % 4294967296).toNat pal_device_id_t.PAL_DEVICE_OUT_MIN)])) := by
  unfold AudioDevice.SetParameters_disconnect
  cases hdis : parms.disconnect with
  | none => rfl
  | some val =>
    by_cases hd : (val % 4294967296).toNat = 0
    · simp [hd]
    · by_cases hc : env.calloc_fails = true
      · simp [hd, hc, AudioDevice.GetPalDeviceIds, SetParameters_notify]
      · have hc2 : env.calloc_fails = false := by simpa using hc
        simp [hd, hc2, GetPalDeviceIds_singleton, SetParameters_notify]

/-- The rotation part touches the stored orientation only. -/
theorem SetParameters_rotation_fields (adev : AudioDevice) (parms : str_parms)
    (calls : List PalParam) :
    (adev.SetParameters_rotation parms calls).1.usb_card_id_ = adev.usb_card_id_ ∧
    (adev.SetParameters_rotation parms calls).1.usb_dev_num_ = adev.usb_dev_num_ ∧
    (adev.SetParameters_rotation parms calls).1.usb_input_dev_enabled =
      adev.usb_input_dev_enabled ∧
    (adev.SetParameters_rotation parms calls).1.dp_controller = adev.dp_controller ∧
    (adev.SetParameters_rotation parms calls).1.dp_stream = adev.dp_stream := by
  unfold AudioDevice.SetParameters_rotation
  repeat' split
  all_goals simp

/-- The block under `if (device)` of the connect part leaves the card, the device
number, the controller and the stream as they are. -/
theorem SetParameters_connect_notify_fields (env : SysEnv) (adev : AudioDevice)
    (device : Nat) (calls : List PalParam) :
    (∀ r, adev.SetParameters_connect_notify env device calls = .ok (.inl r) →
      r.adev.dp_controller = adev.dp_controller ∧ r.adev.dp_stream = adev.dp_stream ∧
      r.adev.usb_card_id_ = adev.usb_card_id_ ∧ r.adev.usb_dev_num_ = adev.usb_dev_num_) ∧
    (∀ adev1 calls1, adev.SetParameters_connect_notify env device calls =
        .ok (.inr (adev1, calls1)) →
      adev1.dp_controller = adev.dp_controller ∧ adev1.dp_stream = adev.dp_stream ∧
      adev1.usb_card_id_ = adev.usb_card_id_ ∧ adev1.usb_dev_num_ = adev.usb_dev_num_) := by
  rw [SetParameters_connect_notify_eq]
  constructor
  · intro r hr
    split_ifs at hr <;> simp only [Except.ok.injEq, Sum.inl.injEq, reduceCtorEq] at hr
    subst hr
    exact ⟨rfl, rfl, rfl, rfl⟩
  · intro adev1 calls1 hr
    split_ifs at hr <;>
      simp only [Except.ok.injEq, Sum.inr.injEq, Prod.mk.injEq, reduceCtorEq] at hr
    all_goals
      obtain ⟨h1, _⟩ := hr
      subst h1
      exact ⟨rfl, rfl, rfl, rfl⟩

/-- C13 (as amended): for every USB input device (`audio_is_usb_in_device` holds) and
every card number `c`, when the recorded USB card is `c` and the USB input flag is set,
a `SetParameters` device-connect for the device that carries `card=c` returns 0, leaves
the whole device (card, device number and flag included) as it was and sends no
device-connection block: the only blocks sent are those of `screen_state`. -/
theorem C13_usb_in_duplicate_connect (env : SysEnv) (adev : AudioDevice) (parms : str_parms)
    (val c : Int) (hvoice : adev.voice_ = true)
    (hconn : parms.connect = some val)
    (hin : env.audio_is_usb_in_device (val % 4294967296).toNat = true)
    (hcard : parms.card = some c)
    (hrec : adev.usb_card_id_ = c) (hen : adev.usb_input_dev_enabled = true) :
    adev.SetParameters env parms = .ok ⟨0, adev, SetParameters_screen_state parms⟩ ∧
      ∀ state id, PalParam.device_connection state id ∉ SetParameters_screen_state parms := by
  constructor
  · simp [AudioDevice.SetParameters, hvoice, AudioDevice.SetParameters_connect, hconn,
      AudioDevice.SetParameters_connect_record, hin, hcard, hrec, hen]
  · intro state id
    unfold SetParameters_screen_state
    split <;> simp

/-- C13 (as amended) on `ex_adev_usb`: a second connect of `AUDIO_DEVICE_IN_USB_DEVICE`
with card 3. -/
theorem C13_usb_in_duplicate_connect_witness :
    ex_adev_usb.voice_ = true ∧
    ex_sys_env.audio_is_usb_in_device
      (((AUDIO_DEVICE_IN_USB_DEVICE : Int) % 4294967296).toNat) = true ∧
    ex_adev_usb.usb_card_id_ = 3 ∧ ex_adev_usb.usb_input_dev_enabled = true ∧
    ex_adev_usb.SetParameters ex_sys_env
        (ex_connect_parms (AUDIO_DEVICE_IN_USB_DEVICE : Int) 3) =
      .ok ⟨0, ex_adev_usb, []⟩ := by
  have h := C13_usb_in_duplicate_connect ex_sys_env ex_adev_usb
    (ex_connect_parms (AUDIO_DEVICE_IN_USB_DEVICE : Int) 3) (AUDIO_DEVICE_IN_USB_DEVICE : Int) 3
    rfl rfl (by decide) rfl rfl rfl
  exact ⟨rfl, by decide, rfl, rfl, h.1⟩

/-- C13 as stated fails for a USB output device: on `ex_adev_usb` (card 3 recorded, flag
set) a connect of `AUDIO_DEVICE_OUT_USB_DEVICE` with card 3 sends a device-connection
block and does not return 0. -/
theorem C13_counterexample :
    ex_sys_env.audio_is_usb_out_device
      (((AUDIO_DEVICE_OUT_USB_DEVICE : Int) % 4294967296).toNat) = true ∧
    ex_adev_usb.usb_card_id_ = 3 ∧ ex_adev_usb.usb_input_dev_enabled = true ∧
    ∃ r, ex_adev_usb.SetParameters ex_sys_env
        (ex_connect_parms (AUDIO_DEVICE_OUT_USB_DEVICE : Int) 3) = .ok r ∧
      r.calls = [PalParam.device_connection true pal_device_id_t.PAL_DEVICE_OUT_USB_DEVICE] ∧
      r.ret ≠ 0 := by
  refine ⟨by decide, rfl, rfl, ⟨-ENOENT, ex_adev_usb,
    [PalParam.device_connection true pal_device_id_t.PAL_DEVICE_OUT_USB_DEVICE]⟩, ?_, rfl,
    by decide⟩
  have hrec : ex_adev_usb.SetParameters_connect_record ex_sys_env
      (ex_connect_parms (AUDIO_DEVICE_OUT_USB_DEVICE : Int) 3)
      (AUDIO_DEVICE_OUT_USB_DEVICE : Int) = some ex_adev_usb := by decide
  have hslot : ex_adev_usb.GetPalDeviceIds_slot ex_sys_env
      (((AUDIO_DEVICE_OUT_USB_DEVICE : Int) % 4294967296).toNat)
      pal_device_id_t.PAL_DEVICE_OUT_MIN = pal_device_id_t.PAL_DEVICE_OUT_USB_DEVICE := by
    decide
  have hdev : ((AUDIO_DEVICE_OUT_USB_DEVICE : Int) % 4294967296).toNat ≠ 0 := by decide
  have hvoice : ex_adev_usb.voice_ = true := rfl
  have hcal : ex_sys_env.calloc_fails = false := rfl
  have hconn : (ex_connect_parms (AUDIO_DEVICE_OUT_USB_DEVICE : Int) 3).connect =
      some (AUDIO_DEVICE_OUT_USB_DEVICE : Int) := rfl
  have hrot : (ex_connect_parms (AUDIO_DEVICE_OUT_USB_DEVICE : Int) 3).rotation = none := rfl
  have hdis : (ex_connect_parms (AUDIO_DEVICE_OUT_USB_DEVICE : Int) 3).disconnect = none := rfl
  have hswb : (ex_connect_parms (AUDIO_DEVICE_OUT_USB_DEVICE : Int) 3).bt_swb = none := rfl
  have hscr : SetParameters_screen_state
      (ex_connect_parms (AUDIO_DEVICE_OUT_USB_DEVICE : Int) 3) = [] := rfl
  have hbt : SetParameters_bt (ex_connect_parms (AUDIO_DEVICE_OUT_USB_DEVICE : Int) 3) = [] :=
    rfl
  simp only [AudioDevice.SetParameters, hvoice, AudioDevice.SetParameters_connect, hconn,
    hrec, SetParameters_connect_notify_eq, hslot, hdev, hcal, SetParameters_disconnect_eq,
    AudioDevice.SetParameters_rotation, hrot, hdis, hswb, hscr, hbt]
  simp

/-- A `SetParameters` call without the connect key returns, and the device it leaves is
the one the rotation part and then the recording half of the disconnect part make. -/
theorem SetParameters_no_connect (env : SysEnv) (adev : AudioDevice) (parms : str_parms)
    (hvoice : adev.voice_ = true) (hconn : parms.connect = none) :
    ∃ ret calls, adev.SetParameters env parms =
      .ok ⟨ret,
        match parms.disconnect with
        | none => (adev.SetParameters_rotation parms (SetParameters_screen_state parms)).1
        | some val =>
          (adev.SetParameters_rotation parms
            (SetParameters_screen_state parms)).1.SetParameters_disconnect_record env parms val,
        calls⟩ := by
  simp only [AudioDevice.SetParameters, hvoice, AudioDevice.SetParameters_connect, hconn,
    SetParameters_disconnect_eq]
  cases parms.disconnect <;> cases parms.bt_swb <;> exact ⟨_, _, rfl⟩

/-- The recording half of the disconnect part, for a USB device with a card number:
card and device number stay, the flag is cleared exactly when the card matches, the
device is a USB input device and the flag is set. -/
theorem SetParameters_disconnect_record_usb (env : SysEnv) (adev : AudioDevice)
    (parms : str_parms) (val c : Int)
    (husb : (env.audio_is_usb_out_device (val % 4294967296).toNat ||
      env.audio_is_usb_in_device (val % 4294967296).toNat) = true)
    (hcard : parms.card = some c) :
    (adev.SetParameters_disconnect_record env parms val).usb_card_id_ = adev.usb_card_id_ ∧
    (adev.SetParameters_disconnect_record env parms val).usb_dev_num_ = adev.usb_dev_num_ ∧
    (adev.SetParameters_disconnect_record env parms val).usb_input_dev_enabled =
      (if adev.usb_card_id_ = c ∧ env.audio_is_usb_in_device (val % 4294967296).toNat = true ∧
          adev.usb_input_dev_enabled = true then false
        else adev.usb_input_dev_enabled) := by
  simp only [AudioDevice.SetParameters_disconnect_record, husb, if_true, hcard,
    Option.getD_some]
  split_ifs <;> exact ⟨rfl, rfl, rfl⟩

/-- C14: a `SetParameters` device-disconnect of a USB device that carries the card
number `c` leaves the recorded card and device numbers as they are; when `c` differs
from the recorded card the USB input flag is unchanged, and the flag goes from set to
clear only when `c` is the recorded card (and the device is a USB input device).  The
string is a disconnect: it does not carry the connect key. -/
theorem C14_usb_disconnect_flag (env : SysEnv) (adev : AudioDevice) (parms : str_parms)
    (val c : Int) (hvoice : adev.voice_ = true)
    (hconn : parms.connect = none) (hdis : parms.disconnect = some val)
    (husb : env.audio_is_usb_out_device (val % 4294967296).toNat = true ∨
      env.audio_is_usb_in_device (val % 4294967296).toNat = true)
    (hcard : parms.card = some c) :
    ∃ r, adev.SetParameters env parms = .ok r ∧
      r.adev.usb_card_id_ = adev.usb_card_id_ ∧ r.adev.usb_dev_num_ = adev.usb_dev_num_ ∧
      (c ≠ adev.usb_card_id_ → r.adev.usb_input_dev_enabled = adev.usb_input_dev_enabled) ∧
      (adev.usb_input_dev_enabled = true → r.adev.usb_input_dev_enabled = false →
        c = adev.usb_card_id_ ∧ env.audio_is_usb_in_device (val % 4294967296).toNat = true) ∧
      r.adev.usb_input_dev_enabled =
        (if adev.usb_card_id_ = c ∧ env.audio_is_usb_in_device (val % 4294967296).toNat = true ∧
            adev.usb_input_dev_enabled = true then false
          else adev.usb_input_dev_enabled) := by
  obtain ⟨ret, calls, hrun⟩ := SetParameters_no_connect env adev parms hvoice hconn
  obtain ⟨h1, h2, h3, _, _⟩ :=
    SetParameters_rotation_fields adev parms (SetParameters_screen_state parms)
  have husb2 : (env.audio_is_usb_out_device (val % 4294967296).toNat ||
      env.audio_is_usb_in_device (val % 4294967296).toNat) = true := by
    rcases husb with h | h <;> simp [h]
  obtain ⟨k1, k2, k3⟩ := SetParameters_disconnect_record_usb env
    (adev.SetParameters_rotation parms (SetParameters_screen_state parms)).1 parms val c
    husb2 hcard
  rw [h1, h3] at k3
  rw [h1] at k1
  rw [h2] at k2
  simp only [hdis] at hrun
  refine ⟨_, hrun, k1, k2, ?_, ?_, k3⟩
  · intro hne
    have hne2 : ¬ (adev.usb_card_id_ = c ∧
        env.audio_is_usb_in_device (val % 4294967296).toNat = true ∧
        adev.usb_input_dev_enabled = true) := fun h => hne h.1.symm
    simpa only [hne2, if_false] using k3
  · intro hen hoff
    by_cases hc : adev.usb_card_id_ = c ∧
        env.audio_is_usb_in_device (val % 4294967296).toNat = true ∧
        adev.usb_input_dev_enabled = true
    · exact ⟨hc.1.symm, hc.2.1⟩
    · simp only [hc, if_false] at k3
      rw [k3, hen] at hoff
      exact absurd hoff (by decide)

/-- C14 on `ex_adev_usb` (card 3 recorded, flag set): a disconnect of
`AUDIO_DEVICE_IN_USB_DEVICE` with card 5 leaves the flag set. -/
theorem C14_usb_disconnect_flag_witness :
    ex_adev_usb.voice_ = true ∧
    (ex_sys_env.audio_is_usb_out_device
        (((AUDIO_DEVICE_IN_USB_DEVICE : Int) % 4294967296).toNat) = true ∨
      ex_sys_env.audio_is_usb_in_device
        (((AUDIO_DEVICE_IN_USB_DEVICE : Int) % 4294967296).toNat) = true) ∧
    ∃ r, ex_adev_usb.SetParameters ex_sys_env
        (ex_disconnect_parms (AUDIO_DEVICE_IN_USB_DEVICE : Int) 5) = .ok r ∧
      r.adev.usb_card_id_ = 3 ∧ r.adev.usb_dev_num_ = 1 ∧
      r.adev.usb_input_dev_enabled = true := by
  obtain ⟨r, h1, h2, h3, h4, _, _⟩ := C14_usb_disconnect_flag ex_sys_env ex_adev_usb
    (ex_disconnect_parms (AUDIO_DEVICE_IN_USB_DEVICE : Int) 5)
    (AUDIO_DEVICE_IN_USB_DEVICE : Int) 5 rfl rfl rfl (Or.inr (by decide)) rfl
  exact ⟨rfl, Or.inr (by decide), r, h1, h2, h3, h4 (by decide)⟩

/-! ## SetParameters: controller and stream of a digital output -/

/-- The recording half of the disconnect part never writes `dp_controller`; it leaves
`dp_stream` as it is or sets it to the stream that the string carries. -/
theorem SetParameters_disconnect_record_dp (env : SysEnv) (adev : AudioDevice)
    (parms : str_parms) (val : Int) :
    (adev.SetParameters_disconnect_record env parms val).dp_controller = adev.dp_controller ∧
    ((adev.SetParameters_disconnect_record env parms val).dp_stream = adev.dp_stream ∨
      (adev.SetParameters_disconnect_record env parms val).dp_stream = parms.stream) := by
  unfold AudioDevice.SetParameters_disconnect_record
  dsimp only
  split_ifs <;> simp

/-- Once the connect part has handed on a device and the blocks sent, `SetParameters`
returns, and the device it leaves is the one the rotation part and then the recording
half of the disconnect part make of it. -/
theorem SetParameters_after_connect (env : SysEnv) (adev adev1 : AudioDevice)
    (parms : str_parms) (calls1 : List PalParam) (hvoice : adev.voice_ = true)
    (hconn : adev.SetParameters_connect env parms (SetParameters_screen_state parms) =
      .ok (.inr (adev1, calls1))) :
    ∃ ret calls, adev.SetParameters env parms =
      .ok ⟨ret,
        match parms.disconnect with
        | none => (adev1.SetParameters_rotation parms calls1).1
        | some val =>
          (adev1.SetParameters_rotation parms calls1).1.SetParameters_disconnect_record
            env parms val,
        calls⟩ := by
  simp only [AudioDevice.SetParameters, hvoice, hconn, SetParameters_disconnect_eq]
  cases parms.disconnect <;> cases parms.bt_swb <;> exact ⟨_, _, rfl⟩

/-- A `return` inside the connect part is the result of `SetParameters`. -/
theorem SetParameters_connect_return (env : SysEnv) (adev : AudioDevice)
    (parms : str_parms) (r : SetParametersResult) (hvoice : adev.voice_ = true)
    (hconn : adev.SetParameters_connect env parms (SetParameters_screen_state parms) =
      .ok (.inl r)) :
    adev.SetParameters env parms = .ok r := by
  simp only [AudioDevice.SetParameters, hvoice, hconn]
  simp

/-- A `SetParameters` device-connect for `AUDIO_DEVICE_OUT_AUX_DIGITAL` records the
controller and the stream that the string carries. -/
theorem SetParameters_aux_digital_connect (env : SysEnv) (adev : AudioDevice)
    (parms : str_parms) (hvoice : adev.voice_ = true)
    (hconn : parms.connect = some (AUDIO_DEVICE_OUT_AUX_DIGITAL : Int))
    (hout : env.audio_is_usb_out_device AUDIO_DEVICE_OUT_AUX_DIGITAL = false)
    (hin : env.audio_is_usb_in_device AUDIO_DEVICE_OUT_AUX_DIGITAL = false) :
    ∃ r, adev.SetParameters env parms = .ok r ∧
      r.adev.dp_controller = parms.controller ∧ r.adev.dp_stream = parms.stream := by
  have hdev : ((AUDIO_DEVICE_OUT_AUX_DIGITAL : Int) % 4294967296).toNat =
      AUDIO_DEVICE_OUT_AUX_DIGITAL := by decide
  have hrec : adev.SetParameters_connect_record env parms (AUDIO_DEVICE_OUT_AUX_DIGITAL : Int) =
      some { adev with dp_controller := parms.controller, dp_stream := parms.stream } := by
    simp [AudioDevice.SetParameters_connect_record, hdev, hout, hin]
  obtain ⟨hl, hr⟩ := SetParameters_connect_notify_fields env
    { adev with dp_controller := parms.controller, dp_stream := parms.stream }
    AUDIO_DEVICE_OUT_AUX_DIGITAL (SetParameters_screen_state parms)
  have hblock : adev.SetParameters_connect env parms (SetParameters_screen_state parms) =
      ({ adev with dp_controller := parms.controller, dp_stream := parms.stream } :
        AudioDevice).SetParameters_connect_notify env AUDIO_DEVICE_OUT_AUX_DIGITAL
          (SetParameters_screen_state parms) := by
    simp only [AudioDevice.SetParameters_connect, hconn, hrec, hdev]
  cases hres : ({ adev with dp_controller := parms.controller, dp_stream := parms.stream } :
      AudioDevice).SetParameters_connect_notify env AUDIO_DEVICE_OUT_AUX_DIGITAL
        (SetParameters_screen_state parms) with
  | error fault =>
    rw [SetParameters_connect_notify_eq] at hres
    exact absurd hres (by simp)
  | ok res =>
    cases res with
    | inl r =>
      obtain ⟨h1, h2, _, _⟩ := hl r hres
      exact ⟨r, SetParameters_connect_return env adev parms r hvoice (by rw [hblock, hres]),
        h1, h2⟩
    | inr pair =>
      obtain ⟨adev1, calls1⟩ := pair
      obtain ⟨h1, h2, _, _⟩ := hr adev1 calls1 hres
      obtain ⟨ret, calls, hrun⟩ := SetParameters_after_connect env adev adev1 parms calls1
        hvoice (by rw [hblock, hres])
      obtain ⟨_, _, _, k4, k5⟩ := SetParameters_rotation_fields adev1 parms calls1
      refine ⟨_, hrun, ?_, ?_⟩
      · cases hdis : parms.disconnect with
        | none => simp only [k4, h1]
        | some val =>
          simp only [(SetParameters_disconnect_record_dp env _ parms val).1, k4, h1]
      · cases hdis : parms.disconnect with
        | none => simp only [k5, h2]
        | some val =>
          rcases (SetParameters_disconnect_record_dp env
            (adev1.SetParameters_rotation parms calls1).1 parms val).2 with h | h
          · simp only [h, k5, h2]
          · simp only [h]

/-- C15 (what the code does on a disconnect): a `SetParameters` device-disconnect for
`AUDIO_DEVICE_OUT_AUX_DIGITAL` that carries the controller `c` and the stream `s`
records `dp_stream = s` but leaves `dp_controller` as it was; the connect of
`SetParameters_aux_digital_connect` records both. -/
theorem C15_aux_digital_disconnect_record (env : SysEnv) (adev : AudioDevice)
    (parms : str_parms) (hvoice : adev.voice_ = true)
    (hconn : parms.connect = none)
    (hdis : parms.disconnect = some (AUDIO_DEVICE_OUT_AUX_DIGITAL : Int))
    (hout : env.audio_is_usb_out_device AUDIO_DEVICE_OUT_AUX_DIGITAL = false)
    (hin : env.audio_is_usb_in_device AUDIO_DEVICE_OUT_AUX_DIGITAL = false) :
    ∃ r, adev.SetParameters env parms = .ok r ∧
      r.adev.dp_stream = parms.stream ∧ r.adev.dp_controller = adev.dp_controller := by
  have hdev : ((AUDIO_DEVICE_OUT_AUX_DIGITAL : Int) % 4294967296).toNat =
      AUDIO_DEVICE_OUT_AUX_DIGITAL := by decide
  obtain ⟨ret, calls, hrun⟩ := SetParameters_no_connect env adev parms hvoice hconn
  obtain ⟨_, _, _, k4, _⟩ :=
    SetParameters_rotation_fields adev parms (SetParameters_screen_state parms)
  simp only [hdis] at hrun
  refine ⟨_, hrun, ?_, ?_⟩
  · simp [AudioDevice.SetParameters_disconnect_record, hdev, hout, hin]
  · rw [(SetParameters_disconnect_record_dp env _ parms _).1, k4]

/-- C15 at the failing input: on `ex_adev_init` (controller 0, stream 0 recorded) a
disconnect of `AUDIO_DEVICE_OUT_AUX_DIGITAL` that carries controller 1 and stream 1
leaves `dp_controller = 0` and `dp_stream = 1`. -/
theorem C15_aux_digital_disconnect_record_witness :
    ex_adev_init.voice_ = true ∧ ex_adev_init.dp_controller = 0 ∧
    (ex_aux_disconnect_parms 1 1).controller = 1 ∧
    ∃ r, ex_adev_init.SetParameters ex_sys_env (ex_aux_disconnect_parms 1 1) = .ok r ∧
      r.adev.dp_stream = 1 ∧ r.adev.dp_controller = 0 ∧
      r.adev.dp_controller ≠ (ex_aux_disconnect_parms 1 1).controller := by
  obtain ⟨r, h1, h2, h3⟩ := C15_aux_digital_disconnect_record ex_sys_env ex_adev_init
    (ex_aux_disconnect_parms 1 1) rfl rfl rfl (by decide) (by decide)
  refine ⟨rfl, rfl, rfl, r, h1, h2, h3, ?_⟩
  rw [h3]
  decide

/-! ## Opening and closing streams -/

/-- A lookup by I/O handle in a stream list finds a stream of the list with that
handle. -/
theorem find_stream_some (l : List StreamPrimary) (handle : Int) (st : StreamPrimary)
    (h : l.find? (fun s => decide (s.handle_ = handle)) = some st) :
    st ∈ l ∧ st.handle_ = handle := by
  refine ⟨List.mem_of_find?_eq_some h, ?_⟩
  simpa using List.find?_some h

/-- A lookup by I/O handle in a stream list with one stream of that handle added at
the end, when the list had none, finds the added stream. -/
theorem find_stream_append (l : List StreamPrimary) (handle : Int) (new_id : Nat)
    (h : l.find? (fun s => decide (s.handle_ = handle)) = none) :
    (l ++ ([⟨new_id, handle⟩] : List StreamPrimary)).find?
        (fun s => decide (s.handle_ = handle)) = some ⟨new_id, handle⟩ := by
  simp [List.find?_append, h]

/-- The output list after `CreateStreamOut` is the old list with the new stream at
the end. -/
theorem CreateStreamOut_list (adev : AudioDevice) (new_id : Nat) (handle : Int)
    (flags : Nat) :
    (adev.CreateStreamOut new_id handle flags).1.stream_out_list_ =
        adev.stream_out_list_ ++ [⟨new_id, handle⟩] ∧
      (adev.CreateStreamOut new_id handle flags).2 = ⟨new_id, handle⟩ ∧
      (adev.CreateStreamOut new_id handle flags).1.stream_in_list_ = adev.stream_in_list_ := by
  unfold AudioDevice.CreateStreamOut
  dsimp only
  split_ifs <;> exact ⟨rfl, rfl, rfl⟩

/-- The entry point `adev_open_output_stream` on a valid device, case by case. -/
theorem adev_open_output_stream_eq (adev : AudioDevice) (new_id : Nat) (handle : Int)
    (flags format sample_rate : Nat) (stream_out : Option Nat) :
    adev_open_output_stream adev true new_id handle flags format sample_rate stream_out =
      if adev.sndCardState = CARD_STATUS_OFFLINE ∧
          (flags &&& AUDIO_OUTPUT_FLAG_COMPRESS_OFFLOAD ≠ 0 ∨
            flags &&& AUDIO_OUTPUT_FLAG_DIRECT ≠ 0) then
        ⟨-ENODEV, adev, stream_out, format, sample_rate⟩
      else
        match adev.OutGetStream handle with
        | some _ => ⟨0, adev, stream_out, format, sample_rate⟩
        | none =>
          ⟨0, (adev.CreateStreamOut new_id handle flags).1, some new_id, format,
            sample_rate⟩ := by
  unfold adev_open_output_stream
  simp only [Bool.true_eq_false, if_false]
  split_ifs
  · rfl
  · cases adev.OutGetStream handle with
    | some st => rfl
    | none =>
      simp only [(CreateStreamOut_list adev new_id handle flags).2.1]

/-- C16: after the `PAL_SND_CARD_STATE` callback has stored a card status,
`adev_open_output_stream` on a valid device returns `-ENODEV` and leaves the output
registry (the whole device) unchanged if and only if the stored status is offline and
the flags contain `AUDIO_OUTPUT_FLAG_COMPRESS_OFFLOAD` or `AUDIO_OUTPUT_FLAG_DIRECT`;
in every other case it returns 0 and a stream with the given I/O handle is registered
afterwards. -/
theorem C16_open_output_card_gate (adev : AudioDevice) (event_data new_id : Nat)
    (handle : Int) (flags format sample_rate : Nat) (stream_out : Option Nat) :
    (adev_pal_global_callback adev PAL_SND_CARD_STATE event_data).2.sndCardState =
        event_data ∧
    (((adev_open_output_stream (adev_pal_global_callback adev PAL_SND_CARD_STATE event_data).2
          true new_id handle flags format sample_rate stream_out).ret = -ENODEV ∧
        (adev_open_output_stream (adev_pal_global_callback adev PAL_SND_CARD_STATE event_data).2
          true new_id handle flags format sample_rate stream_out).adev =
          (adev_pal_global_callback adev PAL_SND_CARD_STATE event_data).2) ↔
      (event_data = CARD_STATUS_OFFLINE ∧
        (flags &&& AUDIO_OUTPUT_FLAG_COMPRESS_OFFLOAD ≠ 0 ∨
          flags &&& AUDIO_OUTPUT_FLAG_DIRECT ≠ 0))) ∧
    (¬ (event_data = CARD_STATUS_OFFLINE ∧
        (flags &&& AUDIO_OUTPUT_FLAG_COMPRESS_OFFLOAD ≠ 0 ∨
          flags &&& AUDIO_OUTPUT_FLAG_DIRECT ≠ 0)) →
      (adev_open_output_stream (adev_pal_global_callback adev PAL_SND_CARD_STATE event_data).2
          true new_id handle flags format sample_rate stream_out).ret = 0 ∧
      ∃ st, (adev_open_output_stream
          (adev_pal_global_callback adev PAL_SND_CARD_STATE event_data).2
          true new_id handle flags format sample_rate stream_out).adev.OutGetStream handle =
          some st ∧ st.handle_ = handle) := by
  have hcb : (adev_pal_global_callback adev PAL_SND_CARD_STATE event_data).2 =
      { adev with sndCardState := event_data } := by
    simp [adev_pal_global_callback]
  rw [hcb, adev_open_output_stream_eq]
  generalize hdev : ({ adev with sndCardState := event_data } : AudioDevice) = adev1
  have hcard : adev1.sndCardState = event_data := by rw [← hdev]
  rw [hcard]
  have hE : (0 : Int) ≠ -ENODEV := by decide
  refine ⟨rfl, ?_, ?_⟩
  · by_cases hc : event_data = CARD_STATUS_OFFLINE ∧
        (flags &&& AUDIO_OUTPUT_FLAG_COMPRESS_OFFLOAD ≠ 0 ∨
          flags &&& AUDIO_OUTPUT_FLAG_DIRECT ≠ 0)
    · simp only [hc, and_self, if_true]
    · simp only [hc, if_false, iff_false, not_and]
      intro hret
      exfalso
      revert hret
      cases adev1.OutGetStream handle <;> exact hE
  · intro hc
    simp only [hc, if_false]
    cases hfind : adev1.OutGetStream handle with
    | some st => exact ⟨rfl, st, hfind, (find_stream_some _ _ _ hfind).2⟩
    | none =>
      obtain ⟨hl, _, _⟩ := CreateStreamOut_list adev1 new_id handle flags
      refine ⟨rfl, ⟨new_id, handle⟩, ?_, rfl⟩
      show ((adev1.CreateStreamOut new_id handle flags).1.stream_out_list_).find?
        (fun s => decide (s.handle_ = handle)) = some ⟨new_id, handle⟩
      rw [hl]
      exact find_stream_append _ _ _ hfind

/-- An open-output request that passes the card gate on a valid device: when a stream
with the handle is registered the device is unchanged and the out-parameter is left
as it was at the call; otherwise the new stream is appended to the output list and
its identity is stored in the out-parameter. -/
theorem adev_open_output_stream_passed (adev : AudioDevice) (new_id : Nat) (handle : Int)
    (flags format sample_rate : Nat) (stream_out : Option Nat)
    (hgate : ¬ (adev.sndCardState = CARD_STATUS_OFFLINE ∧
      (flags &&& AUDIO_OUTPUT_FLAG_COMPRESS_OFFLOAD ≠ 0 ∨
        flags &&& AUDIO_OUTPUT_FLAG_DIRECT ≠ 0))) :
    (∀ st, adev.OutGetStream handle = some st →
      adev_open_output_stream adev true new_id handle flags format sample_rate stream_out =
        ⟨0, adev, stream_out, format, sample_rate⟩) ∧
    (adev.OutGetStream handle = none →
      (adev_open_output_stream adev true new_id handle flags format sample_rate
          stream_out).adev.stream_out_list_ =
        adev.stream_out_list_ ++ [⟨new_id, handle⟩] ∧
      (adev_open_output_stream adev true new_id handle flags format sample_rate
          stream_out).stream = some new_id ∧
      (adev_open_output_stream adev true new_id handle flags format sample_rate
          stream_out).ret = 0) := by
  rw [adev_open_output_stream_eq]
  simp only [hgate, if_false]
  constructor
  · intro st hst
    simp only [hst]
  · intro hnone
    simp only [hnone]
    refine ⟨(CreateStreamOut_list adev new_id handle flags).1, ?_⟩
    simp

/-- An open-input request on a valid device that returns 0: when a stream with the
handle is registered the device is unchanged and the out-parameter is left as it was
at the call; otherwise the new stream is appended to the input list and its identity
is stored in the out-parameter. -/
theorem adev_open_input_stream_passed (adev : AudioDevice) (new_id : Nat) (handle : Int)
    (format sample_rate : Nat) (source : Int) (stream_in : Option Nat)
    (hret : (adev_open_input_stream adev true new_id handle format sample_rate source
      stream_in).ret = 0) :
    (∀ st, adev.InGetStream handle = some st →
      (adev_open_input_stream adev true new_id handle format sample_rate source
          stream_in).adev = adev ∧
      (adev_open_input_stream adev true new_id handle format sample_rate source
          stream_in).stream = stream_in) ∧
    (adev.InGetStream handle = none →
      (adev_open_input_stream adev true new_id handle format sample_rate source
          stream_in).adev.stream_in_list_ =
        adev.stream_in_list_ ++ [⟨new_id, handle⟩] ∧
      (adev_open_input_stream adev true new_id handle format sample_rate source
          stream_in).stream = some new_id) := by
  have hE : (-EINVAL : Int) ≠ 0 := by decide
  unfold adev_open_input_stream at hret ⊢
  simp only [Bool.true_eq_false, if_false] at hret ⊢
  constructor
  · intro st hst
    simp only [hst] at hret ⊢
    split_ifs at hret ⊢ <;> first | exact absurd hret hE | exact ⟨rfl, rfl⟩
  · intro hnone
    simp only [hnone, AudioDevice.CreateStreamIn] at hret ⊢
    split_ifs at hret ⊢ <;> first | exact absurd hret hE | exact ⟨rfl, rfl⟩

/-- The open-stream entry points keep the I/O handles of each registry pairwise
distinct. -/
theorem open_stream_handles_nodup (adev : AudioDevice) (valid : Bool) (new_id : Nat)
    (handle : Int) (flags format sample_rate : Nat) (source : Int) (stream : Option Nat) :
    ((adev.stream_out_list_.map (fun s => s.handle_)).Nodup →
      ((adev_open_output_stream adev valid new_id handle flags format sample_rate
        stream).adev.stream_out_list_.map (fun s => s.handle_)).Nodup) ∧
    ((adev.stream_in_list_.map (fun s => s.handle_)).Nodup →
      ((adev_open_input_stream adev valid new_id handle format sample_rate source
        stream).adev.stream_in_list_.map (fun s => s.handle_)).Nodup) := by
  have key : ∀ l : List StreamPrimary, (l.map (fun s => s.handle_)).Nodup →
      l.find? (fun s => decide (s.handle_ = handle)) = none →
      ((l ++ ([⟨new_id, handle⟩] : List StreamPrimary)).map (fun s => s.handle_)).Nodup := by
    intro l hnd hnone
    rw [List.map_append, List.nodup_append]
    refine ⟨hnd, by simp, ?_⟩
    intro a ha hb
    simp only [List.map_cons, List.map_nil, List.mem_singleton] at hb
    obtain ⟨t, ht, rfl⟩ := List.mem_map.mp ha
    have := List.find?_eq_none.mp hnone t ht
    simp only [decide_eq_true_eq] at this
    exact this hb
  constructor
  · intro hnd
    cases valid with
    | false => simpa [adev_open_output_stream] using hnd
    | true =>
      rw [adev_open_output_stream_eq]
      split_ifs
      · exact hnd
      · cases hfind : adev.OutGetStream handle with
        | some st => exact hnd
        | none =>
          show ((adev.CreateStreamOut new_id handle flags).1.stream_out_list_.map
            (fun s => s.handle_)).Nodup
          rw [(CreateStreamOut_list adev new_id handle flags).1]
          exact key _ hnd hfind
  · intro hnd
    cases hfind : adev.InGetStream handle with
    | some st =>
      simp only [adev_open_input_stream, hfind]
      split_ifs <;> exact hnd
    | none =>
      have hk := key _ hnd hfind
      simp only [adev_open_input_stream, hfind, AudioDevice.CreateStreamIn]
      split_ifs <;> first | exact hnd | exact hk

/-- C17 at the failing input: on `ex_adev`, where output stream 7 (object 1) and input
stream 9 (object 2) are registered, an open-output request for handle 7 and an
open-input request for handle 9, each with a null out-parameter, return 0, leave the
registry unchanged and leave the out-parameter null: the registered stream is not
handed back. -/
theorem C17_open_registered_handle :
    ex_adev.OutGetStream 7 = some ⟨1, 7⟩ ∧
    adev_open_output_stream ex_adev true 5 7 0 AUDIO_FORMAT_PCM_16_BIT 48000 none =
      ⟨0, ex_adev, none, AUDIO_FORMAT_PCM_16_BIT, 48000⟩ ∧
    (adev_open_output_stream ex_adev true 5 7 0 AUDIO_FORMAT_PCM_16_BIT 48000 none).stream ≠
      some 1 ∧
    ex_adev.InGetStream 9 = some ⟨2, 9⟩ ∧
    adev_open_input_stream ex_adev true 5 9 AUDIO_FORMAT_PCM_16_BIT 48000 0 none =
      ⟨0, ex_adev, none, AUDIO_FORMAT_PCM_16_BIT, 48000⟩ ∧
    (adev_open_input_stream ex_adev true 5 9 AUDIO_FORMAT_PCM_16_BIT 48000 0 none).stream ≠
      some 2 := by
  decide

/-- C18: `CloseStreamOut(s)` and `CloseStreamIn(s)` remove the first occurrence of `s`
and keep the other streams in their order when `s` is in the registry, and leave the
device unchanged when it is not.  In a registry whose streams are distinct objects,
closing the same stream twice gives what closing it once gives, and after the close a
lookup by the I/O handle of `s` finds nothing unless another registered stream has
that handle. -/
theorem C18_close_stream (adev : AudioDevice) (s : StreamPrimary) :
    (s ∈ adev.stream_out_list_ → ∃ l1 l2, s ∉ l1 ∧ adev.stream_out_list_ = l1 ++ s :: l2 ∧
      (adev.CloseStreamOut s).stream_out_list_ = l1 ++ l2) ∧
    (s ∉ adev.stream_out_list_ → adev.CloseStreamOut s = adev) ∧
    (adev.stream_out_list_.Nodup →
      (adev.CloseStreamOut s).CloseStreamOut s = adev.CloseStreamOut s) ∧
    (adev.stream_out_list_.Nodup →
      (∀ t ∈ adev.stream_out_list_, t ≠ s → t.handle_ ≠ s.handle_) →
      (adev.CloseStreamOut s).OutGetStream s.handle_ = none) ∧
    (adev.stream_out_list_.Nodup →
      ∀ t, (adev.CloseStreamOut s).OutGetStream s.handle_ = some t →
        t ∈ adev.stream_out_list_ ∧ t ≠ s ∧ t.handle_ = s.handle_) ∧
    (s ∈ adev.stream_in_list_ → ∃ l1 l2, s ∉ l1 ∧ adev.stream_in_list_ = l1 ++ s :: l2 ∧
      (adev.CloseStreamIn s).stream_in_list_ = l1 ++ l2) ∧
    (s ∉ adev.stream_in_list_ → adev.CloseStreamIn s = adev) ∧
    (adev.stream_in_list_.Nodup →
      (adev.CloseStreamIn s).CloseStreamIn s = adev.CloseStreamIn s) ∧
    (adev.stream_in_list_.Nodup →
      (∀ t ∈ adev.stream_in_list_, t ≠ s → t.handle_ ≠ s.handle_) →
      (adev.CloseStreamIn s).InGetStream s.handle_ = none) ∧
    (adev.stream_in_list_.Nodup →
      ∀ t, (adev.CloseStreamIn s).InGetStream s.handle_ = some t →
        t ∈ adev.stream_in_list_ ∧ t ≠ s ∧ t.handle_ = s.handle_) := by
  have hnone : ∀ l : List StreamPrimary, l.Nodup →
      (∀ t ∈ l, t ≠ s → t.handle_ ≠ s.handle_) →
      (l.erase s).find? (fun x => decide (x.handle_ = s.handle_)) = none := by
    intro l hnd hother
    rw [List.find?_eq_none]
    intro t ht
    have := (hnd.mem_erase_iff).mp ht
    simpa using hother t this.2 this.1
  have hsome : ∀ l : List StreamPrimary, l.Nodup → ∀ t,
      (l.erase s).find? (fun x => decide (x.handle_ = s.handle_)) = some t →
      t ∈ l ∧ t ≠ s ∧ t.handle_ = s.handle_ := by
    intro l hnd t ht
    obtain ⟨hmem, hh⟩ := find_stream_some _ _ _ ht
    have := (hnd.mem_erase_iff).mp hmem
    exact ⟨this.2, this.1, hh⟩
  have htwice : ∀ l : List StreamPrimary, l.Nodup → (l.erase s).erase s = l.erase s :=
    fun l hnd => List.erase_of_not_mem (hnd.not_mem_erase)
  refine ⟨?_, ?_, ?_, ?_, ?_, ?_, ?_, ?_, ?_, ?_⟩
  · intro hs
    obtain ⟨l1, l2, h1, h2, h3⟩ := List.exists_erase_eq hs
    exact ⟨l1, l2, h1, h2, h3⟩
  · intro hs
    cases adev
    simp only [AudioDevice.CloseStreamOut] at hs ⊢
    rw [List.erase_of_not_mem hs]
  · intro hnd
    simp only [AudioDevice.CloseStreamOut, htwice _ hnd]
  · intro hnd hother
    exact hnone _ hnd hother
  · intro hnd t ht
    exact hsome _ hnd t ht
  · intro hs
    obtain ⟨l1, l2, h1, h2, h3⟩ := List.exists_erase_eq hs
    exact ⟨l1, l2, h1, h2, h3⟩
  · intro hs
    cases adev
    simp only [AudioDevice.CloseStreamIn] at hs ⊢
    rw [List.erase_of_not_mem hs]
  · intro hnd
    simp only [AudioDevice.CloseStreamIn, htwice _ hnd]
  · intro hnd hother
    exact hnone _ hnd hother
  · intro hnd t ht
    exact hsome _ hnd t ht

/-! ## GetPalDeviceIds: the second digital output -/

/-- A value within the range of `int` is not changed by wrapping. -/
theorem wrap_int32_of_range (x : Int) (h0 : -2147483648 ≤ x) (h1 : x ≤ 2147483647) :
    wrap_int32 x = x := by
  unfold wrap_int32
  omega

/-- C21: for a logical device `d` that the table maps to `id`, `GetPalDeviceIds` on the
set of `d` writes one id.  When `id` is `PAL_DEVICE_OUT_AUX_DIGITAL` or
`PAL_DEVICE_OUT_HDMI` it writes `PAL_DEVICE_OUT_AUX_DIGITAL_1` exactly when the `int`
expression `dp_controller * MAX_STREAMS_PER_CONTROLLER + dp_stream` is nonzero, and
`id` otherwise; for a pair whose expression stays within the range of `int` that is:
exactly when the number `dp_controller * MAX_STREAMS_PER_CONTROLLER + dp_stream` is
nonzero.  Controller 1, stream 1 gives the alternate id (for a constant between 0 and
`INT32_MAX`), controller 0, stream 0 gives `id`.  For every other `id` the id written is
`id`, whatever the recorded pair is. -/
theorem C21_aux_digital_alternate (env : SysEnv) (adev : AudioDevice) (d : Nat)
    (id old : pal_device_id_t) (hd : d ≠ AUDIO_DEVICE_NONE)
    (hfind : devmap_find adev.android_device_map_ d = some id) :
    ((id = pal_device_id_t.PAL_DEVICE_OUT_AUX_DIGITAL ∨
        id = pal_device_id_t.PAL_DEVICE_OUT_HDMI) →
      adev.GetPalDeviceIds env {d} (some [old]) =
        .ok (1, some [if wrap_int32 (adev.dp_controller * env.MAX_STREAMS_PER_CONTROLLER +
            adev.dp_stream) ≠ 0 then pal_device_id_t.PAL_DEVICE_OUT_AUX_DIGITAL_1 else id])) ∧
    ((id = pal_device_id_t.PAL_DEVICE_OUT_AUX_DIGITAL ∨
        id = pal_device_id_t.PAL_DEVICE_OUT_HDMI) →
      -2147483648 ≤ adev.dp_controller * env.MAX_STREAMS_PER_CONTROLLER + adev.dp_stream →
      adev.dp_controller * env.MAX_STREAMS_PER_CONTROLLER + adev.dp_stream ≤ INT32_MAX →
      adev.GetPalDeviceIds env {d} (some [old]) =
        .ok (1, some [if adev.dp_controller * env.MAX_STREAMS_PER_CONTROLLER +
            adev.dp_stream ≠ 0 then pal_device_id_t.PAL_DEVICE_OUT_AUX_DIGITAL_1 else id])) ∧
    ((id = pal_device_id_t.PAL_DEVICE_OUT_AUX_DIGITAL ∨
        id = pal_device_id_t.PAL_DEVICE_OUT_HDMI) →
      adev.dp_controller = 1 → adev.dp_stream = 1 →
      0 ≤ env.MAX_STREAMS_PER_CONTROLLER → env.MAX_STREAMS_PER_CONTROLLER ≤ INT32_MAX →
      adev.GetPalDeviceIds env {d} (some [old]) =
        .ok (1, some [pal_device_id_t.PAL_DEVICE_OUT_AUX_DIGITAL_1])) ∧
    (adev.dp_controller = 0 → adev.dp_stream = 0 →
      adev.GetPalDeviceIds env {d} (some [old]) = .ok (1, some [id])) ∧
    (¬ (id = pal_device_id_t.PAL_DEVICE_OUT_AUX_DIGITAL ∨
        id = pal_device_id_t.PAL_DEVICE_OUT_HDMI) →
      adev.GetPalDeviceIds env {d} (some [old]) = .ok (1, some [id])) := by
  have hslot : adev.GetPalDeviceIds_slot env d old = adev.GetPalDeviceIds_id env id := by
    simp [AudioDevice.GetPalDeviceIds_slot, hd, hfind]
  rw [GetPalDeviceIds_singleton env adev d old, hslot]
  refine ⟨?_, ?_, ?_, ?_, ?_⟩
  · intro hid
    simp only [AudioDevice.GetPalDeviceIds_id, hid, if_true]
  · intro hid h0 h1
    have hw := wrap_int32_of_range _ h0 (by simpa [INT32_MAX] using h1)
    simp only [AudioDevice.GetPalDeviceIds_id, hid, if_true, hw]
  · intro hid hc hs hm0 hm1
    have hne : wrap_int32 (1 * env.MAX_STREAMS_PER_CONTROLLER + 1) ≠ 0 := by
      unfold wrap_int32
      unfold INT32_MAX at hm1
      omega
    simp only [AudioDevice.GetPalDeviceIds_id, hid, if_true, hc, hs, hne, ne_eq,
      not_false_eq_true]
  · intro hc hs
    have hz : wrap_int32 (0 * env.MAX_STREAMS_PER_CONTROLLER + 0) = 0 := by
      unfold wrap_int32
      omega
    simp only [AudioDevice.GetPalDeviceIds_id, hc, hs, hz, ne_eq, not_true_eq_false, if_false,
      ite_self]
  · intro hid
    simp only [AudioDevice.GetPalDeviceIds_id, hid, if_false]

/-- C21 on the table of `FillAndroidDeviceMap`: `AUDIO_DEVICE_OUT_AUX_DIGITAL` is mapped
to `PAL_DEVICE_OUT_AUX_DIGITAL`; with controller 1 and stream 1 recorded the id written
is `PAL_DEVICE_OUT_AUX_DIGITAL_1`. -/
theorem C21_aux_digital_alternate_witness :
    AUDIO_DEVICE_OUT_AUX_DIGITAL ≠ AUDIO_DEVICE_NONE ∧
    devmap_find (ex_adev_dp 1 1).android_device_map_ AUDIO_DEVICE_OUT_AUX_DIGITAL =
      some pal_device_id_t.PAL_DEVICE_OUT_AUX_DIGITAL ∧
    (ex_adev_dp 1 1).GetPalDeviceIds ex_sys_env {AUDIO_DEVICE_OUT_AUX_DIGITAL}
        (some [pal_device_id_t.PAL_DEVICE_OUT_MIN]) =
      .ok (1, some [pal_device_id_t.PAL_DEVICE_OUT_AUX_DIGITAL_1]) :=
  ⟨by decide, by decide,
    (C21_aux_digital_alternate ex_sys_env (ex_adev_dp 1 1) AUDIO_DEVICE_OUT_AUX_DIGITAL
      pal_device_id_t.PAL_DEVICE_OUT_AUX_DIGITAL pal_device_id_t.PAL_DEVICE_OUT_MIN
      (by decide) (by decide)).2.2.1 (Or.inl rfl) rfl rfl (by decide) (by decide)⟩

/-! ## add_input_headset_if_usb_out_headset -/

/-- C22 (what the code does): without allocation failure, for a list of `n` resolved ids
behind `*pal_device_ids` and `*device_count = n`: when element 0 is
`PAL_DEVICE_OUT_USB_HEADSET` the call returns 0 with the list followed by
`PAL_DEVICE_IN_USB_HEADSET`, the count `n + 1` and the USB input flag set; when `n ≤ 1`
and no element is `PAL_DEVICE_OUT_USB_HEADSET` it returns 0 with list, count and flag
unchanged; when `n ≥ 2` and element 0 is another id, the second turn of the loop reads
`*pal_device_ids[1]`, through a pointer that lies beyond `*pal_device_ids`, whatever
the later elements of the list are: the call does not look at them. -/
theorem C22_add_input_headset (env : SysEnv) (adev : AudioDevice)
    (ids : List pal_device_id_t) (hre : env.realloc_fails = false) :
    (ids.head? = some pal_device_id_t.PAL_DEVICE_OUT_USB_HEADSET →
      adev.add_input_headset_if_usb_out_headset env (ids.length : Int) (some ids) =
        .ok ⟨0, (ids.length : Int) + 1,
          some (ids ++ [pal_device_id_t.PAL_DEVICE_IN_USB_HEADSET]),
          { adev with usb_input_dev_enabled := true }⟩) ∧
    (ids.length ≤ 1 → pal_device_id_t.PAL_DEVICE_OUT_USB_HEADSET ∉ ids →
      adev.add_input_headset_if_usb_out_headset env (ids.length : Int) (some ids) =
        .ok ⟨0, (ids.length : Int), some ids, adev⟩) ∧
    (2 ≤ ids.length → ids.head? ≠ some pal_device_id_t.PAL_DEVICE_OUT_USB_HEADSET →
      adev.add_input_headset_if_usb_out_headset env (ids.length : Int) (some ids) =
        .error Fault.out_of_range) := by
  refine ⟨?_, ?_, ?_⟩
  · intro hhead
    cases ids with
    | nil => simp at hhead
    | cons id0 rest =>
      simp only [List.head?_cons, Option.some.injEq] at hhead
      subst hhead
      have hpos : ¬ (((rest.length + 1 : Nat) : Int) ≤ 0) := by omega
      simp only [AudioDevice.add_input_headset_if_usb_out_headset, add_input_headset_scan,
        List.length_cons, hpos, if_false, if_true, hre, Bool.false_eq_true,
        Option.getD_some, Int.toNat_ofNat, Nat.sub_self, List.replicate_zero, List.append_nil,
        List.take_succ_cons, List.take_length]
  · intro hlen hmem
    cases ids with
    | nil => simp [AudioDevice.add_input_headset_if_usb_out_headset, add_input_headset_scan]
    | cons id0 rest =>
      have hrest : rest = [] := by
        cases rest with
        | nil => rfl
        | cons _ _ => simp at hlen
      subst hrest
      have hne : ¬ id0 = pal_device_id_t.PAL_DEVICE_OUT_USB_HEADSET := by
        intro h
        exact hmem (by simp [h])
      simp [AudioDevice.add_input_headset_if_usb_out_headset, add_input_headset_scan, hne]
  · intro hlen hhead
    cases ids with
    | nil => simp at hlen
    | cons id0 rest =>
      have hne : ¬ id0 = pal_device_id_t.PAL_DEVICE_OUT_USB_HEADSET := by
        intro h
        exact hhead (by simp [h])
      have hpos : ¬ (((rest.length + 1 : Nat) : Int) ≤ 0) := by omega
      have hbig : ¬ (((rest.length + 1 : Nat) : Int) ≤ 1) := by
        simp only [List.length_cons] at hlen
        omega
      simp only [AudioDevice.add_input_headset_if_usb_out_headset, add_input_headset_scan,
        List.length_cons, hpos, if_false, hne, hbig]

/-- C22 at the failing input: for the list of `PAL_DEVICE_OUT_SPEAKER` and
`PAL_DEVICE_OUT_USB_HEADSET` the call does not return the list with
`PAL_DEVICE_IN_USB_HEADSET` appended; it reads beyond `*pal_device_ids`. -/
theorem C22_add_input_headset_witness :
    ex_sys_env.realloc_fails = false ∧
    pal_device_id_t.PAL_DEVICE_OUT_USB_HEADSET ∈
      [pal_device_id_t.PAL_DEVICE_OUT_SPEAKER, pal_device_id_t.PAL_DEVICE_OUT_USB_HEADSET] ∧
    ex_adev_init.add_input_headset_if_usb_out_headset ex_sys_env 2
        (some [pal_device_id_t.PAL_DEVICE_OUT_SPEAKER,
          pal_device_id_t.PAL_DEVICE_OUT_USB_HEADSET]) =
      .error Fault.out_of_range :=
  ⟨rfl, by decide,
    (C22_add_input_headset ex_sys_env ex_adev_init
      [pal_device_id_t.PAL_DEVICE_OUT_SPEAKER, pal_device_id_t.PAL_DEVICE_OUT_USB_HEADSET]
      rfl).2.2 (by decide) (by decide)⟩

/-! ## The handle generator -/

/-- The counter after `n + 1` calls, in closed form: it runs through 1 to `INT32_MAX`
and starts again at 1. -/
theorem handle_seq_closed (n : Nat) :
    handle_seq (n + 1) = ((n % 2147483647 : Nat) : Int) + 1 := by
  induction n with
  | zero => rfl
  | succ n ih =>
    rw [handle_seq, ih]
    unfold AudioPatch.generate_patch_handle_l wrap_int32 AUDIO_PATCH_HANDLE_NONE
    dsimp only
    split_ifs with h <;> omega

/-- C23: with the counter a signed 32-bit integer that wraps, starting at
`AUDIO_PATCH_HANDLE_NONE`: every value that `generate_patch_handle_l` returns is between
1 and `INT32_MAX`, so it is neither negative nor the sentinel; each call returns the
value before plus one, except that the call after `INT32_MAX` returns 1; and of any
`2^31 - 1` calls in a row no two return the same handle. -/
theorem C23_generated_handles :
    (∀ n : Nat, 1 ≤ handle_seq (n + 1) ∧ handle_seq (n + 1) ≤ INT32_MAX ∧
      handle_seq (n + 1) ≠ AUDIO_PATCH_HANDLE_NONE) ∧
    (∀ n : Nat, handle_seq (n + 1) =
      if handle_seq n = INT32_MAX then 1 else handle_seq n + 1) ∧
    (∀ i j : Nat, 1 ≤ i → i < j → j < i + 2147483647 → handle_seq i ≠ handle_seq j) := by
  refine ⟨?_, ?_, ?_⟩
  · intro n
    rw [handle_seq_closed]
    unfold INT32_MAX AUDIO_PATCH_HANDLE_NONE
    omega
  · intro n
    cases n with
    | zero =>
      have h : handle_seq 0 = 0 := rfl
      rw [handle_seq_closed, h]
      unfold INT32_MAX
      simp
    | succ m =>
      rw [handle_seq_closed, handle_seq_closed]
      unfold INT32_MAX
      split_ifs with h <;> omega
  · intro i j hi hij hj
    obtain ⟨a, rfl⟩ : ∃ a, i = a + 1 := ⟨i - 1, by omega⟩
    obtain ⟨b, rfl⟩ : ∃ b, j = b + 1 := ⟨j - 1, by omega⟩
    rw [handle_seq_closed, handle_seq_closed]
    omega

/-! ## The lock of the patch table -/

/-- Every return of `CreateAudioPatch` leaves the lock flag as it was at the call. -/
theorem create_lock_eq (env : Env) (adev : AudioDevice) (handle : Option Int)
    (sources sinks : List audio_port_config) (r : CreateResult)
    (hr : adev.CreateAudioPatch env handle sources sinks = .ok r) :
    r.adev.patch_map_mutex = adev.patch_map_mutex := by
  unfold AudioDevice.CreateAudioPatch at hr
  repeat' first | split at hr | dsimp only at hr
  all_goals (cases hr; try simp)

/-- The steps of `ReleaseAudioPatch` agree with the method: from a free lock, the lock
state after the steps is the one the method returns with and the routing calls are
those it made; no routing call of the steps is made while the lock is held. -/
theorem release_steps_sound (env : Env) (adev : AudioDevice) (h : Int) (r : ReleaseResult)
    (hfree : adev.patch_map_mutex = false)
    (hr : adev.ReleaseAudioPatch env h = .ok r) :
    lock_after false (adev.ReleaseAudioPatch_steps h) = some r.adev.patch_map_mutex ∧
    steps_calls (adev.ReleaseAudioPatch_steps h) = r.calls ∧
    route_while_held false (adev.ReleaseAudioPatch_steps h) = false := by
  by_cases h0 : h = AUDIO_PATCH_HANDLE_NONE
  · simp only [AudioDevice.ReleaseAudioPatch, h0, if_true, Except.ok.injEq] at hr
    subst hr
    simp [AudioDevice.ReleaseAudioPatch_steps, h0, lock_after, steps_calls, route_while_held,
      hfree]
  · cases hfind : map_find adev.patch_map_ h with
    | none =>
      simp only [AudioDevice.ReleaseAudioPatch, h0, hfree, if_false, hfind,
        Bool.false_eq_true, Except.ok.injEq] at hr
      subst hr
      simp [AudioDevice.ReleaseAudioPatch_steps, h0, hfind, lock_after, steps_calls,
        route_while_held]
    | some p =>
      rw [release_found_eq env adev h p h0 hfree hfind] at hr
      simp only [AudioDevice.ReleaseAudioPatch_steps, h0, if_false, hfind]
      cases hsw : ReleaseAudioPatch_switch p with
      | error fault => simp [hsw] at hr
      | ok o =>
        cases o with
        | none =>
          simp only [hsw, Except.ok.injEq] at hr
          subst hr
          simp [lock_after, steps_calls, route_while_held]
        | some io_handle =>
          simp only [hsw] at hr
          cases hst : adev.patch_stream p.type io_handle with
          | none =>
            simp only [hst, Except.ok.injEq] at hr
            subst hr
            simp [hst, lock_after, steps_calls, route_while_held, hfree]
          | some st =>
            simp only [hst] at hr ⊢
            by_cases hty : p.type = PatchType.PATCH_PLAYBACK
            · cases hv : adev.voice_ with
              | false => simp [hty, hv] at hr
              | true =>
                simp only [hty, if_true, hv, Except.ok.injEq] at hr
                subst hr
                simp [hst, hv, lock_after, steps_calls, route_while_held, hfree, hty]
            · simp only [hty, if_false, Except.ok.injEq] at hr
              subst hr
              simp [hst, lock_after, steps_calls, route_while_held, hfree, hty]

/-- The routing step of `CreateAudioPatch` makes the stream call alone or the stream
call and then the voice call. -/
theorem create_route_calls (env : Env) (voice_ : Bool) (st : StreamPrimary)
    (patch_type : PatchType) (device_types : Finset Nat) :
    (CreateAudioPatch_route env voice_ st patch_type device_types).2 =
        [RouteCall.stream st device_types] ∨
      (CreateAudioPatch_route env voice_ st patch_type device_types).2 =
        [RouteCall.stream st device_types, RouteCall.voice device_types] := by
  unfold CreateAudioPatch_route
  dsimp only
  split_ifs
  · exact Or.inr rfl
  · exact Or.inl rfl

/-- The steps of `CreateAudioPatch` once the two argument checks have passed. -/
theorem create_steps_valid_eq (env : Env) (adev : AudioDevice) (h : Int)
    (src snk : audio_port_config) (rest : List audio_port_config)
    (hlen : (snk :: rest).length ≤ AUDIO_PATCH_PORTS_MAX) :
    adev.CreateAudioPatch_steps env (some h) [src] (snk :: rest) =
      match CreateAudioPatch_switch src snk (snk :: rest) with
      | .error _ => []
      | .ok pr =>
        match adev.patch_stream pr.patch_type pr.io_handle with
        | none => []
        | some st =>
          let routed := CreateAudioPatch_route env adev.voice_ st pr.patch_type pr.device_types
          if h = AUDIO_PATCH_HANDLE_NONE then
            if routed.1 ≠ 0 then routed.2.map PatchStep.route
            else routed.2.map PatchStep.route ++ [PatchStep.lock, PatchStep.unlock]
          else
            match map_find adev.patch_map_ h with
            | none => [PatchStep.lock, PatchStep.unlock]
            | some _ => [PatchStep.lock, PatchStep.unlock] ++ routed.2.map PatchStep.route := by
  have hlen1 : rest.length + 1 ≤ 16 := by
    simpa [AUDIO_PATCH_PORTS_MAX] using hlen
  have hlen2 : ¬ (16 < rest.length + 1) := Nat.not_lt.mpr hlen1
  unfold AudioDevice.CreateAudioPatch_steps
  simp [AUDIO_PATCH_PORTS_MAX, hlen2]

/-- The steps of `CreateAudioPatch` agree with the method: from a free lock, the lock
state after the steps is the one the method returns with and the routing calls are
those it made; no routing call of the steps is made while the lock is held. -/
theorem create_steps_sound (env : Env) (adev : AudioDevice) (handle : Option Int)
    (sources sinks : List audio_port_config) (r : CreateResult)
    (hfree : adev.patch_map_mutex = false)
    (hr : adev.CreateAudioPatch env handle sources sinks = .ok r) :
    lock_after false (adev.CreateAudioPatch_steps env handle sources sinks) =
      some r.adev.patch_map_mutex ∧
    steps_calls (adev.CreateAudioPatch_steps env handle sources sinks) = r.calls ∧
    route_while_held false (adev.CreateAudioPatch_steps env handle sources sinks) = false := by
  have hinvalid : ∀ r0 : CreateResult, r0 = ⟨-EINVAL, handle, adev, []⟩ →
      adev.CreateAudioPatch_steps env handle sources sinks = [] →
      lock_after false (adev.CreateAudioPatch_steps env handle sources sinks) =
        some r0.adev.patch_map_mutex ∧
      steps_calls (adev.CreateAudioPatch_steps env handle sources sinks) = r0.calls ∧
      route_while_held false (adev.CreateAudioPatch_steps env handle sources sinks) = false := by
    intro r0 hr0 hsteps
    subst hr0
    rw [hsteps]
    simp [lock_after, steps_calls, route_while_held, hfree]
  rcases handle with _ | h
  · apply hinvalid
    · simpa [AudioDevice.CreateAudioPatch] using hr.symm
    · simp [AudioDevice.CreateAudioPatch_steps]
  rcases sources with _ | ⟨src, _ | ⟨src2, srest⟩⟩
  · apply hinvalid
    · simpa [AudioDevice.CreateAudioPatch] using hr.symm
    · simp [AudioDevice.CreateAudioPatch_steps]
  · rcases sinks with _ | ⟨snk, rest⟩
    · apply hinvalid
      · simpa [AudioDevice.CreateAudioPatch] using hr.symm
      · simp [AudioDevice.CreateAudioPatch_steps]
    · by_cases hlen : (snk :: rest).length ≤ AUDIO_PATCH_PORTS_MAX
      · rw [create_valid_eq env adev h src snk rest hlen] at hr
        rw [create_steps_valid_eq env adev h src snk rest hlen]
        cases hsw : CreateAudioPatch_switch src snk (snk :: rest) with
        | error status =>
          simp only [hsw, Except.ok.injEq] at hr
          subst hr
          simp [lock_after, steps_calls, route_while_held, hfree]
        | ok pr =>
          simp only [hsw] at hr ⊢
          cases hst : adev.patch_stream pr.patch_type pr.io_handle with
          | none =>
            simp only [hst, Except.ok.injEq] at hr
            subst hr
            simp [lock_after, steps_calls, route_while_held, hfree]
          | some st =>
            simp only [hst] at hr ⊢
            have hcalls := create_route_calls env adev.voice_ st pr.patch_type pr.device_types
            generalize CreateAudioPatch_route env adev.voice_ st pr.patch_type
              pr.device_types = routed at hr hcalls ⊢
            by_cases h0 : h = AUDIO_PATCH_HANDLE_NONE
            · by_cases hret : routed.1 = 0
              · simp only [h0, if_true, hret, ne_eq, not_true_eq_false, if_false, hfree,
                  Bool.false_eq_true, Except.ok.injEq] at hr
                subst hr
                rcases hcalls with hc | hc <;>
                  simp [h0, hret, hc, lock_after, steps_calls, route_while_held, hfree]
              · simp only [h0, if_true, hret, ne_eq, not_false_eq_true,
                  Except.ok.injEq] at hr
                subst hr
                rcases hcalls with hc | hc <;>
                  simp [h0, hret, hc, lock_after, steps_calls, route_while_held, hfree]
            · cases hfind : map_find adev.patch_map_ h with
              | none =>
                simp only [h0, if_false, hfree, Bool.false_eq_true, hfind,
                  Except.ok.injEq] at hr
                subst hr
                simp [h0, hfind, lock_after, steps_calls, route_while_held, hfree]
              | some p =>
                simp only [h0, if_false, hfree, Bool.false_eq_true, hfind,
                  Except.ok.injEq] at hr
                subst hr
                rcases hcalls with hc | hc <;>
                  simp [h0, hfind, hc, lock_after, steps_calls, route_while_held, hfree]
      · have hlen2 : 16 < rest.length + 1 := by
          simp only [List.length_cons, AUDIO_PATCH_PORTS_MAX] at hlen
          omega
        apply hinvalid
        · simpa [AudioDevice.CreateAudioPatch, AUDIO_PATCH_PORTS_MAX, hlen2] using hr.symm
        · simp [AudioDevice.CreateAudioPatch_steps, AUDIO_PATCH_PORTS_MAX, hlen2]
  · apply hinvalid
    · unfold AudioDevice.CreateAudioPatch at hr
      split at hr
      · simpa using hr.symm
      · simpa using hr.symm
    · unfold AudioDevice.CreateAudioPatch_steps
      split
      · rfl
      · exact if_pos (by simp)

/-- From a free lock, `ReleaseAudioPatch` returns with the lock held exactly on the two
returns between `lock()` and `unlock()`: the handle is not the sentinel, and it is not
in the table or the switch on the type of the source returns. -/
theorem release_lock_iff (env : Env) (adev : AudioDevice) (h : Int) (r : ReleaseResult)
    (hfree : adev.patch_map_mutex = false)
    (hr : adev.ReleaseAudioPatch env h = .ok r) :
    r.adev.patch_map_mutex = true ↔
      h ≠ AUDIO_PATCH_HANDLE_NONE ∧
        (map_find adev.patch_map_ h = none ∨
          ∃ p, map_find adev.patch_map_ h = some p ∧ ReleaseAudioPatch_switch p = .ok none) := by
  by_cases h0 : h = AUDIO_PATCH_HANDLE_NONE
  · simp only [AudioDevice.ReleaseAudioPatch, h0, if_true, Except.ok.injEq] at hr
    subst hr
    simp [h0, hfree]
  · cases hfind : map_find adev.patch_map_ h with
    | none =>
      simp only [AudioDevice.ReleaseAudioPatch, h0, hfree, if_false, hfind,
        Bool.false_eq_true, Except.ok.injEq] at hr
      subst hr
      simp [h0]
    | some p =>
      rw [release_found_eq env adev h p h0 hfree hfind] at hr
      cases hsw : ReleaseAudioPatch_switch p with
      | error fault => simp [hsw] at hr
      | ok o =>
        cases o with
        | none =>
          simp only [hsw, Except.ok.injEq] at hr
          subst hr
          simp [h0, hsw]
        | some io_handle =>
          simp only [hsw] at hr
          have hlock : r.adev.patch_map_mutex = false := by
            cases hst : adev.patch_stream p.type io_handle with
            | none =>
              simp only [hst, Except.ok.injEq] at hr
              subst hr
              exact hfree
            | some st =>
              simp only [hst] at hr
              split_ifs at hr <;> simp only [Except.ok.injEq, reduceCtorEq] at hr
              all_goals
                subst hr
                exact hfree
          simp [hlock, h0, hsw]

/-- C24 (what the code does): with the lock free at the call, every return of
`CreateAudioPatch` leaves the lock free, and no routing call of `CreateAudioPatch` or of
`ReleaseAudioPatch` is made while the lock is held.  `ReleaseAudioPatch`, however,
returns with the lock still held on its two returns between `lock()` and `unlock()`,
and only there: for a handle that is not the sentinel and is not in the table, and for
a patch whose source has the type SESSION or NONE.  For a handle that is not in the
table it returns `-EINVAL` with the lock held, and after that no `ReleaseAudioPatch` of
a handle other than the sentinel returns. -/
theorem C24_release_returns_with_lock (env : Env) (adev : AudioDevice)
    (hfree : adev.patch_map_mutex = false) :
    (∀ handle sources sinks r, adev.CreateAudioPatch env handle sources sinks = .ok r →
      r.adev.patch_map_mutex = false ∧
      route_while_held false (adev.CreateAudioPatch_steps env handle sources sinks) = false) ∧
    (∀ h r, adev.ReleaseAudioPatch env h = .ok r →
      route_while_held false (adev.ReleaseAudioPatch_steps h) = false ∧
      (r.adev.patch_map_mutex = true ↔
        h ≠ AUDIO_PATCH_HANDLE_NONE ∧
          (map_find adev.patch_map_ h = none ∨
            ∃ p, map_find adev.patch_map_ h = some p ∧
              ReleaseAudioPatch_switch p = .ok none))) ∧
    (∀ h, h ≠ AUDIO_PATCH_HANDLE_NONE → map_find adev.patch_map_ h = none →
      adev.ReleaseAudioPatch env h =
        .ok ⟨-EINVAL, { adev with patch_map_mutex := true }, []⟩ ∧
      ∀ (env2 : Env) (h2 : Int), h2 ≠ AUDIO_PATCH_HANDLE_NONE →
        ({ adev with patch_map_mutex := true } : AudioDevice).ReleaseAudioPatch env2 h2 =
          .error Fault.deadlock) := by
  refine ⟨?_, ?_, ?_⟩
  · intro handle sources sinks r hr
    refine ⟨?_, (create_steps_sound env adev handle sources sinks r hfree hr).2.2⟩
    rw [create_lock_eq env adev handle sources sinks r hr, hfree]
  · intro h r hr
    exact ⟨(release_steps_sound env adev h r hfree hr).2.2,
      release_lock_iff env adev h r hfree hr⟩
  · intro h h0 hnone
    constructor
    · simp [AudioDevice.ReleaseAudioPatch, h0, hfree, hnone]
    · intro env2 h2 h20
      simp [AudioDevice.ReleaseAudioPatch, h20]

/-- C24 at the failing input: on `ex_adev_patched`, whose lock is free, the release of
handle 5, which is not in the table, returns `-EINVAL` with the lock held; the release
of the patch under handle 1 after it does not return. -/
theorem C24_release_returns_with_lock_witness :
    ex_adev_patched.patch_map_mutex = false ∧
    map_find ex_adev_patched.patch_map_ 5 = none ∧
    ex_adev_patched.ReleaseAudioPatch ex_env_ok 5 =
      .ok ⟨-EINVAL, { ex_adev_patched with patch_map_mutex := true }, []⟩ ∧
    ({ ex_adev_patched with patch_map_mutex := true } : AudioDevice).ReleaseAudioPatch
      ex_env_ok 1 = .error Fault.deadlock :=
  have h := (C24_release_returns_with_lock ex_env_ok ex_adev_patched rfl).2.2 5
    (by decide) (by decide)
  ⟨rfl, by decide, h.1, h.2 ex_env_ok 1 (by decide)⟩

/-! ## The entries of the patch table -/

/-- An entry of the table after `patch_map_[k] = v` is the new entry or an old one. -/
theorem mem_map_assign (m : List (Int × AudioPatch)) (k : Int) (v : AudioPatch)
    (x : Int × AudioPatch) (hx : x ∈ map_assign m k v) : x = (k, v) ∨ x ∈ m := by
  induction m with
  | nil =>
    simp only [map_assign, List.mem_singleton] at hx
    exact Or.inl hx
  | cons e rest ih =>
    obtain ⟨k', v'⟩ := e
    simp only [map_assign] at hx
    split_ifs at hx with h1 h2
    · simp only [List.mem_cons] at hx ⊢
      rcases hx with hx | hx
      · exact Or.inl hx
      · exact Or.inr (Or.inr hx)
    · simp only [List.mem_cons] at hx ⊢
      rcases hx with hx | hx | hx
      · exact Or.inl hx
      · exact Or.inr (Or.inl hx)
      · exact Or.inr (Or.inr hx)
    · simp only [List.mem_cons] at hx ⊢
      rcases hx with hx | hx
      · exact Or.inr (Or.inl hx)
      · rcases ih hx with h | h
        · exact Or.inl h
        · exact Or.inr (Or.inr h)

/-- An entry of the table after a write through the pointer found under `k` is an old
entry, or the old entry under its key changed by `f`. -/
theorem mem_map_modify (m : List (Int × AudioPatch)) (k : Int) (f : AudioPatch → AudioPatch)
    (x : Int × AudioPatch) (hx : x ∈ map_modify m k f) :
    x ∈ m ∨ ∃ v, (x.1, v) ∈ m ∧ x.2 = f v := by
  induction m with
  | nil => simp [map_modify] at hx
  | cons e rest ih =>
    obtain ⟨k', v'⟩ := e
    simp only [map_modify] at hx
    split_ifs at hx with h1
    · simp only [List.mem_cons] at hx ⊢
      rcases hx with hx | hx
      · subst hx
        exact Or.inr ⟨v', Or.inl rfl, rfl⟩
      · exact Or.inl (Or.inr hx)
    · simp only [List.mem_cons] at hx ⊢
      rcases hx with hx | hx
      · exact Or.inl (Or.inl hx)
      · rcases ih hx with h | ⟨v, hv, hf⟩
        · exact Or.inl (Or.inr h)
        · exact Or.inr ⟨v, Or.inr hv, hf⟩

/-- An entry of the table after `erase` is an old entry. -/
theorem mem_map_erase (m : List (Int × AudioPatch)) (k : Int) (x : Int × AudioPatch)
    (hx : x ∈ map_erase m k) : x ∈ m := by
  induction m with
  | nil => simp [map_erase] at hx
  | cons e rest ih =>
    obtain ⟨k', v'⟩ := e
    simp only [map_erase] at hx
    split_ifs at hx with h1
    · exact List.mem_cons_of_mem _ (ih hx)
    · simp only [List.mem_cons] at hx ⊢
      rcases hx with hx | hx
      · exact Or.inl hx
      · exact Or.inr (ih hx)

/-- The switch of `CreateAudioPatch` goes on with the type playback or capture only. -/
theorem switch_patch_type (src snk : audio_port_config) (sinks : List audio_port_config)
    (pr : PatchRoute) (hsw : CreateAudioPatch_switch src snk sinks = .ok pr) :
    pr.patch_type = PatchType.PATCH_PLAYBACK ∨ pr.patch_type = PatchType.PATCH_CAPTURE := by
  unfold CreateAudioPatch_switch at hsw
  repeat' first | split at hsw | dsimp only at hsw
  all_goals first
    | (cases hsw; simp)
    | exact absurd hsw (by simp)

/-- A call of `CreateAudioPatch` that returns was rejected by the argument checks, with
nothing changed, or has a handle pointer, one source and between 1 and
`AUDIO_PATCH_PORTS_MAX` sinks. -/
theorem create_shape (env : Env) (adev : AudioDevice) (handle : Option Int)
    (sources sinks : List audio_port_config) (r : CreateResult)
    (hr : adev.CreateAudioPatch env handle sources sinks = .ok r) :
    r = ⟨-EINVAL, handle, adev, []⟩ ∨
      ∃ h src snk rest, handle = some h ∧ sources = [src] ∧ sinks = snk :: rest ∧
        (snk :: rest).length ≤ AUDIO_PATCH_PORTS_MAX := by
  rcases handle with _ | h
  · left
    simpa [AudioDevice.CreateAudioPatch] using hr.symm
  rcases sources with _ | ⟨src, _ | ⟨src2, srest⟩⟩
  · left
    simpa [AudioDevice.CreateAudioPatch] using hr.symm
  · rcases sinks with _ | ⟨snk, rest⟩
    · left
      simpa [AudioDevice.CreateAudioPatch] using hr.symm
    · by_cases hlen : (snk :: rest).length ≤ AUDIO_PATCH_PORTS_MAX
      · exact Or.inr ⟨h, src, snk, rest, rfl, rfl, rfl, hlen⟩
      · have hlen2 : 16 < rest.length + 1 := by
          simp only [List.length_cons, AUDIO_PATCH_PORTS_MAX] at hlen
          omega
        left
        simpa [AudioDevice.CreateAudioPatch, AUDIO_PATCH_PORTS_MAX, hlen2] using hr.symm
  · left
    unfold AudioDevice.CreateAudioPatch at hr
    split at hr
    · simpa using hr.symm
    · simpa using hr.symm

/-- What a call of `CreateAudioPatch` that returns does to the table: nothing, or the
assignment of a new patch under the generated handle, or the write of the new type,
sources and sinks into the patch under the given handle. -/
theorem create_table_cases (env : Env) (adev : AudioDevice) (handle : Option Int)
    (sources sinks : List audio_port_config) (r : CreateResult)
    (hr : adev.CreateAudioPatch env handle sources sinks = .ok r) :
    r.adev.patch_map_ = adev.patch_map_ ∨
      ∃ h src snk rest pr, handle = some h ∧ sources = [src] ∧ sinks = snk :: rest ∧
        (snk :: rest).length ≤ AUDIO_PATCH_PORTS_MAX ∧
        CreateAudioPatch_switch src snk (snk :: rest) = .ok pr ∧
        (r.adev.patch_map_ = map_assign adev.patch_map_
            (AudioPatch.generate_patch_handle_l adev.handles)
            ⟨AudioPatch.generate_patch_handle_l adev.handles, pr.patch_type, [src],
              snk :: rest⟩ ∨
          r.adev.patch_map_ = map_modify adev.patch_map_ h
            (fun p => ⟨p.handle, pr.patch_type, [src], snk :: rest⟩)) := by
  rcases create_shape env adev handle sources sinks r hr with h | ⟨h, src, snk, rest, h1, h2, h3, hlen⟩
  · left
    rw [h]
  · subst h1 h2 h3
    rw [create_valid_eq env adev h src snk rest hlen] at hr
    cases hsw : CreateAudioPatch_switch src snk (snk :: rest) with
    | error status =>
      simp only [hsw, Except.ok.injEq] at hr
      subst hr
      exact Or.inl rfl
    | ok pr =>
      simp only [hsw] at hr
      cases hst : adev.patch_stream pr.patch_type pr.io_handle with
      | none =>
        simp only [hst, Except.ok.injEq] at hr
        subst hr
        exact Or.inl rfl
      | some st =>
        simp only [hst] at hr
        split_ifs at hr
        · simp only [Except.ok.injEq] at hr
          subst hr
          exact Or.inl rfl
        · simp only [Except.ok.injEq] at hr
          subst hr
          exact Or.inr ⟨h, src, snk, rest, pr, rfl, rfl, rfl, hlen, hsw, Or.inl rfl⟩
        · cases hfind : map_find adev.patch_map_ h with
          | none =>
            simp only [hfind, Except.ok.injEq] at hr
            subst hr
            exact Or.inl rfl
          | some p =>
            simp only [hfind, Except.ok.injEq] at hr
            subst hr
            exact Or.inr ⟨h, src, snk, rest, pr, rfl, rfl, rfl, hlen, hsw, Or.inr rfl⟩

/-- What a call of `ReleaseAudioPatch` that returns does to the table: nothing, or the
removal of the entry under the handle. -/
theorem release_table_cases (env : Env) (adev : AudioDevice) (h : Int) (r : ReleaseResult)
    (hr : adev.ReleaseAudioPatch env h = .ok r) :
    r.adev.patch_map_ = adev.patch_map_ ∨
      r.adev.patch_map_ = map_erase adev.patch_map_ h := by
  unfold AudioDevice.ReleaseAudioPatch at hr
  repeat' first | split at hr | dsimp only at hr
  all_goals (cases hr; try simp)

/-- A call of `CreateAudioPatch` on a counter between 0 and `INT32_MAX` keeps every
entry of the table as expected. -/
theorem create_keeps_entries (env : Env) (adev : AudioDevice) (handle : Option Int)
    (sources sinks : List audio_port_config) (r : CreateResult)
    (hr : adev.CreateAudioPatch env handle sources sinks = .ok r)
    (hcnt : 0 ≤ adev.handles ∧ adev.handles ≤ INT32_MAX)
    (hinv : ∀ kv ∈ adev.patch_map_, patch_entry_ok kv) :
    ∀ kv ∈ r.adev.patch_map_, patch_entry_ok kv := by
  rcases create_table_cases env adev handle sources sinks r hr with
    h | ⟨h, src, snk, rest, pr, _, _, _, hlen, hsw, hmap | hmap⟩
  · rw [h]
    exact hinv
  · intro kv hkv
    rw [hmap] at hkv
    rcases mem_map_assign _ _ _ _ hkv with hnew | hold
    · subst hnew
      have hgen := generate_patch_handle_l_pos adev.handles hcnt.1 hcnt.2
      refine ⟨rfl, ?_, hlen, switch_patch_type _ _ _ _ hsw, rfl, ?_⟩
      · simp
      · simp only [AUDIO_PATCH_HANDLE_NONE]
        omega
    · exact hinv kv hold
  · intro kv hkv
    rw [hmap] at hkv
    rcases mem_map_modify _ _ _ _ hkv with hold | ⟨v, hv, hf⟩
    · exact hinv kv hold
    · obtain ⟨_, _, _, _, hkey, hne⟩ := hinv (kv.1, v) hv
      refine ⟨?_, ?_, ?_, ?_, ?_, hne⟩
      · rw [hf]
        rfl
      · rw [hf]
        simp
      · rw [hf]
        exact hlen
      · rw [hf]
        exact switch_patch_type _ _ _ _ hsw
      · rw [hf]
        exact hkey

/-- A call of `ReleaseAudioPatch` keeps every entry of the table as expected. -/
theorem release_keeps_entries (env : Env) (adev : AudioDevice) (h : Int) (r : ReleaseResult)
    (hr : adev.ReleaseAudioPatch env h = .ok r)
    (hinv : ∀ kv ∈ adev.patch_map_, patch_entry_ok kv) :
    ∀ kv ∈ r.adev.patch_map_, patch_entry_ok kv := by
  rcases release_table_cases env adev h r hr with hmap | hmap
  · rw [hmap]
    exact hinv
  · intro kv hkv
    rw [hmap] at hkv
    exact hinv kv (mem_map_erase _ _ _ hkv)

/-- In every state that a run reaches the counter is between 0 and `INT32_MAX` and every
entry of the table is as expected. -/
theorem reachable_invariant (adev : AudioDevice) (hreach : Reachable adev) :
    (0 ≤ adev.handles ∧ adev.handles ≤ INT32_MAX) ∧
      ∀ kv ∈ adev.patch_map_, patch_entry_ok kv := by
  induction hreach with
  | start adev hmap hcnt =>
    refine ⟨?_, ?_⟩
    · rw [hcnt]
      decide
    · rw [hmap]
      intro kv hkv
      simp at hkv
  | create env adev handle sources sinks r _ hcall ih =>
    exact ⟨create_handles_range env adev handle sources sinks r hcall ih.1,
      create_keeps_entries env adev handle sources sinks r hcall ih.1 ih.2⟩
  | release env adev handle r _ hcall ih =>
    refine ⟨?_, release_keeps_entries env adev handle r hcall ih.2⟩
    rw [(release_handles_eq env adev handle r hcall).1]
    exact ih.1
  | other adev adev1 _ hmap hcnt ih =>
    rw [hmap, hcnt]
    exact ih

/-- The device `ex_adev_patched` is a state that a run reaches: one creation on
`ex_adev`. -/
theorem ex_adev_patched_reachable : Reachable ex_adev_patched := by
  obtain ⟨r, hcall, hadev⟩ := ex_adev_wrapped_reached.1
  have h := Reachable.create ex_env_ok ex_adev (some AUDIO_PATCH_HANDLE_NONE)
    [ex_mix_port 7] [ex_device_port 2] r (Reachable.start ex_adev rfl rfl) hcall
  rw [hadev] at h
  exact h

/-- C25: in every state that is reached from the empty patch table and the counter at
the sentinel by calls of `CreateAudioPatch` and `ReleaseAudioPatch` that return, with any
arguments and any routing results (and by methods that leave table and counter alone),
every patch of the table has exactly one source, between 1 and `AUDIO_PATCH_PORTS_MAX`
sinks and the type playback or capture, and it is stored under a key that is its own
handle and is not the sentinel. -/
theorem C25_reachable_table_entries (adev : AudioDevice) (hreach : Reachable adev) :
    ∀ kv ∈ adev.patch_map_,
      kv.2.sources.length = 1 ∧ 1 ≤ kv.2.sinks.length ∧
      kv.2.sinks.length ≤ AUDIO_PATCH_PORTS_MAX ∧
      (kv.2.type = PatchType.PATCH_PLAYBACK ∨ kv.2.type = PatchType.PATCH_CAPTURE) ∧
      kv.2.type ≠ PatchType.PATCH_DEVICE_LOOPBACK ∧ kv.2.type ≠ PatchType.PATCH_NONE ∧
      kv.1 = kv.2.handle ∧ kv.1 ≠ AUDIO_PATCH_HANDLE_NONE ∧ patch_entry_ok kv := by
  intro kv hkv
  have hok := (reachable_invariant adev hreach).2 kv hkv
  obtain ⟨h1, h2, h3, h4, h5, h6⟩ := hok
  refine ⟨h1, h2, h3, h4, ?_, ?_, h5, h6, ⟨h1, h2, h3, h4, h5, h6⟩⟩
  · rcases h4 with h | h <;> rw [h] <;> decide
  · rcases h4 with h | h <;> rw [h] <;> decide

/-- C25 on `ex_adev_patched`, which one creation reaches: its entry under handle 1 is a
playback patch with one source and one sink. -/
theorem C25_reachable_table_entries_witness :
    Reachable ex_adev_patched ∧ ((1 : Int), ex_playback_patch 1) ∈ ex_adev_patched.patch_map_ ∧
    (ex_playback_patch 1).sources.length = 1 ∧ (ex_playback_patch 1).sinks.length = 1 ∧
    (ex_playback_patch 1).type = PatchType.PATCH_PLAYBACK ∧
    (ex_playback_patch 1).handle = 1 ∧
    patch_entry_ok ((1 : Int), ex_playback_patch 1) :=
  ⟨ex_adev_patched_reachable, by decide, rfl, rfl, rfl, rfl,
    (C25_reachable_table_entries ex_adev_patched ex_adev_patched_reachable
      ((1 : Int), ex_playback_patch 1) (by decide)).2.2.2.2.2.2.2.2⟩

/-! ## CreateAudioPatch: an update whose routing fails -/

/-- C26: a call of `CreateAudioPatch` with a handle `h` that is not the sentinel and is
a key of the table, that passes validation and stream lookup and whose routing returns
a nonzero status, returns that status and leaves the caller's handle at `h`; the keys
of the table are unchanged, and the entry under `h` holds the newly classified type and
the sources and sinks of the failed call, not those it held before; every other entry
is unchanged.  The patch-table lock is free at the call. -/
theorem C26_failed_update_is_kept (env : Env) (adev : AudioDevice) (h : Int)
    (p : AudioPatch) (src snk : audio_port_config) (rest : List audio_port_config)
    (pr : PatchRoute) (st : StreamPrimary)
    (hh : h ≠ AUDIO_PATCH_HANDLE_NONE)
    (hfind : map_find adev.patch_map_ h = some p)
    (hlen : (snk :: rest).length ≤ AUDIO_PATCH_PORTS_MAX)
    (hsw : CreateAudioPatch_switch src snk (snk :: rest) = .ok pr)
    (hst : adev.patch_stream pr.patch_type pr.io_handle = some st)
    (hret : (CreateAudioPatch_route env adev.voice_ st pr.patch_type pr.device_types).1 ≠ 0)
    (hfree : adev.patch_map_mutex = false) :
    ∃ r, adev.CreateAudioPatch env (some h) [src] (snk :: rest) = .ok r ∧
      r.ret = (CreateAudioPatch_route env adev.voice_ st pr.patch_type pr.device_types).1 ∧
      r.ret ≠ 0 ∧ r.handle = some h ∧
      r.calls = (CreateAudioPatch_route env adev.voice_ st pr.patch_type pr.device_types).2 ∧
      map_keys r.adev.patch_map_ = map_keys adev.patch_map_ ∧
      map_find r.adev.patch_map_ h = some ⟨p.handle, pr.patch_type, [src], snk :: rest⟩ ∧
      (∀ k, k ≠ h → map_find r.adev.patch_map_ k = map_find adev.patch_map_ k) := by
  refine ⟨⟨(CreateAudioPatch_route env adev.voice_ st pr.patch_type pr.device_types).1, some h,
    { adev with patch_map_ := (map_modify adev.patch_map_ h
        (fun q => ⟨q.handle, pr.patch_type, [src], snk :: rest⟩)) },
    (CreateAudioPatch_route env adev.voice_ st pr.patch_type pr.device_types).2⟩,
    ?_, rfl, hret, rfl, rfl, ?_, ?_, ?_⟩
  · rw [create_valid_eq env adev _ src snk rest hlen]
    simp [hsw, hst, hfree, hh, hfind]
  · exact map_keys_modify _ _ _
  · exact map_find_modify_self _ _ _ p hfind
  · intro k hk
    exact map_find_modify_of_ne _ _ _ _ hk

/-- C26 on `ex_adev_patched` with a backend whose stream routing fails: the update of
the patch under handle 1 to the devices 4 and 2 returns `-EINVAL`, and the entry holds
the sinks 4 and 2 afterwards. -/
theorem C26_failed_update_is_kept_witness :
    ((1 : Int) ≠ AUDIO_PATCH_HANDLE_NONE) ∧
    map_find ex_adev_patched.patch_map_ 1 = some (ex_playback_patch 1) ∧
    ex_adev_patched.patch_map_mutex = false ∧
    ∃ r, ex_adev_patched.CreateAudioPatch ex_env_fail (some 1) [ex_mix_port 7]
        [ex_device_port 4, ex_device_port 2] = .ok r ∧
      r.ret ≠ 0 ∧ r.handle = some 1 ∧
      map_find r.adev.patch_map_ 1 = some ⟨1, PatchType.PATCH_PLAYBACK, [ex_mix_port 7],
        [ex_device_port 4, ex_device_port 2]⟩ := by
  obtain ⟨r, h1, _, h3, h4, _, _, h7, _⟩ :=
    C26_failed_update_is_kept ex_env_fail ex_adev_patched 1 (ex_playback_patch 1)
      (ex_mix_port 7) (ex_device_port 4) [ex_device_port 2]
      ⟨PatchType.PATCH_PLAYBACK, 7, AUDIO_SOURCE_DEFAULT, {2, 4}⟩ ⟨1, 7⟩
      (by decide) (by decide) (by decide) rfl (by decide) (by decide) rfl
  exact ⟨by decide, by decide, rfl, r, h1, h3, h4, h7⟩

/-! ## adev_open_input_stream: the format gate -/

/-- C29: on a valid device, a request whose format is PCM_FLOAT, PCM_32_BIT,
PCM_24_BIT_PACKED or PCM_8_24_BIT: with a source that is neither UNPROCESSED nor
CAMCORDER it returns `-EINVAL`, leaves the device (so the registry) and the stream
out-parameter as they were and rewrites the format to PCM_16_BIT and the sample rate to
at most 48000; with the source UNPROCESSED or CAMCORDER and the format PCM_FLOAT or
PCM_32_BIT it returns `-EINVAL`, leaves device and out-parameter as they were and
rewrites the format to PCM_24_BIT_PACKED; with the source UNPROCESSED or CAMCORDER and
the format PCM_24_BIT_PACKED or PCM_8_24_BIT it is the stream lookup.  A request with
any other format is the stream lookup as well, so the rejection of PCM_FLOAT that
stands before the lookup is taken by no request. -/
theorem C29_input_format_gate (adev : AudioDevice) (new_id : Nat) (handle : Int)
    (format sample_rate : Nat) (source : Int) (stream_in : Option Nat)
    (hfmt : format = AUDIO_FORMAT_PCM_FLOAT ∨ format = AUDIO_FORMAT_PCM_32_BIT ∨
      format = AUDIO_FORMAT_PCM_24_BIT_PACKED ∨ format = AUDIO_FORMAT_PCM_8_24_BIT) :
    (source ≠ AUDIO_SOURCE_UNPROCESSED ∧ source ≠ AUDIO_SOURCE_CAMCORDER →
      adev_open_input_stream adev true new_id handle format sample_rate source stream_in =
        ⟨-EINVAL, adev, stream_in, AUDIO_FORMAT_PCM_16_BIT, min sample_rate 48000⟩) ∧
    (source = AUDIO_SOURCE_UNPROCESSED ∨ source = AUDIO_SOURCE_CAMCORDER →
      format = AUDIO_FORMAT_PCM_FLOAT ∨ format = AUDIO_FORMAT_PCM_32_BIT →
      adev_open_input_stream adev true new_id handle format sample_rate source stream_in =
        ⟨-EINVAL, adev, stream_in, AUDIO_FORMAT_PCM_24_BIT_PACKED, sample_rate⟩) ∧
    (source = AUDIO_SOURCE_UNPROCESSED ∨ source = AUDIO_SOURCE_CAMCORDER →
      format = AUDIO_FORMAT_PCM_24_BIT_PACKED ∨ format = AUDIO_FORMAT_PCM_8_24_BIT →
      adev_open_input_stream adev true new_id handle format sample_rate source stream_in =
        adev_open_input_stream_lookup adev new_id handle format sample_rate stream_in) ∧
    (∀ other : Nat, ¬ (other = AUDIO_FORMAT_PCM_FLOAT ∨ other = AUDIO_FORMAT_PCM_32_BIT ∨
        other = AUDIO_FORMAT_PCM_24_BIT_PACKED ∨ other = AUDIO_FORMAT_PCM_8_24_BIT) →
      adev_open_input_stream adev true new_id handle other sample_rate source stream_in =
        adev_open_input_stream_lookup adev new_id handle other sample_rate stream_in) := by
  refine ⟨?_, ?_, ?_, ?_⟩
  · intro hsrc
    have hmin : (if sample_rate > 48000 then 48000 else sample_rate) = min sample_rate 48000 := by
      split_ifs with h
      · exact (Nat.min_eq_right (Nat.le_of_lt h)).symm
      · exact (Nat.min_eq_left (Nat.le_of_not_gt h)).symm
    simp only [adev_open_input_stream, Bool.true_eq_false, if_false]
    rw [if_pos hfmt, if_pos hsrc, hmin]
  · intro hsrc hf
    have hnot : ¬ (format = AUDIO_FORMAT_PCM_24_BIT_PACKED ∨
        format = AUDIO_FORMAT_PCM_8_24_BIT) := by
      rcases hf with h | h <;> rw [h] <;> decide
    have hsrc2 : ¬ (source ≠ AUDIO_SOURCE_UNPROCESSED ∧ source ≠ AUDIO_SOURCE_CAMCORDER) := by
      rintro ⟨h1, h2⟩
      rcases hsrc with h | h
      · exact h1 h
      · exact h2 h
    simp only [adev_open_input_stream, Bool.true_eq_false, if_false]
    rw [if_pos hfmt, if_neg hsrc2, if_pos hnot]
  · intro hsrc hf
    have hfloat : ¬ format = AUDIO_FORMAT_PCM_FLOAT := by
      rcases hf with h | h <;> rw [h] <;> decide
    have hsrc2 : ¬ (source ≠ AUDIO_SOURCE_UNPROCESSED ∧ source ≠ AUDIO_SOURCE_CAMCORDER) := by
      rintro ⟨h1, h2⟩
      rcases hsrc with h | h
      · exact h1 h
      · exact h2 h
    simp only [adev_open_input_stream, Bool.true_eq_false, if_false]
    rw [if_pos hfmt, if_neg hsrc2, if_neg (not_not.mpr hf), if_neg hfloat]
    rfl
  · intro other hother
    have hfloat : ¬ other = AUDIO_FORMAT_PCM_FLOAT := fun h => hother (Or.inl h)
    simp only [adev_open_input_stream, Bool.true_eq_false, if_false]
    rw [if_neg hother, if_neg hfloat]
    rfl

/-- C29 on `ex_adev`: a PCM_FLOAT request at 96000 Hz with the source
`AUDIO_SOURCE_DEFAULT` is rejected with PCM_16_BIT at 48000 Hz, and the same request
with the source UNPROCESSED is rejected with PCM_24_BIT_PACKED at 96000 Hz. -/
theorem C29_input_format_gate_witness :
    adev_open_input_stream ex_adev true 5 3 AUDIO_FORMAT_PCM_FLOAT 96000
        AUDIO_SOURCE_DEFAULT none =
      ⟨-EINVAL, ex_adev, none, AUDIO_FORMAT_PCM_16_BIT, 48000⟩ ∧
    adev_open_input_stream ex_adev true 5 3 AUDIO_FORMAT_PCM_FLOAT 96000
        AUDIO_SOURCE_UNPROCESSED none =
      ⟨-EINVAL, ex_adev, none, AUDIO_FORMAT_PCM_24_BIT_PACKED, 96000⟩ :=
  have h := C29_input_format_gate ex_adev 5 3 AUDIO_FORMAT_PCM_FLOAT 96000
  ⟨(h AUDIO_SOURCE_DEFAULT none (Or.inl rfl)).1 (by decide),
    (h AUDIO_SOURCE_UNPROCESSED none (Or.inl rfl)).2.1 (Or.inl rfl) (Or.inl rfl)⟩

/-! ## SetParameters: the status returned -/

/-- What `SetParameters` does once the connect part has handed on a device and the
blocks sent: the status is that of the key `bt_swb`, the device is the one the rotation
part and the recording half of the disconnect part make, and the blocks are those of
the connect part followed by those of the rotation, disconnect and Bluetooth parts. -/
theorem SetParameters_run (env : SysEnv) (adev adev1 : AudioDevice) (parms : str_parms)
    (calls1 : List PalParam) (hvoice : adev.voice_ = true)
    (hconn : adev.SetParameters_connect env parms (SetParameters_screen_state parms) =
      .ok (.inr (adev1, calls1))) :
    adev.SetParameters env parms = .ok
      ⟨(match parms.bt_swb with
        | some val => env.pal_set_param (PalParam.bt_sco_swb val)
        | none => -ENOENT),
       (match parms.disconnect with
        | none => (adev1.SetParameters_rotation parms calls1).1
        | some val =>
          (adev1.SetParameters_rotation parms calls1).1.SetParameters_disconnect_record
            env parms val),
       (match parms.disconnect with
        | none => (adev1.SetParameters_rotation parms calls1).2
        | some val =>
          if (val % 4294967296).toNat = 0 then (adev1.SetParameters_rotation parms calls1).2
          else if env.calloc_fails then (adev1.SetParameters_rotation parms calls1).2
          else (adev1.SetParameters_rotation parms calls1).2 ++
            [PalParam.device_connection false
              (((adev1.SetParameters_rotation parms calls1).1.SetParameters_disconnect_record
                env parms val).GetPalDeviceIds_slot env (val % 4294967296).toNat
                pal_device_id_t.PAL_DEVICE_OUT_MIN)]) ++
        SetParameters_bt parms ++
        (match parms.bt_swb with
        | some val => [PalParam.bt_sco_swb val]
        | none => [])⟩ := by
  simp only [AudioDevice.SetParameters, hvoice, hconn, SetParameters_disconnect_eq]
  cases parms.disconnect <;> cases parms.bt_swb <;> simp

/-- The connect part of `SetParameters` hands on to the code after it, or returns 0 for
a USB card that is already there, or returns `-ENOMEM` after a failed `realloc`. -/
theorem SetParameters_connect_cases (env : SysEnv) (adev : AudioDevice) (parms : str_parms)
    (calls : List PalParam) :
    (∃ adev1 calls1, adev.SetParameters_connect env parms calls = .ok (.inr (adev1, calls1))) ∨
    (adev.SetParameters_connect env parms calls = .ok (.inl ⟨0, adev, calls⟩) ∧
      ∃ val, parms.connect = some val ∧
        adev.SetParameters_connect_record env parms val = none) ∨
    (∃ adev1, adev.SetParameters_connect env parms calls = .ok (.inl ⟨-ENOMEM, adev1, calls⟩) ∧
      env.realloc_fails = true) := by
  cases hconn : parms.connect with
  | none =>
    exact Or.inl ⟨adev, calls, by simp only [AudioDevice.SetParameters_connect, hconn]⟩
  | some val =>
    cases hrec : adev.SetParameters_connect_record env parms val with
    | none =>
      exact Or.inr (Or.inl ⟨by simp only [AudioDevice.SetParameters_connect, hconn, hrec],
        val, rfl, hrec⟩)
    | some adev1 =>
      have hrun : adev.SetParameters_connect env parms calls =
          adev1.SetParameters_connect_notify env (val % 4294967296).toNat calls := by
        simp only [AudioDevice.SetParameters_connect, hconn, hrec]
      rw [hrun, SetParameters_connect_notify_eq]
      split_ifs with h1 h2 h3 h4
      · exact Or.inl ⟨_, _, rfl⟩
      · exact Or.inl ⟨_, _, rfl⟩
      · exact Or.inr (Or.inr ⟨_, rfl, h4⟩)
      · exact Or.inl ⟨_, _, rfl⟩
      · exact Or.inl ⟨_, _, rfl⟩

/-- C27: a `SetParameters` call either takes one of the two returns inside the connect
part, with 0 for a USB card that is already there or with `-ENOMEM` after a failed
`realloc`, or it runs to its end; a call that runs to its end returns the status of the
last key alone: the lookup result `-ENOENT` of `bt_swb`, which is negative, when the key
is absent, and the result of `pal_set_param` for the super-wideband block when it is
present.  The results of `VoiceSetParameters` and of `pal_set_param` for the blocks of
the other keys do not occur in it. -/
theorem C27_status_is_last_key (env : SysEnv) (adev : AudioDevice) (parms : str_parms)
    (hvoice : adev.voice_ = true) :
    ((∃ adev1 calls1, adev.SetParameters_connect env parms (SetParameters_screen_state parms) =
        .ok (.inr (adev1, calls1))) ∨
      (adev.SetParameters env parms = .ok ⟨0, adev, SetParameters_screen_state parms⟩ ∧
        ∃ val, parms.connect = some val ∧
          adev.SetParameters_connect_record env parms val = none) ∨
      (∃ adev1, adev.SetParameters env parms =
          .ok ⟨-ENOMEM, adev1, SetParameters_screen_state parms⟩ ∧
        env.realloc_fails = true)) ∧
    (∀ adev1 calls1, adev.SetParameters_connect env parms (SetParameters_screen_state parms) =
        .ok (.inr (adev1, calls1)) →
      ∃ r, adev.SetParameters env parms = .ok r ∧
        r.ret = (match parms.bt_swb with
          | some val => env.pal_set_param (PalParam.bt_sco_swb val)
          | none => -ENOENT) ∧
        (parms.bt_swb = none → r.ret = -ENOENT ∧ r.ret < 0)) := by
  constructor
  · rcases SetParameters_connect_cases env adev parms (SetParameters_screen_state parms) with
      h | ⟨h, hval⟩ | ⟨adev1, h, hre⟩
    · exact Or.inl h
    · exact Or.inr (Or.inl ⟨SetParameters_connect_return env adev parms _ hvoice h, hval⟩)
    · exact Or.inr (Or.inr ⟨adev1, SetParameters_connect_return env adev parms _ hvoice h, hre⟩)
  · intro adev1 calls1 hconn
    refine ⟨_, SetParameters_run env adev adev1 parms calls1 hvoice hconn, rfl, ?_⟩
    intro hswb
    rw [hswb]
    refine ⟨rfl, ?_⟩
    show (-ENOENT : Int) < 0
    decide

/-- C27 on `ex_adev_init` with a platform in which `VoiceSetParameters` and the rotation
block fail: a rotation to 270 returns `-ENOENT`, and the same rotation with `bt_swb`
returns the 0 of the super-wideband block. -/
theorem C27_status_is_last_key_witness :
    ex_adev_init.voice_ = true ∧
    ex_sys_env_failing.VoiceSetParameters ≠ 0 ∧
    ex_sys_env_failing.pal_set_param (PalParam.device_rotation
      pal_speaker_rotation_type.PAL_SPEAKER_ROTATION_RL) ≠ 0 ∧
    (∃ r, ex_adev_init.SetParameters ex_sys_env_failing (ex_rotation_parms 270) = .ok r ∧
      r.ret = -ENOENT) ∧
    (∃ r, ex_adev_init.SetParameters ex_sys_env_failing (ex_rotation_swb_parms 270 1) = .ok r ∧
      r.ret = 0) := by
  obtain ⟨r1, h1, h2, _⟩ := (C27_status_is_last_key ex_sys_env_failing ex_adev_init
    (ex_rotation_parms 270) rfl).2 ex_adev_init [] rfl
  obtain ⟨r2, k1, k2, _⟩ := (C27_status_is_last_key ex_sys_env_failing ex_adev_init
    (ex_rotation_swb_parms 270 1) rfl).2 ex_adev_init [] rfl
  exact ⟨rfl, by decide, by decide, ⟨r1, h1, h2⟩, ⟨r2, k1, k2⟩⟩

/-! ## SetParameters: a device that the table does not hold -/

/-- The `screen_state` part sends no device-connection block. -/
theorem SetParameters_screen_state_filter (parms : str_parms) :
    (SetParameters_screen_state parms).filter PalParam.is_device_connection = [] := by
  unfold SetParameters_screen_state
  split <;> rfl

/-- The Bluetooth parts send no device-connection block. -/
theorem SetParameters_bt_filter (parms : str_parms) :
    (SetParameters_bt parms).filter PalParam.is_device_connection = [] := by
  unfold SetParameters_bt
  simp only [List.filter_append, List.append_eq_nil]
  refine ⟨⟨⟨⟨?_, ?_⟩, ?_⟩, ?_⟩, ?_⟩
  · split <;> rfl
  · split <;> rfl
  · split <;> rfl
  · split <;> rfl
  · split <;> rfl

/-- The rotation part sends no device-connection block and leaves the translation table
as it is. -/
theorem SetParameters_rotation_calls (adev : AudioDevice) (parms : str_parms)
    (calls : List PalParam) :
    (adev.SetParameters_rotation parms calls).2.filter PalParam.is_device_connection =
      calls.filter PalParam.is_device_connection ∧
    (adev.SetParameters_rotation parms calls).1.android_device_map_ =
      adev.android_device_map_ := by
  unfold AudioDevice.SetParameters_rotation
  repeat' split
  all_goals simp [PalParam.is_device_connection]

/-- The recording half of the connect part leaves the translation table as it is. -/
theorem SetParameters_connect_record_map (env : SysEnv) (adev adev1 : AudioDevice)
    (parms : str_parms) (val : Int)
    (hrec : adev.SetParameters_connect_record env parms val = some adev1) :
    adev1.android_device_map_ = adev.android_device_map_ := by
  unfold AudioDevice.SetParameters_connect_record at hrec
  repeat' first | split at hrec | dsimp only at hrec
  all_goals first
    | (cases hrec; rfl)
    | exact absurd hrec (by simp)

/-- The recording half of the disconnect part leaves the translation table as it is. -/
theorem SetParameters_disconnect_record_map (env : SysEnv) (adev : AudioDevice)
    (parms : str_parms) (val : Int) :
    (adev.SetParameters_disconnect_record env parms val).android_device_map_ =
      adev.android_device_map_ := by
  unfold AudioDevice.SetParameters_disconnect_record
  dsimp only
  split_ifs <;> rfl

/-- The slot of a device that the table does not hold keeps its content. -/
theorem GetPalDeviceIds_slot_unmapped (env : SysEnv) (adev : AudioDevice) (d : Nat)
    (old : pal_device_id_t) (hfind : devmap_find adev.android_device_map_ d = none) :
    adev.GetPalDeviceIds_slot env d old = old := by
  unfold AudioDevice.GetPalDeviceIds_slot
  split_ifs
  · simp only [hfind]
  · rfl

/-- C28: for a logical device `d` that is not zero and is not in the translation table,
when `calloc` succeeds: a `SetParameters` device-connect for `d` (a string without the
disconnect key, `d` not a USB input device) sends exactly one device-connection block,
with the connection state true and the id `PAL_DEVICE_OUT_MIN`, the zero that `calloc`
left in the slot and `GetPalDeviceIds` did not write; a device-disconnect for `d` (a
string without the connect key) sends exactly one device-connection block, with the
connection state false and the same zero id. -/
theorem C28_unmapped_device_block (env : SysEnv) (adev : AudioDevice) (parms : str_parms)
    (val : Int) (hvoice : adev.voice_ = true)
    (hdev : (val % 4294967296).toNat ≠ 0)
    (hfind : devmap_find adev.android_device_map_ (val % 4294967296).toNat = none)
    (hcalloc : env.calloc_fails = false) :
    (parms.connect = some val → parms.disconnect = none →
      env.audio_is_usb_in_device (val % 4294967296).toNat = false →
      ∃ r, adev.SetParameters env parms = .ok r ∧
        r.calls.filter PalParam.is_device_connection =
          [PalParam.device_connection true pal_device_id_t.PAL_DEVICE_OUT_MIN]) ∧
    (parms.connect = none → parms.disconnect = some val →
      ∃ r, adev.SetParameters env parms = .ok r ∧
        r.calls.filter PalParam.is_device_connection =
          [PalParam.device_connection false pal_device_id_t.PAL_DEVICE_OUT_MIN]) := by
  constructor
  · intro hconn hdis hin
    obtain ⟨adev1, hrec⟩ : ∃ adev1, adev.SetParameters_connect_record env parms val =
        some adev1 := by
      unfold AudioDevice.SetParameters_connect_record
      simp only [hin, Bool.false_eq_true, false_and, and_false, if_false]
      repeat' split
      all_goals exact ⟨_, rfl⟩
    have hmap := SetParameters_connect_record_map env adev adev1 parms val hrec
    have hslot := GetPalDeviceIds_slot_unmapped env adev1 (val % 4294967296).toNat
      pal_device_id_t.PAL_DEVICE_OUT_MIN (by rw [hmap]; exact hfind)
    have hne : ¬ pal_device_id_t.PAL_DEVICE_OUT_MIN =
        pal_device_id_t.PAL_DEVICE_OUT_USB_HEADSET := by decide
    have hrun : adev.SetParameters_connect env parms (SetParameters_screen_state parms) =
        .ok (.inr (adev1, SetParameters_screen_state parms ++
          [PalParam.device_connection true pal_device_id_t.PAL_DEVICE_OUT_MIN])) := by
      simp only [AudioDevice.SetParameters_connect, hconn, hrec,
        SetParameters_connect_notify_eq, hdev, if_false, hcalloc, Bool.false_eq_true, hslot, hne]
    refine ⟨_, SetParameters_run env adev adev1 parms _ hvoice hrun, ?_⟩
    simp only [hdis, List.filter_append, (SetParameters_rotation_calls adev1 parms _).1,
      SetParameters_screen_state_filter, SetParameters_bt_filter, List.nil_append,
      List.append_nil]
    cases parms.bt_swb <;> rfl
  · intro hconn hdis
    have hrun : adev.SetParameters_connect env parms (SetParameters_screen_state parms) =
        .ok (.inr (adev, SetParameters_screen_state parms)) := by
      simp only [AudioDevice.SetParameters_connect, hconn]
    have hmap : ((adev.SetParameters_rotation parms
        (SetParameters_screen_state parms)).1.SetParameters_disconnect_record env parms
        val).android_device_map_ = adev.android_device_map_ := by
      rw [SetParameters_disconnect_record_map, (SetParameters_rotation_calls adev parms _).2]
    have hslot := GetPalDeviceIds_slot_unmapped env
      ((adev.SetParameters_rotation parms
        (SetParameters_screen_state parms)).1.SetParameters_disconnect_record env parms val)
      (val % 4294967296).toNat pal_device_id_t.PAL_DEVICE_OUT_MIN (by rw [hmap]; exact hfind)
    refine ⟨_, SetParameters_run env adev adev parms _ hvoice hrun, ?_⟩
    simp only [hdis, hdev, if_false, hcalloc, Bool.false_eq_true, hslot, List.filter_append,
      (SetParameters_rotation_calls adev parms _).1, SetParameters_screen_state_filter,
      SetParameters_bt_filter, List.nil_append, List.append_nil]
    cases parms.bt_swb <;> rfl

/-- C28 on `ex_adev_init`: `AUDIO_DEVICE_OUT_USB_ACCESSORY` is not in the table of
`FillAndroidDeviceMap`; its connect sends one block with the state true and the zero id,
its disconnect one block with the state false and the zero id. -/
theorem C28_unmapped_device_block_witness :
    ex_adev_init.voice_ = true ∧
    devmap_find ex_adev_init.android_device_map_ AUDIO_DEVICE_OUT_USB_ACCESSORY = none ∧
    (∃ r, ex_adev_init.SetParameters ex_sys_env
        (ex_connect_parms (AUDIO_DEVICE_OUT_USB_ACCESSORY : Int) 3) = .ok r ∧
      r.calls.filter PalParam.is_device_connection =
        [PalParam.device_connection true pal_device_id_t.PAL_DEVICE_OUT_MIN]) ∧
    (∃ r, ex_adev_init.SetParameters ex_sys_env
        (ex_disconnect_parms (AUDIO_DEVICE_OUT_USB_ACCESSORY : Int) 3) = .ok r ∧
      r.calls.filter PalParam.is_device_connection =
        [PalParam.device_connection false pal_device_id_t.PAL_DEVICE_OUT_MIN]) :=
  ⟨rfl, by decide,
    (C28_unmapped_device_block ex_sys_env ex_adev_init
      (ex_connect_parms (AUDIO_DEVICE_OUT_USB_ACCESSORY : Int) 3)
      (AUDIO_DEVICE_OUT_USB_ACCESSORY : Int) rfl (by decide) (by decide) rfl).1 rfl rfl
      (by decide),
    (C28_unmapped_device_block ex_sys_env ex_adev_init
      (ex_disconnect_parms (AUDIO_DEVICE_OUT_USB_ACCESSORY : Int) 3)
      (AUDIO_DEVICE_OUT_USB_ACCESSORY : Int) rfl (by decide) (by decide) rfl).2 rfl rfl⟩

end AudioHal
